import Mathlib

/-!
Shallow embedding of the projectile-motion solver of
`src/projectile_motion/src/main.cpp` (TI-84 Plus CE kinematics program).

Embedding conventions:
* C `float` arithmetic is idealised as exact rational arithmetic over `ℚ`;
  the float literals `9.81f`, `3.14159265f`, `0.5f`, `0.001f` become the
  exact rationals `981/100`, `314159265/100000000`, `1/2`, `1/1000`.
* The transcendental library functions `sqrtf`, `cosf`, `sinf`, `atan2f`
  have no algebraic definition, so the development is parametrised over
  arbitrary stand-in functions `sq cs sn : ℚ → ℚ` and `a2 : ℚ → ℚ → ℚ`.
  Structural theorems hold for every choice of stand-ins; concrete
  evaluations instantiate them with functions that agree with the C
  library functions at every point where the run in question actually
  calls them.
* Divisions and square roots inside the equation catalogue are modelled
  in the `Except Unit` monad: `ediv` fails on a zero denominator and
  `esqrt` fails on a negative radicand.  The solver treats a failing
  compute as a rule that does not fire; the safety theorem for claim C8
  shows the failure branch is unreachable.
* A rule's outcome is `none` (rule does not fire at all) or
  `some (value, accepted)`: the source assigns the local variable first
  and only then tests the acceptance condition (`t = ...; if (t >= 0)`),
  so a rejected time still overwrites the local value while leaving the
  known flag clear.  `accepted` records whether the known flag is set.
* The provenance strings (`eqUsed` / `addEq`) are display-only in the
  source ("not required for correctness" per the design) and are not
  modelled; neither is any drawing or keyboard code.
* The standard `Rat` arithmetic of the library is `@[irreducible]`, so
  concrete runs could not be evaluated by `decide`.  The embedding
  therefore computes with the reducible wrappers `qAdd`, `qSub`, `qMul`,
  `qDiv`, proved equal to `+`, `-`, `*`, `/` on `ℚ` by the theorems
  `qAdd_eq`, `qSub_eq`, `qMul_eq`, `qDiv_eq` below.
-/

set_option maxRecDepth 8000

namespace Kin

/-- Identifiers of the seven per-axis kinematic variables, in the order of
the C arrays `xVals` / `yVals`: `p0, pf, v0, vf, a, d, t` (indices 0..6). -/
inductive Var
  | p0 | pf | v0 | vf | a | d | t
deriving DecidableEq

instance : Fintype Var where
  elems := {.p0, .pf, .v0, .vf, .a, .d, .t}
  complete := by intro x; cases x <;> decide

/-- Values of the seven kinematic variables of one axis (the C `float` array
`xVals` resp. `yVals`, idealised to `ℚ`). -/
structure Vals where
  p0 : ℚ
  pf : ℚ
  v0 : ℚ
  vf : ℚ
  a : ℚ
  d : ℚ
  t : ℚ
deriving DecidableEq

/-- One boolean flag per kinematic variable (the C arrays `xKnown`,
`yKnown`, `xUserSet`, `yUserSet`). -/
structure Flags where
  p0 : Bool
  pf : Bool
  v0 : Bool
  vf : Bool
  a : Bool
  d : Bool
  t : Bool
deriving DecidableEq

def Vals.get (s : Vals) : Var → ℚ
  | .p0 => s.p0
  | .pf => s.pf
  | .v0 => s.v0
  | .vf => s.vf
  | .a => s.a
  | .d => s.d
  | .t => s.t

def Vals.set (s : Vals) (v : Var) (q : ℚ) : Vals :=
  match v with
  | .p0 => { s with p0 := q }
  | .pf => { s with pf := q }
  | .v0 => { s with v0 := q }
  | .vf => { s with vf := q }
  | .a => { s with a := q }
  | .d => { s with d := q }
  | .t => { s with t := q }

def Flags.get (s : Flags) : Var → Bool
  | .p0 => s.p0
  | .pf => s.pf
  | .v0 => s.v0
  | .vf => s.vf
  | .a => s.a
  | .d => s.d
  | .t => s.t

def Flags.set (s : Flags) (v : Var) (b : Bool) : Flags :=
  match v with
  | .p0 => { s with p0 := b }
  | .pf => { s with pf := b }
  | .v0 => { s with v0 := b }
  | .vf => { s with vf := b }
  | .a => { s with a := b }
  | .d => { s with d := b }
  | .t => { s with t := b }

/-- Build a flag record from a function on variable names. -/
def Flags.build (f : Var → Bool) : Flags :=
  ⟨f .p0, f .pf, f .v0, f .vf, f .a, f .d, f .t⟩

/-- Reducible rational addition (definitionally `mkRat`-normalised, and
equal to `+` by `qAdd_eq`). -/
def qAdd (a b : ℚ) : ℚ := mkRat (a.num * b.den + b.num * a.den) (a.den * b.den)

/-- Reducible rational subtraction, equal to `-` by `qSub_eq`. -/
def qSub (a b : ℚ) : ℚ := mkRat (a.num * b.den - b.num * a.den) (a.den * b.den)

/-- Reducible rational multiplication, equal to `*` by `qMul_eq`. -/
def qMul (a b : ℚ) : ℚ := mkRat (a.num * b.num) (a.den * b.den)

/-- Reducible rational division (`0` on a zero divisor, like `/` on
`ℚ`), equal to `/` by `qDiv_eq`. -/
def qDiv (a b : ℚ) : ℚ := Rat.divInt (a.num * b.den) (a.den * b.num)

/-- The float literal `0.5f` of the source. -/
def half : ℚ := mkRat 1 2

/-- The float literal `0.001f` of the source (tie-break threshold). -/
def roundEps : ℚ := mkRat 1 1000

/-- Local state of one `trySolve` call: the seven values and the local
known flags (`kp0 .. kt` in the source). -/
structure SState where
  vals : Vals
  known : Flags
deriving DecidableEq

/-- Guarded division (`x / y` in the source, always behind a `y != 0`
test).  Failure marks an unguarded zero denominator. -/
def ediv (x y : ℚ) : Except Unit ℚ :=
  if y = 0 then .error () else .ok (qDiv x y)

/-- Guarded square root (`sqrtf` in the source, always behind a
`disc >= 0` test).  Failure marks an unguarded negative radicand. -/
def esqrt (sq : ℚ → ℚ) (x : ℚ) : Except Unit ℚ :=
  if x < 0 then .error () else .ok (sq x)

deriving instance DecidableEq for Except

/-- One rule of the equation catalogue: the output variable, the
variables whose known flags gate the rule (in the order of the source
condition), and the computation.  The computation returns `none` when a
numeric guard rejects the rule outright, and `some (q, accepted)` when
the local value is assigned `q`; `accepted` is whether the local known
flag is set (false exactly for a stored-but-rejected time value). -/
structure Rule where
  target : Var
  needs : List Var
  compute : Vals → Except Unit (Option (ℚ × Bool))

/-- Source line 123: `d = pf - p0`. -/
def rule1 : Rule := ⟨.d, [.p0, .pf], fun u => .ok (some (qSub u.pf u.p0, true))⟩

/-- Source line 128: `pf = p0 + d`. -/
def rule2 : Rule := ⟨.pf, [.p0, .d], fun u => .ok (some (qAdd u.p0 u.d, true))⟩

/-- Source line 133: `p0 = pf - d`. -/
def rule3 : Rule := ⟨.p0, [.pf, .d], fun u => .ok (some (qSub u.pf u.d, true))⟩

/-- Source line 138: `t = (vf - v0) / a`, guard `a != 0`, accepted only
if `t >= 0` (the local `t` is assigned first and kept even on reject). -/
def rule4 : Rule :=
  ⟨.t, [.v0, .vf, .a], fun u =>
    if u.a = 0 then .ok none
    else do
      let tv ← ediv (qSub u.vf u.v0) u.a
      pure (some (tv, decide (0 ≤ tv)))⟩

/-- Source line 142: `vf = v0` when `a == 0`. -/
def rule5 : Rule :=
  ⟨.vf, [.v0, .a], fun u => .ok (if u.a = 0 then some (u.v0, true) else none)⟩

/-- Source line 147: `v0 = vf` when `a == 0`. -/
def rule6 : Rule :=
  ⟨.v0, [.vf, .a], fun u => .ok (if u.a = 0 then some (u.vf, true) else none)⟩

/-- Source line 152: `vf = v0 + a*t`. -/
def rule7 : Rule :=
  ⟨.vf, [.v0, .a, .t], fun u => .ok (some (qAdd u.v0 (qMul u.a u.t), true))⟩

/-- Source line 157: `v0 = vf - a*t`. -/
def rule8 : Rule :=
  ⟨.v0, [.vf, .a, .t], fun u => .ok (some (qSub u.vf (qMul u.a u.t), true))⟩

/-- Source line 162: `a = (vf - v0) / t`, guard `t != 0`. -/
def rule9 : Rule :=
  ⟨.a, [.v0, .vf, .t], fun u =>
    if u.t = 0 then .ok none
    else do
      let r ← ediv (qSub u.vf u.v0) u.t
      pure (some (r, true))⟩

/-- Source line 167: `d = v0*t + 0.5*a*t*t`. -/
def rule10 : Rule :=
  ⟨.d, [.v0, .t, .a], fun u =>
    .ok (some (qAdd (qMul u.v0 u.t) (qMul (qMul (qMul half u.a) u.t) u.t), true))⟩

/-- Source line 172: `v0 = (d - 0.5*a*t*t) / t`, guard `t != 0`. -/
def rule11 : Rule :=
  ⟨.v0, [.d, .t, .a], fun u =>
    if u.t = 0 then .ok none
    else do
      let r ← ediv (qSub u.d (qMul (qMul (qMul half u.a) u.t) u.t)) u.t
      pure (some (r, true))⟩

/-- Source line 177: `a = 2*(d - v0*t) / (t*t)`, guard `t != 0`. -/
def rule12 : Rule :=
  ⟨.a, [.v0, .d, .t], fun u =>
    if u.t = 0 then .ok none
    else do
      let r ← ediv (qMul 2 (qSub u.d (qMul u.v0 u.t))) (qMul u.t u.t)
      pure (some (r, true))⟩

/-- Source line 182: `d = (v0 + vf) * 0.5 * t`. -/
def rule13 : Rule :=
  ⟨.d, [.v0, .vf, .t], fun u =>
    .ok (some (qMul (qMul (qAdd u.v0 u.vf) half) u.t, true))⟩

/-- Source line 187: `t = 2*d / (v0 + vf)`, guard `(v0 + vf) != 0`,
accepted only if `t >= 0` (local `t` assigned first). -/
def rule14 : Rule :=
  ⟨.t, [.v0, .vf, .d], fun u =>
    if qAdd u.v0 u.vf = 0 then .ok none
    else do
      let tv ← ediv (qMul 2 u.d) (qAdd u.v0 u.vf)
      pure (some (tv, decide (0 ≤ tv)))⟩

/-- Source line 191: `v0 = 2*d / t - vf`, guard `t != 0`. -/
def rule15 : Rule :=
  ⟨.v0, [.vf, .d, .t], fun u =>
    if u.t = 0 then .ok none
    else do
      let r ← ediv (qMul 2 u.d) u.t
      pure (some (qSub r u.vf, true))⟩

/-- Source line 196: `vf = 2*d / t - v0`, guard `t != 0`. -/
def rule16 : Rule :=
  ⟨.vf, [.v0, .d, .t], fun u =>
    if u.t = 0 then .ok none
    else do
      let r ← ediv (qMul 2 u.d) u.t
      pure (some (qSub r u.v0, true))⟩

/-- Source line 202: `d = vf*t - 0.5*a*t*t`. -/
def rule17 : Rule :=
  ⟨.d, [.vf, .t, .a], fun u =>
    .ok (some (qSub (qMul u.vf u.t) (qMul (qMul (qMul half u.a) u.t) u.t), true))⟩

/-- Source line 207: `vf = (d + 0.5*a*t*t) / t`, guard `t != 0`. -/
def rule18 : Rule :=
  ⟨.vf, [.d, .t, .a], fun u =>
    if u.t = 0 then .ok none
    else do
      let r ← ediv (qAdd u.d (qMul (qMul (qMul half u.a) u.t) u.t)) u.t
      pure (some (r, true))⟩

/-- Source line 212: `a = 2*(vf*t - d) / (t*t)`, guard `t != 0`. -/
def rule19 : Rule :=
  ⟨.a, [.vf, .d, .t], fun u =>
    if u.t = 0 then .ok none
    else do
      let r ← ediv (qMul 2 (qSub (qMul u.vf u.t) u.d)) (qMul u.t u.t)
      pure (some (r, true))⟩

/-- Source lines 217-238: solve `d = vf*t - 0.5*a*t^2` for `t`.
If `a != 0`: discriminant `vf*vf - 2*a*d`; if non-negative, roots
`t1 = (vf - sqrt)/a`, `t2 = (vf + sqrt)/a`; take the larger root if it
exceeds `0.001`, else the smaller root if non-negative, else no fire.
If `a == 0` and `vf != 0`: `t = d / vf`, accepted only if `t >= 0`
(local `t` assigned first). -/
def rule20 (sq : ℚ → ℚ) : Rule :=
  ⟨.t, [.vf, .d, .a], fun u =>
    if u.a = 0 then
      if u.vf = 0 then .ok none
      else do
        let tv ← ediv u.d u.vf
        pure (some (tv, decide (0 ≤ tv)))
    else
      let disc := qSub (qMul u.vf u.vf) (qMul (qMul 2 u.a) u.d)
      if 0 ≤ disc then do
        let r ← esqrt sq disc
        let t1 ← ediv (qSub u.vf r) u.a
        let t2 ← ediv (qAdd u.vf r) u.a
        let tMax := if t2 < t1 then t1 else t2
        let tMin := if t1 < t2 then t1 else t2
        pure (if roundEps < tMax then some (tMax, true)
              else if 0 ≤ tMin then some (tMin, true) else none)
      else .ok none⟩

/-- Source lines 239-260: solve `d = v0*t + 0.5*a*t^2` for `t`.
If `a != 0`: discriminant `v0*v0 + 2*a*d`; roots `t1 = (-v0 + sqrt)/a`,
`t2 = (-v0 - sqrt)/a`; same tie-break as `rule20`.  If `a == 0` and
`v0 != 0`: `t = d / v0`, accepted only if `t >= 0`. -/
def rule21 (sq : ℚ → ℚ) : Rule :=
  ⟨.t, [.v0, .d, .a], fun u =>
    if u.a = 0 then
      if u.v0 = 0 then .ok none
      else do
        let tv ← ediv u.d u.v0
        pure (some (tv, decide (0 ≤ tv)))
    else
      let disc := qAdd (qMul u.v0 u.v0) (qMul (qMul 2 u.a) u.d)
      if 0 ≤ disc then do
        let r ← esqrt sq disc
        let t1 ← ediv (qAdd (-u.v0) r) u.a
        let t2 ← ediv (qSub (-u.v0) r) u.a
        let tMax := if t2 < t1 then t1 else t2
        let tMin := if t1 < t2 then t1 else t2
        pure (if roundEps < tMax then some (tMax, true)
              else if 0 ≤ tMin then some (tMin, true) else none)
      else .ok none⟩

/-- Source lines 261-270: `vf^2 = v0^2 + 2*a*d` solved for `vf`; the
magnitude `sqrt(disc)` gets the sign of `v0` when `v0 != 0`, otherwise
it is non-negative iff `a*d >= 0`. -/
def rule22 (sq : ℚ → ℚ) : Rule :=
  ⟨.vf, [.v0, .a, .d], fun u =>
    let disc := qAdd (qMul u.v0 u.v0) (qMul (qMul 2 u.a) u.d)
    if 0 ≤ disc then do
      let m ← esqrt sq disc
      pure (some (if u.v0 ≠ 0 then (if 0 < u.v0 then m else -m)
                  else (if 0 ≤ qMul u.a u.d then m else -m), true))
    else .ok none⟩

/-- Source lines 271-280: `v0^2 = vf^2 - 2*a*d` solved for `v0`; the
magnitude `sqrt(disc)` gets the sign of `vf` when `vf != 0`, otherwise
it is non-negative iff `a*d <= 0`. -/
def rule23 (sq : ℚ → ℚ) : Rule :=
  ⟨.v0, [.vf, .a, .d], fun u =>
    let disc := qSub (qMul u.vf u.vf) (qMul (qMul 2 u.a) u.d)
    if 0 ≤ disc then do
      let m ← esqrt sq disc
      pure (some (if u.vf ≠ 0 then (if 0 < u.vf then m else -m)
                  else (if qMul u.a u.d ≤ 0 then m else -m), true))
    else .ok none⟩

/-- Source line 281: `a = (vf*vf - v0*v0) / (2*d)`, guard `d != 0`. -/
def rule24 : Rule :=
  ⟨.a, [.v0, .vf, .d], fun u =>
    if u.d = 0 then .ok none
    else do
      let r ← ediv (qSub (qMul u.vf u.vf) (qMul u.v0 u.v0)) (qMul 2 u.d)
      pure (some (r, true))⟩

/-- Source line 286: `d = (vf*vf - v0*v0) / (2*a)`, guard `a != 0`. -/
def rule25 : Rule :=
  ⟨.d, [.v0, .vf, .a], fun u =>
    if u.a = 0 then .ok none
    else do
      let r ← ediv (qSub (qMul u.vf u.vf) (qMul u.v0 u.v0)) (qMul 2 u.a)
      pure (some (r, true))⟩

/-- The equation catalogue: the 25 guarded rules of `trySolve`
(source lines 123-290), in source order. -/
def catalogue (sq : ℚ → ℚ) : List Rule :=
  [rule1, rule2, rule3, rule4, rule5, rule6, rule7, rule8, rule9, rule10,
   rule11, rule12, rule13, rule14, rule15, rule16, rule17, rule18, rule19,
   rule20 sq, rule21 sq, rule22 sq, rule23 sq, rule24, rule25]

/-- Apply one rule: it is considered when its target is locally unknown
and all gate variables are locally known; a considered rule writes the
computed value and sets the local known flag iff the value is accepted.
An `Except` failure (impossible by claim C8) is treated as no fire. -/
def applyRule (s : SState) (r : Rule) : SState :=
  if !s.known.get r.target && r.needs.all (fun v => s.known.get v) then
    match r.compute s.vals with
    | .ok (some (q, b)) => ⟨s.vals.set r.target q, s.known.set r.target b⟩
    | _ => s
  else s

/-- One round of the `for (int iter ...)` loop body: every catalogue
rule considered once, in source order. -/
def runRound (sq : ℚ → ℚ) (s : SState) : SState :=
  (catalogue sq).foldl applyRule s

/-- The bounded iteration of `trySolve`: 20 rounds. -/
def solveLoop (sq : ℚ → ℚ) (s : SState) : SState :=
  (runRound sq)^[20] s

/-- Persistent state of one axis: values, known flags, user-set flags
(`xVals`/`xKnown`/`xUserSet` resp. the `y` arrays). -/
structure Axis where
  vals : Vals
  known : Flags
  userSet : Flags
deriving DecidableEq

/-- Source lines 295-307: the persistent known flag of a non-user-set
variable is raised when the local solve knows it; it is never cleared. -/
def writeback (old localK us : Flags) : Flags :=
  Flags.build fun v => if !us.get v && localK.get v then true else old.get v

/-- Source lines 118-308, `trySolve`: run the catalogue for 20 rounds on
a copy of the values and local known flags, write all values back, and
raise the persistent known flags of non-user-set variables that the
loop resolved. -/
def trySolve (sq : ℚ → ℚ) (ax : Axis) : Axis :=
  ⟨(solveLoop sq ⟨ax.vals, ax.known⟩).vals,
   writeback ax.known (solveLoop sq ⟨ax.vals, ax.known⟩).known ax.userSet,
   ax.userSet⟩

/-- Whole solver state: the two axes plus the three coupling scalars
with their known / user-set flags (source globals, lines 40-55). -/
structure PState where
  x : Axis
  y : Axis
  launchSpeed : ℚ
  launchAngle : ℚ
  finalSpeed : ℚ
  speedKnown : Bool
  angleKnown : Bool
  finalSpeedKnown : Bool
  speedUserSet : Bool
  angleUserSet : Bool
  finalSpeedUserSet : Bool
deriving DecidableEq

def gravity : ℚ := mkRat 981 100

def piQ : ℚ := mkRat 314159265 100000000

def degToRad : ℚ := qDiv piQ 180

def radToDeg : ℚ := qDiv 180 piQ

/-- Source lines 314-320: every non-user-set known flag is cleared
before solving. -/
def resetAxis (ax : Axis) : Axis :=
  ⟨ax.vals, Flags.build fun v => ax.userSet.get v && ax.known.get v, ax.userSet⟩

def phaseReset (s : PState) : PState :=
  { s with
    x := resetAxis s.x
    y := resetAxis s.y
    speedKnown := s.speedUserSet && s.speedKnown
    angleKnown := s.angleUserSet && s.angleKnown
    finalSpeedKnown := s.finalSpeedUserSet && s.finalSpeedKnown }

/-- Write a value into an axis variable and mark it known (the pattern
`vals[i] = v; known[i] = true;` used by the coupling code). -/
def setD (ax : Axis) (v : Var) (q : ℚ) : Axis :=
  ⟨ax.vals.set v q, ax.known.set v true, ax.userSet⟩

/-- Source lines 322-327: if both launch speed and angle are user-set,
derive both initial velocity components (unconditionally overwriting
them). -/
def phaseSeedVel (cs sn : ℚ → ℚ) (s : PState) : PState :=
  if s.speedUserSet && s.angleUserSet then
    { s with
      x := setD s.x .v0 (qMul s.launchSpeed (cs (qMul s.launchAngle degToRad)))
      y := setD s.y .v0 (qMul s.launchSpeed (sn (qMul s.launchAngle degToRad))) }
  else s

/-- Source lines 329-336: if the final speed is user-set and X's final
velocity is known while Y's is not user-set, derive Y's component
(negative root), skipping a negative radicand. -/
def seedFinalY (sq : ℚ → ℚ) (s : PState) : PState :=
  if s.finalSpeedUserSet && s.x.known.get .vf && !s.y.userSet.get .vf then
    if 0 ≤ qSub (qMul s.finalSpeed s.finalSpeed)
        (qMul (s.x.vals.get .vf) (s.x.vals.get .vf)) then
      { s with y := setD s.y .vf (-(sq (qSub (qMul s.finalSpeed s.finalSpeed)
          (qMul (s.x.vals.get .vf) (s.x.vals.get .vf))))) }
    else s
  else s

/-- Source lines 337-344: the symmetric X derivation (positive root). -/
def seedFinalX (sq : ℚ → ℚ) (s : PState) : PState :=
  if s.finalSpeedUserSet && s.y.known.get .vf && !s.x.userSet.get .vf then
    if 0 ≤ qSub (qMul s.finalSpeed s.finalSpeed)
        (qMul (s.y.vals.get .vf) (s.y.vals.get .vf)) then
      { s with x := setD s.x .vf (sq (qSub (qMul s.finalSpeed s.finalSpeed)
          (qMul (s.y.vals.get .vf) (s.y.vals.get .vf)))) }
    else s
  else s

/-- Source lines 329-344: both final-speed decompositions, Y first. -/
def phaseSeedFinal (sq : ℚ → ℚ) (s : PState) : PState :=
  seedFinalX sq (seedFinalY sq s)

/-- Source lines 346-352: a user-set time on exactly one axis is copied
to the other axis as derived. -/
def phaseSeedTime (s : PState) : PState :=
  if s.x.userSet.get .t && !s.y.userSet.get .t then
    { s with y := setD s.y .t (s.x.vals.get .t) }
  else if s.y.userSet.get .t && !s.x.userSet.get .t then
    { s with x := setD s.x .t (s.y.vals.get .t) }
  else s

/-- Source lines 357-360: copy a time known on X but not on Y. -/
def copyXtoY (s : PState) : PState :=
  if s.x.known.get .t && !s.y.known.get .t then
    { s with y := setD s.y .t (s.x.vals.get .t) }
  else s

/-- Source lines 364-367: copy a time known on Y but not on X. -/
def copyYtoX (s : PState) : PState :=
  if s.y.known.get .t && !s.x.known.get .t then
    { s with x := setD s.x .t (s.y.vals.get .t) }
  else s

/-- Source line 355: run the axis solver on X. -/
def passX (sq : ℚ → ℚ) (s : PState) : PState :=
  { s with x := trySolve sq s.x }

/-- Source line 362: run the axis solver on Y. -/
def passY (sq : ℚ → ℚ) (s : PState) : PState :=
  { s with y := trySolve sq s.y }

/-- One outer pass (source lines 354-368): solve X, propagate time to Y,
solve Y, propagate time to X. -/
def phasePass (sq : ℚ → ℚ) (s : PState) : PState :=
  copyYtoX (passY sq (copyXtoY (passX sq s)))

/-- Source lines 370-373: back-derive the launch speed. -/
def backSpeed (sq : ℚ → ℚ) (s : PState) : PState :=
  if !s.speedKnown && s.x.known.get .v0 && s.y.known.get .v0 then
    { s with
      launchSpeed := sq (qAdd (qMul (s.x.vals.get .v0) (s.x.vals.get .v0))
                              (qMul (s.y.vals.get .v0) (s.y.vals.get .v0)))
      speedKnown := true }
  else s

/-- Source lines 374-377: back-derive the launch angle (degrees). -/
def backAngle (a2 : ℚ → ℚ → ℚ) (s : PState) : PState :=
  if !s.angleKnown && s.x.known.get .v0 && s.y.known.get .v0 then
    { s with
      launchAngle := qMul (a2 (s.y.vals.get .v0) (s.x.vals.get .v0)) radToDeg
      angleKnown := true }
  else s

/-- Source lines 378-381: back-derive the final speed. -/
def backFinal (sq : ℚ → ℚ) (s : PState) : PState :=
  if !s.finalSpeedKnown && s.x.known.get .vf && s.y.known.get .vf then
    { s with
      finalSpeed := sq (qAdd (qMul (s.x.vals.get .vf) (s.x.vals.get .vf))
                             (qMul (s.y.vals.get .vf) (s.y.vals.get .vf)))
      finalSpeedKnown := true }
  else s

/-- Source lines 370-381: back-derive the coupling scalars from known
velocity components. -/
def phaseBack (sq : ℚ → ℚ) (a2 : ℚ → ℚ → ℚ) (s : PState) : PState :=
  backFinal sq (backAngle a2 (backSpeed sq s))

/-- Source lines 310-382, `autoSolve`: reset derived knowledge, seed the
cross-axis couplings, run three outer passes, back-derive the scalars. -/
def autoSolve (sq cs sn : ℚ → ℚ) (a2 : ℚ → ℚ → ℚ) (s : PState) : PState :=
  phaseBack sq a2
    ((phasePass sq)^[3]
      (phaseSeedTime (phaseSeedFinal sq (phaseSeedVel cs sn (phaseReset s)))))

/-- Source lines 78-106, `initData`: everything cleared to zero, then
X `p0 = 0`, X `a = 0`, Y `a = -9.81` installed as user-set defaults.
(The source sets no default for Y `p0`.) -/
def initData : PState :=
  { x := ⟨⟨0, 0, 0, 0, 0, 0, 0⟩,
          ⟨true, false, false, false, true, false, false⟩,
          ⟨true, false, false, false, true, false, false⟩⟩
    y := ⟨⟨0, 0, 0, 0, -gravity, 0, 0⟩,
          ⟨false, false, false, false, true, false, false⟩,
          ⟨false, false, false, false, true, false, false⟩⟩
    launchSpeed := 0
    launchAngle := 0
    finalSpeed := 0
    speedKnown := false
    angleKnown := false
    finalSpeedKnown := false
    speedUserSet := false
    angleUserSet := false
    finalSpeedUserSet := false }

/-- Source lines 861-863, `resetAll`. -/
def resetAll : PState := initData

/-- A user edit of one axis variable (source lines 801-810): value
written, known and user-set flags raised. -/
def setUser (ax : Axis) (v : Var) (q : ℚ) : Axis :=
  ⟨ax.vals.set v q, ax.known.set v true, ax.userSet.set v true⟩

/-- The `userSet ⇒ known` invariant of the data model, for one axis. -/
def AxisValid (ax : Axis) : Prop :=
  ∀ v, ax.userSet.get v = true → ax.known.get v = true

/-- The `userSet ⇒ known` invariant of the data model, for the whole
state (both axes and the three coupling scalars). -/
def Valid (s : PState) : Prop :=
  AxisValid s.x ∧ AxisValid s.y ∧
  (s.speedUserSet = true → s.speedKnown = true) ∧
  (s.angleUserSet = true → s.angleKnown = true) ∧
  (s.finalSpeedUserSet = true → s.finalSpeedKnown = true)

instance (ax : Axis) : Decidable (AxisValid ax) := by
  unfold AxisValid; infer_instance

instance (s : PState) : Decidable (Valid s) := by
  unfold Valid; infer_instance

/-- Stand-in for `sqrtf`, agreeing with the C function at the arguments
`4` and `0` that the concrete runs below evaluate it at. -/
def sqZ : ℚ → ℚ := fun q => if q = 4 then 2 else 0

/-- Stand-in for `cosf`, agreeing with the C function at the argument
`0` that the concrete runs below evaluate it at. -/
def csZ : ℚ → ℚ := fun _ => 1

/-- Stand-in for `sinf`, agreeing with the C function at the argument
`0` that the concrete runs below evaluate it at. -/
def snZ : ℚ → ℚ := fun _ => 0

/-- Stand-in for `atan2f`; the concrete runs below never evaluate it. -/
def a2Z : ℚ → ℚ → ℚ := fun _ _ => 0

/-- Scenario C of the spec: from defaults, user-set X `v0 = 5`,
X `a = 0`, X `t = 3` (source `finishInput` semantics). -/
def c9State : PState :=
  { initData with x := setUser (setUser (setUser initData.x .v0 5) .a 0) .t 3 }

/-- A valid state with X `v0` user-set to `5` and launch speed `1` /
launch angle `0` user-set: the coupling seed overwrites the user-set
initial velocity. -/
def c1State : PState :=
  { initData with
    x := setUser initData.x .v0 5
    launchSpeed := 1
    launchAngle := 0
    speedKnown := true
    angleKnown := true
    speedUserSet := true
    angleUserSet := true }

/-- A state violating the `userSet ⇒ known` invariant on the launch
speed scalar (`speedUserSet = true`, `speedKnown = false`,
`launchSpeed = -2`, angle user-set to `0`). -/
def c3State : PState :=
  { initData with
    launchSpeed := -2
    launchAngle := 0
    speedKnown := false
    angleKnown := true
    speedUserSet := true
    angleUserSet := true }

/-- A valid state with X `time` user-set to `2` (Y's not user-set) and
Y `initialVelocity` user-set to `3` (so Y `v0` and the default Y `a`
are known): the cross-axis time-sync side conditions all hold. -/
def c7State : PState :=
  { initData with
    x := setUser initData.x .t 2
    y := setUser initData.y .v0 3 }

def c9L1 : PState :=
  ⟨⟨⟨(mkRat (0) 1), (mkRat (0) 1), (mkRat (5) 1), (mkRat (0) 1), (mkRat (0) 1), (mkRat (0) 1), (mkRat (3) 1)⟩,
   ⟨true, false, true, false, true, false, true⟩, ⟨true, false, true, false, true, false, true⟩⟩,
   ⟨⟨(mkRat (0) 1), (mkRat (0) 1), (mkRat (0) 1), (mkRat (0) 1), (mkRat (-981) 100), (mkRat (0) 1), (mkRat (3) 1)⟩,
   ⟨false, false, false, false, true, false, true⟩, ⟨false, false, false, false, true, false, false⟩⟩,
   (mkRat (0) 1), (mkRat (0) 1), (mkRat (0) 1),
   false, false, false, false, false, false⟩

def c9Qx1 : SState :=
  ⟨⟨(mkRat (0) 1), (mkRat (15) 1), (mkRat (5) 1), (mkRat (5) 1), (mkRat (0) 1), (mkRat (15) 1), (mkRat (3) 1)⟩, ⟨true, true, true, true, true, true, true⟩⟩

def c9Qy1 : SState :=
  ⟨⟨(mkRat (0) 1), (mkRat (0) 1), (mkRat (0) 1), (mkRat (0) 1), (mkRat (-981) 100), (mkRat (0) 1), (mkRat (3) 1)⟩, ⟨false, false, false, false, true, false, true⟩⟩

def c9M1 : PState :=
  ⟨⟨⟨(mkRat (0) 1), (mkRat (15) 1), (mkRat (5) 1), (mkRat (5) 1), (mkRat (0) 1), (mkRat (15) 1), (mkRat (3) 1)⟩,
   ⟨true, true, true, true, true, true, true⟩, ⟨true, false, true, false, true, false, true⟩⟩,
   ⟨⟨(mkRat (0) 1), (mkRat (0) 1), (mkRat (0) 1), (mkRat (0) 1), (mkRat (-981) 100), (mkRat (0) 1), (mkRat (3) 1)⟩,
   ⟨false, false, false, false, true, false, true⟩, ⟨false, false, false, false, true, false, false⟩⟩,
   (mkRat (0) 1), (mkRat (0) 1), (mkRat (0) 1),
   false, false, false, false, false, false⟩

def c9L2 : PState :=
  ⟨⟨⟨(mkRat (0) 1), (mkRat (15) 1), (mkRat (5) 1), (mkRat (5) 1), (mkRat (0) 1), (mkRat (15) 1), (mkRat (3) 1)⟩,
   ⟨true, true, true, true, true, true, true⟩, ⟨true, false, true, false, true, false, true⟩⟩,
   ⟨⟨(mkRat (0) 1), (mkRat (0) 1), (mkRat (0) 1), (mkRat (0) 1), (mkRat (-981) 100), (mkRat (0) 1), (mkRat (3) 1)⟩,
   ⟨false, false, false, false, true, false, true⟩, ⟨false, false, false, false, true, false, false⟩⟩,
   (mkRat (0) 1), (mkRat (0) 1), (mkRat (0) 1),
   false, false, false, false, false, false⟩

def c9Qx2 : SState :=
  ⟨⟨(mkRat (0) 1), (mkRat (15) 1), (mkRat (5) 1), (mkRat (5) 1), (mkRat (0) 1), (mkRat (15) 1), (mkRat (3) 1)⟩, ⟨true, true, true, true, true, true, true⟩⟩

def c9Qy2 : SState :=
  ⟨⟨(mkRat (0) 1), (mkRat (0) 1), (mkRat (0) 1), (mkRat (0) 1), (mkRat (-981) 100), (mkRat (0) 1), (mkRat (3) 1)⟩, ⟨false, false, false, false, true, false, true⟩⟩

def c9M2 : PState :=
  ⟨⟨⟨(mkRat (0) 1), (mkRat (15) 1), (mkRat (5) 1), (mkRat (5) 1), (mkRat (0) 1), (mkRat (15) 1), (mkRat (3) 1)⟩,
   ⟨true, true, true, true, true, true, true⟩, ⟨true, false, true, false, true, false, true⟩⟩,
   ⟨⟨(mkRat (0) 1), (mkRat (0) 1), (mkRat (0) 1), (mkRat (0) 1), (mkRat (-981) 100), (mkRat (0) 1), (mkRat (3) 1)⟩,
   ⟨false, false, false, false, true, false, true⟩, ⟨false, false, false, false, true, false, false⟩⟩,
   (mkRat (0) 1), (mkRat (0) 1), (mkRat (0) 1),
   false, false, false, false, false, false⟩

def c9L3 : PState :=
  ⟨⟨⟨(mkRat (0) 1), (mkRat (15) 1), (mkRat (5) 1), (mkRat (5) 1), (mkRat (0) 1), (mkRat (15) 1), (mkRat (3) 1)⟩,
   ⟨true, true, true, true, true, true, true⟩, ⟨true, false, true, false, true, false, true⟩⟩,
   ⟨⟨(mkRat (0) 1), (mkRat (0) 1), (mkRat (0) 1), (mkRat (0) 1), (mkRat (-981) 100), (mkRat (0) 1), (mkRat (3) 1)⟩,
   ⟨false, false, false, false, true, false, true⟩, ⟨false, false, false, false, true, false, false⟩⟩,
   (mkRat (0) 1), (mkRat (0) 1), (mkRat (0) 1),
   false, false, false, false, false, false⟩

def c9Qx3 : SState :=
  ⟨⟨(mkRat (0) 1), (mkRat (15) 1), (mkRat (5) 1), (mkRat (5) 1), (mkRat (0) 1), (mkRat (15) 1), (mkRat (3) 1)⟩, ⟨true, true, true, true, true, true, true⟩⟩

def c9Qy3 : SState :=
  ⟨⟨(mkRat (0) 1), (mkRat (0) 1), (mkRat (0) 1), (mkRat (0) 1), (mkRat (-981) 100), (mkRat (0) 1), (mkRat (3) 1)⟩, ⟨false, false, false, false, true, false, true⟩⟩

def c9M3 : PState :=
  ⟨⟨⟨(mkRat (0) 1), (mkRat (15) 1), (mkRat (5) 1), (mkRat (5) 1), (mkRat (0) 1), (mkRat (15) 1), (mkRat (3) 1)⟩,
   ⟨true, true, true, true, true, true, true⟩, ⟨true, false, true, false, true, false, true⟩⟩,
   ⟨⟨(mkRat (0) 1), (mkRat (0) 1), (mkRat (0) 1), (mkRat (0) 1), (mkRat (-981) 100), (mkRat (0) 1), (mkRat (3) 1)⟩,
   ⟨false, false, false, false, true, false, true⟩, ⟨false, false, false, false, true, false, false⟩⟩,
   (mkRat (0) 1), (mkRat (0) 1), (mkRat (0) 1),
   false, false, false, false, false, false⟩

def c9L4 : PState :=
  ⟨⟨⟨(mkRat (0) 1), (mkRat (15) 1), (mkRat (5) 1), (mkRat (5) 1), (mkRat (0) 1), (mkRat (15) 1), (mkRat (3) 1)⟩,
   ⟨true, true, true, true, true, true, true⟩, ⟨true, false, true, false, true, false, true⟩⟩,
   ⟨⟨(mkRat (0) 1), (mkRat (0) 1), (mkRat (0) 1), (mkRat (0) 1), (mkRat (-981) 100), (mkRat (0) 1), (mkRat (3) 1)⟩,
   ⟨false, false, false, false, true, false, true⟩, ⟨false, false, false, false, true, false, false⟩⟩,
   (mkRat (0) 1), (mkRat (0) 1), (mkRat (0) 1),
   false, false, false, false, false, false⟩

def c9F : PState :=
  ⟨⟨⟨(mkRat (0) 1), (mkRat (15) 1), (mkRat (5) 1), (mkRat (5) 1), (mkRat (0) 1), (mkRat (15) 1), (mkRat (3) 1)⟩,
   ⟨true, true, true, true, true, true, true⟩, ⟨true, false, true, false, true, false, true⟩⟩,
   ⟨⟨(mkRat (0) 1), (mkRat (0) 1), (mkRat (0) 1), (mkRat (0) 1), (mkRat (-981) 100), (mkRat (0) 1), (mkRat (3) 1)⟩,
   ⟨false, false, false, false, true, false, true⟩, ⟨false, false, false, false, true, false, false⟩⟩,
   (mkRat (0) 1), (mkRat (0) 1), (mkRat (0) 1),
   false, false, false, false, false, false⟩

def c1L1 : PState :=
  ⟨⟨⟨(mkRat (0) 1), (mkRat (0) 1), (mkRat (1) 1), (mkRat (0) 1), (mkRat (0) 1), (mkRat (0) 1), (mkRat (0) 1)⟩,
   ⟨true, false, true, false, true, false, false⟩, ⟨true, false, true, false, true, false, false⟩⟩,
   ⟨⟨(mkRat (0) 1), (mkRat (0) 1), (mkRat (0) 1), (mkRat (0) 1), (mkRat (-981) 100), (mkRat (0) 1), (mkRat (0) 1)⟩,
   ⟨false, false, true, false, true, false, false⟩, ⟨false, false, false, false, true, false, false⟩⟩,
   (mkRat (1) 1), (mkRat (0) 1), (mkRat (0) 1),
   true, true, false, true, true, false⟩

def c1Qx1 : SState :=
  ⟨⟨(mkRat (0) 1), (mkRat (0) 1), (mkRat (1) 1), (mkRat (1) 1), (mkRat (0) 1), (mkRat (0) 1), (mkRat (0) 1)⟩, ⟨true, false, true, true, true, false, false⟩⟩

def c1Qy1 : SState :=
  ⟨⟨(mkRat (0) 1), (mkRat (0) 1), (mkRat (0) 1), (mkRat (0) 1), (mkRat (-981) 100), (mkRat (0) 1), (mkRat (0) 1)⟩, ⟨false, false, true, false, true, false, false⟩⟩

def c1M1 : PState :=
  ⟨⟨⟨(mkRat (0) 1), (mkRat (0) 1), (mkRat (1) 1), (mkRat (1) 1), (mkRat (0) 1), (mkRat (0) 1), (mkRat (0) 1)⟩,
   ⟨true, false, true, true, true, false, false⟩, ⟨true, false, true, false, true, false, false⟩⟩,
   ⟨⟨(mkRat (0) 1), (mkRat (0) 1), (mkRat (0) 1), (mkRat (0) 1), (mkRat (-981) 100), (mkRat (0) 1), (mkRat (0) 1)⟩,
   ⟨false, false, true, false, true, false, false⟩, ⟨false, false, false, false, true, false, false⟩⟩,
   (mkRat (1) 1), (mkRat (0) 1), (mkRat (0) 1),
   true, true, false, true, true, false⟩

def c1L2 : PState :=
  ⟨⟨⟨(mkRat (0) 1), (mkRat (0) 1), (mkRat (1) 1), (mkRat (1) 1), (mkRat (0) 1), (mkRat (0) 1), (mkRat (0) 1)⟩,
   ⟨true, false, true, true, true, false, false⟩, ⟨true, false, true, false, true, false, false⟩⟩,
   ⟨⟨(mkRat (0) 1), (mkRat (0) 1), (mkRat (0) 1), (mkRat (0) 1), (mkRat (-981) 100), (mkRat (0) 1), (mkRat (0) 1)⟩,
   ⟨false, false, true, false, true, false, false⟩, ⟨false, false, false, false, true, false, false⟩⟩,
   (mkRat (1) 1), (mkRat (0) 1), (mkRat (0) 1),
   true, true, false, true, true, false⟩

def c1Qx2 : SState :=
  ⟨⟨(mkRat (0) 1), (mkRat (0) 1), (mkRat (1) 1), (mkRat (1) 1), (mkRat (0) 1), (mkRat (0) 1), (mkRat (0) 1)⟩, ⟨true, false, true, true, true, false, false⟩⟩

def c1Qy2 : SState :=
  ⟨⟨(mkRat (0) 1), (mkRat (0) 1), (mkRat (0) 1), (mkRat (0) 1), (mkRat (-981) 100), (mkRat (0) 1), (mkRat (0) 1)⟩, ⟨false, false, true, false, true, false, false⟩⟩

def c1M2 : PState :=
  ⟨⟨⟨(mkRat (0) 1), (mkRat (0) 1), (mkRat (1) 1), (mkRat (1) 1), (mkRat (0) 1), (mkRat (0) 1), (mkRat (0) 1)⟩,
   ⟨true, false, true, true, true, false, false⟩, ⟨true, false, true, false, true, false, false⟩⟩,
   ⟨⟨(mkRat (0) 1), (mkRat (0) 1), (mkRat (0) 1), (mkRat (0) 1), (mkRat (-981) 100), (mkRat (0) 1), (mkRat (0) 1)⟩,
   ⟨false, false, true, false, true, false, false⟩, ⟨false, false, false, false, true, false, false⟩⟩,
   (mkRat (1) 1), (mkRat (0) 1), (mkRat (0) 1),
   true, true, false, true, true, false⟩

def c1L3 : PState :=
  ⟨⟨⟨(mkRat (0) 1), (mkRat (0) 1), (mkRat (1) 1), (mkRat (1) 1), (mkRat (0) 1), (mkRat (0) 1), (mkRat (0) 1)⟩,
   ⟨true, false, true, true, true, false, false⟩, ⟨true, false, true, false, true, false, false⟩⟩,
   ⟨⟨(mkRat (0) 1), (mkRat (0) 1), (mkRat (0) 1), (mkRat (0) 1), (mkRat (-981) 100), (mkRat (0) 1), (mkRat (0) 1)⟩,
   ⟨false, false, true, false, true, false, false⟩, ⟨false, false, false, false, true, false, false⟩⟩,
   (mkRat (1) 1), (mkRat (0) 1), (mkRat (0) 1),
   true, true, false, true, true, false⟩

def c1Qx3 : SState :=
  ⟨⟨(mkRat (0) 1), (mkRat (0) 1), (mkRat (1) 1), (mkRat (1) 1), (mkRat (0) 1), (mkRat (0) 1), (mkRat (0) 1)⟩, ⟨true, false, true, true, true, false, false⟩⟩

def c1Qy3 : SState :=
  ⟨⟨(mkRat (0) 1), (mkRat (0) 1), (mkRat (0) 1), (mkRat (0) 1), (mkRat (-981) 100), (mkRat (0) 1), (mkRat (0) 1)⟩, ⟨false, false, true, false, true, false, false⟩⟩

def c1M3 : PState :=
  ⟨⟨⟨(mkRat (0) 1), (mkRat (0) 1), (mkRat (1) 1), (mkRat (1) 1), (mkRat (0) 1), (mkRat (0) 1), (mkRat (0) 1)⟩,
   ⟨true, false, true, true, true, false, false⟩, ⟨true, false, true, false, true, false, false⟩⟩,
   ⟨⟨(mkRat (0) 1), (mkRat (0) 1), (mkRat (0) 1), (mkRat (0) 1), (mkRat (-981) 100), (mkRat (0) 1), (mkRat (0) 1)⟩,
   ⟨false, false, true, false, true, false, false⟩, ⟨false, false, false, false, true, false, false⟩⟩,
   (mkRat (1) 1), (mkRat (0) 1), (mkRat (0) 1),
   true, true, false, true, true, false⟩

def c1L4 : PState :=
  ⟨⟨⟨(mkRat (0) 1), (mkRat (0) 1), (mkRat (1) 1), (mkRat (1) 1), (mkRat (0) 1), (mkRat (0) 1), (mkRat (0) 1)⟩,
   ⟨true, false, true, true, true, false, false⟩, ⟨true, false, true, false, true, false, false⟩⟩,
   ⟨⟨(mkRat (0) 1), (mkRat (0) 1), (mkRat (0) 1), (mkRat (0) 1), (mkRat (-981) 100), (mkRat (0) 1), (mkRat (0) 1)⟩,
   ⟨false, false, true, false, true, false, false⟩, ⟨false, false, false, false, true, false, false⟩⟩,
   (mkRat (1) 1), (mkRat (0) 1), (mkRat (0) 1),
   true, true, false, true, true, false⟩

def c1F : PState :=
  ⟨⟨⟨(mkRat (0) 1), (mkRat (0) 1), (mkRat (1) 1), (mkRat (1) 1), (mkRat (0) 1), (mkRat (0) 1), (mkRat (0) 1)⟩,
   ⟨true, false, true, true, true, false, false⟩, ⟨true, false, true, false, true, false, false⟩⟩,
   ⟨⟨(mkRat (0) 1), (mkRat (0) 1), (mkRat (0) 1), (mkRat (0) 1), (mkRat (-981) 100), (mkRat (0) 1), (mkRat (0) 1)⟩,
   ⟨false, false, true, false, true, false, false⟩, ⟨false, false, false, false, true, false, false⟩⟩,
   (mkRat (1) 1), (mkRat (0) 1), (mkRat (0) 1),
   true, true, false, true, true, false⟩

def c3aL1 : PState :=
  ⟨⟨⟨(mkRat (0) 1), (mkRat (0) 1), (mkRat (-2) 1), (mkRat (0) 1), (mkRat (0) 1), (mkRat (0) 1), (mkRat (0) 1)⟩,
   ⟨true, false, true, false, true, false, false⟩, ⟨true, false, false, false, true, false, false⟩⟩,
   ⟨⟨(mkRat (0) 1), (mkRat (0) 1), (mkRat (0) 1), (mkRat (0) 1), (mkRat (-981) 100), (mkRat (0) 1), (mkRat (0) 1)⟩,
   ⟨false, false, true, false, true, false, false⟩, ⟨false, false, false, false, true, false, false⟩⟩,
   (mkRat (-2) 1), (mkRat (0) 1), (mkRat (0) 1),
   false, true, false, true, true, false⟩

def c3aQx1 : SState :=
  ⟨⟨(mkRat (0) 1), (mkRat (0) 1), (mkRat (-2) 1), (mkRat (-2) 1), (mkRat (0) 1), (mkRat (0) 1), (mkRat (0) 1)⟩, ⟨true, false, true, true, true, false, false⟩⟩

def c3aQy1 : SState :=
  ⟨⟨(mkRat (0) 1), (mkRat (0) 1), (mkRat (0) 1), (mkRat (0) 1), (mkRat (-981) 100), (mkRat (0) 1), (mkRat (0) 1)⟩, ⟨false, false, true, false, true, false, false⟩⟩

def c3aM1 : PState :=
  ⟨⟨⟨(mkRat (0) 1), (mkRat (0) 1), (mkRat (-2) 1), (mkRat (-2) 1), (mkRat (0) 1), (mkRat (0) 1), (mkRat (0) 1)⟩,
   ⟨true, false, true, true, true, false, false⟩, ⟨true, false, false, false, true, false, false⟩⟩,
   ⟨⟨(mkRat (0) 1), (mkRat (0) 1), (mkRat (0) 1), (mkRat (0) 1), (mkRat (-981) 100), (mkRat (0) 1), (mkRat (0) 1)⟩,
   ⟨false, false, true, false, true, false, false⟩, ⟨false, false, false, false, true, false, false⟩⟩,
   (mkRat (-2) 1), (mkRat (0) 1), (mkRat (0) 1),
   false, true, false, true, true, false⟩

def c3aL2 : PState :=
  ⟨⟨⟨(mkRat (0) 1), (mkRat (0) 1), (mkRat (-2) 1), (mkRat (-2) 1), (mkRat (0) 1), (mkRat (0) 1), (mkRat (0) 1)⟩,
   ⟨true, false, true, true, true, false, false⟩, ⟨true, false, false, false, true, false, false⟩⟩,
   ⟨⟨(mkRat (0) 1), (mkRat (0) 1), (mkRat (0) 1), (mkRat (0) 1), (mkRat (-981) 100), (mkRat (0) 1), (mkRat (0) 1)⟩,
   ⟨false, false, true, false, true, false, false⟩, ⟨false, false, false, false, true, false, false⟩⟩,
   (mkRat (-2) 1), (mkRat (0) 1), (mkRat (0) 1),
   false, true, false, true, true, false⟩

def c3aQx2 : SState :=
  ⟨⟨(mkRat (0) 1), (mkRat (0) 1), (mkRat (-2) 1), (mkRat (-2) 1), (mkRat (0) 1), (mkRat (0) 1), (mkRat (0) 1)⟩, ⟨true, false, true, true, true, false, false⟩⟩

def c3aQy2 : SState :=
  ⟨⟨(mkRat (0) 1), (mkRat (0) 1), (mkRat (0) 1), (mkRat (0) 1), (mkRat (-981) 100), (mkRat (0) 1), (mkRat (0) 1)⟩, ⟨false, false, true, false, true, false, false⟩⟩

def c3aM2 : PState :=
  ⟨⟨⟨(mkRat (0) 1), (mkRat (0) 1), (mkRat (-2) 1), (mkRat (-2) 1), (mkRat (0) 1), (mkRat (0) 1), (mkRat (0) 1)⟩,
   ⟨true, false, true, true, true, false, false⟩, ⟨true, false, false, false, true, false, false⟩⟩,
   ⟨⟨(mkRat (0) 1), (mkRat (0) 1), (mkRat (0) 1), (mkRat (0) 1), (mkRat (-981) 100), (mkRat (0) 1), (mkRat (0) 1)⟩,
   ⟨false, false, true, false, true, false, false⟩, ⟨false, false, false, false, true, false, false⟩⟩,
   (mkRat (-2) 1), (mkRat (0) 1), (mkRat (0) 1),
   false, true, false, true, true, false⟩

def c3aL3 : PState :=
  ⟨⟨⟨(mkRat (0) 1), (mkRat (0) 1), (mkRat (-2) 1), (mkRat (-2) 1), (mkRat (0) 1), (mkRat (0) 1), (mkRat (0) 1)⟩,
   ⟨true, false, true, true, true, false, false⟩, ⟨true, false, false, false, true, false, false⟩⟩,
   ⟨⟨(mkRat (0) 1), (mkRat (0) 1), (mkRat (0) 1), (mkRat (0) 1), (mkRat (-981) 100), (mkRat (0) 1), (mkRat (0) 1)⟩,
   ⟨false, false, true, false, true, false, false⟩, ⟨false, false, false, false, true, false, false⟩⟩,
   (mkRat (-2) 1), (mkRat (0) 1), (mkRat (0) 1),
   false, true, false, true, true, false⟩

def c3aQx3 : SState :=
  ⟨⟨(mkRat (0) 1), (mkRat (0) 1), (mkRat (-2) 1), (mkRat (-2) 1), (mkRat (0) 1), (mkRat (0) 1), (mkRat (0) 1)⟩, ⟨true, false, true, true, true, false, false⟩⟩

def c3aQy3 : SState :=
  ⟨⟨(mkRat (0) 1), (mkRat (0) 1), (mkRat (0) 1), (mkRat (0) 1), (mkRat (-981) 100), (mkRat (0) 1), (mkRat (0) 1)⟩, ⟨false, false, true, false, true, false, false⟩⟩

def c3aM3 : PState :=
  ⟨⟨⟨(mkRat (0) 1), (mkRat (0) 1), (mkRat (-2) 1), (mkRat (-2) 1), (mkRat (0) 1), (mkRat (0) 1), (mkRat (0) 1)⟩,
   ⟨true, false, true, true, true, false, false⟩, ⟨true, false, false, false, true, false, false⟩⟩,
   ⟨⟨(mkRat (0) 1), (mkRat (0) 1), (mkRat (0) 1), (mkRat (0) 1), (mkRat (-981) 100), (mkRat (0) 1), (mkRat (0) 1)⟩,
   ⟨false, false, true, false, true, false, false⟩, ⟨false, false, false, false, true, false, false⟩⟩,
   (mkRat (-2) 1), (mkRat (0) 1), (mkRat (0) 1),
   false, true, false, true, true, false⟩

def c3aL4 : PState :=
  ⟨⟨⟨(mkRat (0) 1), (mkRat (0) 1), (mkRat (-2) 1), (mkRat (-2) 1), (mkRat (0) 1), (mkRat (0) 1), (mkRat (0) 1)⟩,
   ⟨true, false, true, true, true, false, false⟩, ⟨true, false, false, false, true, false, false⟩⟩,
   ⟨⟨(mkRat (0) 1), (mkRat (0) 1), (mkRat (0) 1), (mkRat (0) 1), (mkRat (-981) 100), (mkRat (0) 1), (mkRat (0) 1)⟩,
   ⟨false, false, true, false, true, false, false⟩, ⟨false, false, false, false, true, false, false⟩⟩,
   (mkRat (-2) 1), (mkRat (0) 1), (mkRat (0) 1),
   false, true, false, true, true, false⟩

def c3aF : PState :=
  ⟨⟨⟨(mkRat (0) 1), (mkRat (0) 1), (mkRat (-2) 1), (mkRat (-2) 1), (mkRat (0) 1), (mkRat (0) 1), (mkRat (0) 1)⟩,
   ⟨true, false, true, true, true, false, false⟩, ⟨true, false, false, false, true, false, false⟩⟩,
   ⟨⟨(mkRat (0) 1), (mkRat (0) 1), (mkRat (0) 1), (mkRat (0) 1), (mkRat (-981) 100), (mkRat (0) 1), (mkRat (0) 1)⟩,
   ⟨false, false, true, false, true, false, false⟩, ⟨false, false, false, false, true, false, false⟩⟩,
   (mkRat (2) 1), (mkRat (0) 1), (mkRat (0) 1),
   true, true, false, true, true, false⟩

def c3bL1 : PState :=
  ⟨⟨⟨(mkRat (0) 1), (mkRat (0) 1), (mkRat (2) 1), (mkRat (-2) 1), (mkRat (0) 1), (mkRat (0) 1), (mkRat (0) 1)⟩,
   ⟨true, false, true, false, true, false, false⟩, ⟨true, false, false, false, true, false, false⟩⟩,
   ⟨⟨(mkRat (0) 1), (mkRat (0) 1), (mkRat (0) 1), (mkRat (0) 1), (mkRat (-981) 100), (mkRat (0) 1), (mkRat (0) 1)⟩,
   ⟨false, false, true, false, true, false, false⟩, ⟨false, false, false, false, true, false, false⟩⟩,
   (mkRat (2) 1), (mkRat (0) 1), (mkRat (0) 1),
   true, true, false, true, true, false⟩

def c3bQx1 : SState :=
  ⟨⟨(mkRat (0) 1), (mkRat (0) 1), (mkRat (2) 1), (mkRat (2) 1), (mkRat (0) 1), (mkRat (0) 1), (mkRat (0) 1)⟩, ⟨true, false, true, true, true, false, false⟩⟩

def c3bQy1 : SState :=
  ⟨⟨(mkRat (0) 1), (mkRat (0) 1), (mkRat (0) 1), (mkRat (0) 1), (mkRat (-981) 100), (mkRat (0) 1), (mkRat (0) 1)⟩, ⟨false, false, true, false, true, false, false⟩⟩

def c3bM1 : PState :=
  ⟨⟨⟨(mkRat (0) 1), (mkRat (0) 1), (mkRat (2) 1), (mkRat (2) 1), (mkRat (0) 1), (mkRat (0) 1), (mkRat (0) 1)⟩,
   ⟨true, false, true, true, true, false, false⟩, ⟨true, false, false, false, true, false, false⟩⟩,
   ⟨⟨(mkRat (0) 1), (mkRat (0) 1), (mkRat (0) 1), (mkRat (0) 1), (mkRat (-981) 100), (mkRat (0) 1), (mkRat (0) 1)⟩,
   ⟨false, false, true, false, true, false, false⟩, ⟨false, false, false, false, true, false, false⟩⟩,
   (mkRat (2) 1), (mkRat (0) 1), (mkRat (0) 1),
   true, true, false, true, true, false⟩

def c3bL2 : PState :=
  ⟨⟨⟨(mkRat (0) 1), (mkRat (0) 1), (mkRat (2) 1), (mkRat (2) 1), (mkRat (0) 1), (mkRat (0) 1), (mkRat (0) 1)⟩,
   ⟨true, false, true, true, true, false, false⟩, ⟨true, false, false, false, true, false, false⟩⟩,
   ⟨⟨(mkRat (0) 1), (mkRat (0) 1), (mkRat (0) 1), (mkRat (0) 1), (mkRat (-981) 100), (mkRat (0) 1), (mkRat (0) 1)⟩,
   ⟨false, false, true, false, true, false, false⟩, ⟨false, false, false, false, true, false, false⟩⟩,
   (mkRat (2) 1), (mkRat (0) 1), (mkRat (0) 1),
   true, true, false, true, true, false⟩

def c3bQx2 : SState :=
  ⟨⟨(mkRat (0) 1), (mkRat (0) 1), (mkRat (2) 1), (mkRat (2) 1), (mkRat (0) 1), (mkRat (0) 1), (mkRat (0) 1)⟩, ⟨true, false, true, true, true, false, false⟩⟩

def c3bQy2 : SState :=
  ⟨⟨(mkRat (0) 1), (mkRat (0) 1), (mkRat (0) 1), (mkRat (0) 1), (mkRat (-981) 100), (mkRat (0) 1), (mkRat (0) 1)⟩, ⟨false, false, true, false, true, false, false⟩⟩

def c3bM2 : PState :=
  ⟨⟨⟨(mkRat (0) 1), (mkRat (0) 1), (mkRat (2) 1), (mkRat (2) 1), (mkRat (0) 1), (mkRat (0) 1), (mkRat (0) 1)⟩,
   ⟨true, false, true, true, true, false, false⟩, ⟨true, false, false, false, true, false, false⟩⟩,
   ⟨⟨(mkRat (0) 1), (mkRat (0) 1), (mkRat (0) 1), (mkRat (0) 1), (mkRat (-981) 100), (mkRat (0) 1), (mkRat (0) 1)⟩,
   ⟨false, false, true, false, true, false, false⟩, ⟨false, false, false, false, true, false, false⟩⟩,
   (mkRat (2) 1), (mkRat (0) 1), (mkRat (0) 1),
   true, true, false, true, true, false⟩

def c3bL3 : PState :=
  ⟨⟨⟨(mkRat (0) 1), (mkRat (0) 1), (mkRat (2) 1), (mkRat (2) 1), (mkRat (0) 1), (mkRat (0) 1), (mkRat (0) 1)⟩,
   ⟨true, false, true, true, true, false, false⟩, ⟨true, false, false, false, true, false, false⟩⟩,
   ⟨⟨(mkRat (0) 1), (mkRat (0) 1), (mkRat (0) 1), (mkRat (0) 1), (mkRat (-981) 100), (mkRat (0) 1), (mkRat (0) 1)⟩,
   ⟨false, false, true, false, true, false, false⟩, ⟨false, false, false, false, true, false, false⟩⟩,
   (mkRat (2) 1), (mkRat (0) 1), (mkRat (0) 1),
   true, true, false, true, true, false⟩

def c3bQx3 : SState :=
  ⟨⟨(mkRat (0) 1), (mkRat (0) 1), (mkRat (2) 1), (mkRat (2) 1), (mkRat (0) 1), (mkRat (0) 1), (mkRat (0) 1)⟩, ⟨true, false, true, true, true, false, false⟩⟩

def c3bQy3 : SState :=
  ⟨⟨(mkRat (0) 1), (mkRat (0) 1), (mkRat (0) 1), (mkRat (0) 1), (mkRat (-981) 100), (mkRat (0) 1), (mkRat (0) 1)⟩, ⟨false, false, true, false, true, false, false⟩⟩

def c3bM3 : PState :=
  ⟨⟨⟨(mkRat (0) 1), (mkRat (0) 1), (mkRat (2) 1), (mkRat (2) 1), (mkRat (0) 1), (mkRat (0) 1), (mkRat (0) 1)⟩,
   ⟨true, false, true, true, true, false, false⟩, ⟨true, false, false, false, true, false, false⟩⟩,
   ⟨⟨(mkRat (0) 1), (mkRat (0) 1), (mkRat (0) 1), (mkRat (0) 1), (mkRat (-981) 100), (mkRat (0) 1), (mkRat (0) 1)⟩,
   ⟨false, false, true, false, true, false, false⟩, ⟨false, false, false, false, true, false, false⟩⟩,
   (mkRat (2) 1), (mkRat (0) 1), (mkRat (0) 1),
   true, true, false, true, true, false⟩

def c3bL4 : PState :=
  ⟨⟨⟨(mkRat (0) 1), (mkRat (0) 1), (mkRat (2) 1), (mkRat (2) 1), (mkRat (0) 1), (mkRat (0) 1), (mkRat (0) 1)⟩,
   ⟨true, false, true, true, true, false, false⟩, ⟨true, false, false, false, true, false, false⟩⟩,
   ⟨⟨(mkRat (0) 1), (mkRat (0) 1), (mkRat (0) 1), (mkRat (0) 1), (mkRat (-981) 100), (mkRat (0) 1), (mkRat (0) 1)⟩,
   ⟨false, false, true, false, true, false, false⟩, ⟨false, false, false, false, true, false, false⟩⟩,
   (mkRat (2) 1), (mkRat (0) 1), (mkRat (0) 1),
   true, true, false, true, true, false⟩

def c3bF : PState :=
  ⟨⟨⟨(mkRat (0) 1), (mkRat (0) 1), (mkRat (2) 1), (mkRat (2) 1), (mkRat (0) 1), (mkRat (0) 1), (mkRat (0) 1)⟩,
   ⟨true, false, true, true, true, false, false⟩, ⟨true, false, false, false, true, false, false⟩⟩,
   ⟨⟨(mkRat (0) 1), (mkRat (0) 1), (mkRat (0) 1), (mkRat (0) 1), (mkRat (-981) 100), (mkRat (0) 1), (mkRat (0) 1)⟩,
   ⟨false, false, true, false, true, false, false⟩, ⟨false, false, false, false, true, false, false⟩⟩,
   (mkRat (2) 1), (mkRat (0) 1), (mkRat (0) 1),
   true, true, false, true, true, false⟩

/-- A rule reads only the variables its `needs` list declares: its
computation is invariant under changes to the other variables. -/
def Rule.Reads (r : Rule) : Prop :=
  ∀ u u' : Vals, (∀ x ∈ r.needs, u.get x = u'.get x) → r.compute u = r.compute u'

/-- Tracking relation for two local solves `u`, `w` with reference
start states `a`, `b`: the known flags agree, and each value either
agrees or is an unknown untouched since the reference. -/
def TrackS (a b u w : SState) : Prop :=
  u.known = w.known ∧
  ∀ v, u.vals.get v = w.vals.get v ∨
    (u.known.get v = false ∧ u.vals.get v = a.vals.get v ∧
      w.vals.get v = b.vals.get v)

/-- Axis-level tracking relation (user-set flags also agree). -/
def TrackAx (a b u w : Axis) : Prop :=
  u.userSet = w.userSet ∧ u.known = w.known ∧
  ∀ v, u.vals.get v = w.vals.get v ∨
    (u.known.get v = false ∧ u.vals.get v = a.vals.get v ∧
      w.vals.get v = b.vals.get v)

/-- Whole-state tracking relation: both axes plus the three scalars. -/
def TrackP (a b u w : PState) : Prop :=
  TrackAx a.x b.x u.x w.x ∧ TrackAx a.y b.y u.y w.y ∧
  u.speedKnown = w.speedKnown ∧ u.angleKnown = w.angleKnown ∧
  u.finalSpeedKnown = w.finalSpeedKnown ∧
  u.speedUserSet = w.speedUserSet ∧ u.angleUserSet = w.angleUserSet ∧
  u.finalSpeedUserSet = w.finalSpeedUserSet ∧
  (u.launchSpeed = w.launchSpeed ∨
    (u.speedKnown = false ∧ u.launchSpeed = a.launchSpeed ∧
      w.launchSpeed = b.launchSpeed)) ∧
  (u.launchAngle = w.launchAngle ∨
    (u.angleKnown = false ∧ u.launchAngle = a.launchAngle ∧
      w.launchAngle = b.launchAngle)) ∧
  (u.finalSpeed = w.finalSpeed ∨
    (u.finalSpeedKnown = false ∧ u.finalSpeed = a.finalSpeed ∧
      w.finalSpeed = b.finalSpeed))

theorem Vals_get_set (s : Vals) (v w : Var) (q : ℚ) :
    (s.set v q).get w = if w = v then q else s.get w := by
  cases v <;> cases w <;> simp [Vals.set, Vals.get]

theorem Flags_get_set (s : Flags) (v w : Var) (b : Bool) :
    (s.set v b).get w = if w = v then b else s.get w := by
  cases v <;> cases w <;> simp [Flags.set, Flags.get]

theorem Flags_get_build (f : Var → Bool) (v : Var) :
    (Flags.build f).get v = f v := by
  cases v <;> rfl

theorem Vals_ext_get {s s' : Vals} (h : ∀ v, s.get v = s'.get v) : s = s' := by
  cases s; cases s'
  have h0 := h .p0; have h1 := h .pf; have h2 := h .v0; have h3 := h .vf
  have h4 := h .a; have h5 := h .d; have h6 := h .t
  simp [Vals.get] at h0 h1 h2 h3 h4 h5 h6
  simp [h0, h1, h2, h3, h4, h5, h6]

theorem Flags_ext_get {s s' : Flags} (h : ∀ v, s.get v = s'.get v) : s = s' := by
  cases s; cases s'
  have h0 := h .p0; have h1 := h .pf; have h2 := h .v0; have h3 := h .vf
  have h4 := h .a; have h5 := h .d; have h6 := h .t
  simp [Flags.get] at h0 h1 h2 h3 h4 h5 h6
  simp [h0, h1, h2, h3, h4, h5, h6]

theorem qAdd_eq (a b : ℚ) : qAdd a b = a + b := by
  unfold qAdd
  have ha : ((a.den : ℚ)) ≠ 0 := Nat.cast_ne_zero.mpr a.den_nz
  have hb : ((b.den : ℚ)) ≠ 0 := Nat.cast_ne_zero.mpr b.den_nz
  rw [Rat.mkRat_eq_div]
  push_cast
  conv_rhs => rw [← Rat.num_div_den a, ← Rat.num_div_den b]
  field_simp

theorem qSub_eq (a b : ℚ) : qSub a b = a - b := by
  unfold qSub
  have ha : ((a.den : ℚ)) ≠ 0 := Nat.cast_ne_zero.mpr a.den_nz
  have hb : ((b.den : ℚ)) ≠ 0 := Nat.cast_ne_zero.mpr b.den_nz
  rw [Rat.mkRat_eq_div]
  push_cast
  conv_rhs => rw [← Rat.num_div_den a, ← Rat.num_div_den b]
  field_simp
  ring

theorem qMul_eq (a b : ℚ) : qMul a b = a * b := by
  unfold qMul
  have ha : ((a.den : ℚ)) ≠ 0 := Nat.cast_ne_zero.mpr a.den_nz
  have hb : ((b.den : ℚ)) ≠ 0 := Nat.cast_ne_zero.mpr b.den_nz
  rw [Rat.mkRat_eq_div]
  push_cast
  conv_rhs => rw [← Rat.num_div_den a, ← Rat.num_div_den b]
  field_simp

theorem qDiv_eq (a b : ℚ) : qDiv a b = a / b := by
  unfold qDiv
  have ha : ((a.den : ℚ)) ≠ 0 := Nat.cast_ne_zero.mpr a.den_nz
  rcases eq_or_ne b 0 with rfl | hb
  · simp [Rat.divInt_eq_div]
  · have hbn : ((b.num : ℚ)) ≠ 0 := by
      exact_mod_cast Rat.num_ne_zero.mpr hb
    have hbd : ((b.den : ℚ)) ≠ 0 := Nat.cast_ne_zero.mpr b.den_nz
    rw [Rat.divInt_eq_div]
    push_cast
    conv_rhs => rw [← Rat.num_div_den a, ← Rat.num_div_den b]
    field_simp

/-- Evaluation helper: once four rounds reach a fixpoint of the round
function, the 20-round loop equals that fixpoint. -/
theorem solveLoop_eq_of_fix4 (sq : ℚ → ℚ) (s q : SState)
    (h1 : (runRound sq)^[4] s = q) (h2 : runRound sq q = q) :
    solveLoop sq s = q := by
  have h : solveLoop sq s = (runRound sq)^[16] ((runRound sq)^[4] s) := by
    rw [solveLoop, ← Function.iterate_add_apply]
  rw [h, h1, Function.iterate_fixed h2]

/-- Evaluation helper: compute `trySolve` from a four-round fixpoint of
the local solve loop. -/
theorem trySolve_eval (sq : ℚ → ℚ) (ax : Axis) (q : SState)
    (h1 : (runRound sq)^[4] ⟨ax.vals, ax.known⟩ = q) (h2 : runRound sq q = q) :
    trySolve sq ax = ⟨q.vals, writeback ax.known q.known ax.userSet, ax.userSet⟩ := by
  unfold trySolve
  rw [solveLoop_eq_of_fix4 sq _ q h1 h2]

/-- Evaluation helper: one outer pass, step by step through supplied
intermediate states so that every `decide` stays small. -/
theorem phasePass_eval (sq : ℚ → ℚ) (s mid out : PState) (qx qy : SState)
    (hx1 : (runRound sq)^[4] ⟨s.x.vals, s.x.known⟩ = qx)
    (hx2 : runRound sq qx = qx)
    (hmid : copyXtoY { s with
      x := ⟨qx.vals, writeback s.x.known qx.known s.x.userSet, s.x.userSet⟩ } = mid)
    (hy1 : (runRound sq)^[4] ⟨mid.y.vals, mid.y.known⟩ = qy)
    (hy2 : runRound sq qy = qy)
    (hout : copyYtoX { mid with
      y := ⟨qy.vals, writeback mid.y.known qy.known mid.y.userSet, mid.y.userSet⟩ } = out) :
    phasePass sq s = out := by
  unfold phasePass passX passY
  rw [trySolve_eval sq s.x qx hx1 hx2, hmid, trySolve_eval sq mid.y qy hy1 hy2, hout]

/-- Evaluation helper: `autoSolve` unfolded to its phase pipeline. -/
theorem autoSolve_pipeline (sq cs sn : ℚ → ℚ) (a2 : ℚ → ℚ → ℚ) (s : PState) :
    autoSolve sq cs sn a2 s =
      phaseBack sq a2
        (phasePass sq (phasePass sq (phasePass sq
          (phaseSeedTime (phaseSeedFinal sq (phaseSeedVel cs sn (phaseReset s))))))) := rfl

/-- Concrete evaluation of `autoSolve` (with the documented stand-ins)
on `c9State`. -/
theorem c9_eval : autoSolve sqZ csZ snZ a2Z c9State = c9F := by
  have h0 : phaseSeedTime (phaseSeedFinal sqZ (phaseSeedVel csZ snZ (phaseReset c9State))) = c9L1 := by decide
  have h1 : phasePass sqZ c9L1 = c9L2 :=
    phasePass_eval sqZ c9L1 c9M1 c9L2 c9Qx1 c9Qy1
      (by decide) (by decide) (by decide) (by decide) (by decide) (by decide)
  have h2 : phasePass sqZ c9L2 = c9L3 :=
    phasePass_eval sqZ c9L2 c9M2 c9L3 c9Qx2 c9Qy2
      (by decide) (by decide) (by decide) (by decide) (by decide) (by decide)
  have h3 : phasePass sqZ c9L3 = c9L4 :=
    phasePass_eval sqZ c9L3 c9M3 c9L4 c9Qx3 c9Qy3
      (by decide) (by decide) (by decide) (by decide) (by decide) (by decide)
  have h4 : phaseBack sqZ a2Z c9L4 = c9F := by decide
  rw [autoSolve_pipeline, h0, h1, h2, h3, h4]

/-- Concrete evaluation of `autoSolve` (with the documented stand-ins)
on `c1State`. -/
theorem c1_eval : autoSolve sqZ csZ snZ a2Z c1State = c1F := by
  have h0 : phaseSeedTime (phaseSeedFinal sqZ (phaseSeedVel csZ snZ (phaseReset c1State))) = c1L1 := by decide
  have h1 : phasePass sqZ c1L1 = c1L2 :=
    phasePass_eval sqZ c1L1 c1M1 c1L2 c1Qx1 c1Qy1
      (by decide) (by decide) (by decide) (by decide) (by decide) (by decide)
  have h2 : phasePass sqZ c1L2 = c1L3 :=
    phasePass_eval sqZ c1L2 c1M2 c1L3 c1Qx2 c1Qy2
      (by decide) (by decide) (by decide) (by decide) (by decide) (by decide)
  have h3 : phasePass sqZ c1L3 = c1L4 :=
    phasePass_eval sqZ c1L3 c1M3 c1L4 c1Qx3 c1Qy3
      (by decide) (by decide) (by decide) (by decide) (by decide) (by decide)
  have h4 : phaseBack sqZ a2Z c1L4 = c1F := by decide
  rw [autoSolve_pipeline, h0, h1, h2, h3, h4]

/-- Concrete evaluation of `autoSolve` (with the documented stand-ins)
on `c3State`. -/
theorem c3a_eval : autoSolve sqZ csZ snZ a2Z c3State = c3aF := by
  have h0 : phaseSeedTime (phaseSeedFinal sqZ (phaseSeedVel csZ snZ (phaseReset c3State))) = c3aL1 := by decide
  have h1 : phasePass sqZ c3aL1 = c3aL2 :=
    phasePass_eval sqZ c3aL1 c3aM1 c3aL2 c3aQx1 c3aQy1
      (by decide) (by decide) (by decide) (by decide) (by decide) (by decide)
  have h2 : phasePass sqZ c3aL2 = c3aL3 :=
    phasePass_eval sqZ c3aL2 c3aM2 c3aL3 c3aQx2 c3aQy2
      (by decide) (by decide) (by decide) (by decide) (by decide) (by decide)
  have h3 : phasePass sqZ c3aL3 = c3aL4 :=
    phasePass_eval sqZ c3aL3 c3aM3 c3aL4 c3aQx3 c3aQy3
      (by decide) (by decide) (by decide) (by decide) (by decide) (by decide)
  have h4 : phaseBack sqZ a2Z c3aL4 = c3aF := by decide
  rw [autoSolve_pipeline, h0, h1, h2, h3, h4]

/-- Concrete evaluation of `autoSolve` (with the documented stand-ins)
on `c3aF`. -/
theorem c3b_eval : autoSolve sqZ csZ snZ a2Z c3aF = c3bF := by
  have h0 : phaseSeedTime (phaseSeedFinal sqZ (phaseSeedVel csZ snZ (phaseReset c3aF))) = c3bL1 := by decide
  have h1 : phasePass sqZ c3bL1 = c3bL2 :=
    phasePass_eval sqZ c3bL1 c3bM1 c3bL2 c3bQx1 c3bQy1
      (by decide) (by decide) (by decide) (by decide) (by decide) (by decide)
  have h2 : phasePass sqZ c3bL2 = c3bL3 :=
    phasePass_eval sqZ c3bL2 c3bM2 c3bL3 c3bQx2 c3bQy2
      (by decide) (by decide) (by decide) (by decide) (by decide) (by decide)
  have h3 : phasePass sqZ c3bL3 = c3bL4 :=
    phasePass_eval sqZ c3bL3 c3bM3 c3bL4 c3bQx3 c3bQy3
      (by decide) (by decide) (by decide) (by decide) (by decide) (by decide)
  have h4 : phaseBack sqZ a2Z c3bL4 = c3bF := by decide
  rw [autoSolve_pipeline, h0, h1, h2, h3, h4]

/-- C6 (counterexample): after `initData`, the Y axis's `initialPosition`
is not a system default: its known and user-set flags are both false,
contradicting the claim that both axes default `initialPosition = 0` as
`known = true, userSet = true`. -/
theorem claim_C6_cex :
    initData.y.known.get .p0 = false ∧ initData.y.userSet.get .p0 = false := by
  decide

/-- C6 (amended): after `initData` (= `resetAll`), X `initialPosition`
is `0` with `known = userSet = true`, X `acceleration` is `0` and Y
`acceleration` is `-9.81`, both with `known = userSet = true`; every
other variable — including Y `initialPosition` — and every coupling
scalar has value `0`, `known = false`, `userSet = false`. -/
theorem claim_C6 :
    (initData.x.vals.get .p0 = 0 ∧ initData.x.known.get .p0 = true ∧
      initData.x.userSet.get .p0 = true) ∧
    (initData.x.vals.get .a = 0 ∧ initData.x.known.get .a = true ∧
      initData.x.userSet.get .a = true) ∧
    (initData.y.vals.get .a = -gravity ∧ initData.y.known.get .a = true ∧
      initData.y.userSet.get .a = true) ∧
    (∀ v : Var, v ≠ .p0 → v ≠ .a →
      initData.x.vals.get v = 0 ∧ initData.x.known.get v = false ∧
      initData.x.userSet.get v = false) ∧
    (∀ v : Var, v ≠ .a →
      initData.y.vals.get v = 0 ∧ initData.y.known.get v = false ∧
      initData.y.userSet.get v = false) ∧
    (initData.launchSpeed = 0 ∧ initData.speedKnown = false ∧
      initData.speedUserSet = false) ∧
    (initData.launchAngle = 0 ∧ initData.angleKnown = false ∧
      initData.angleUserSet = false) ∧
    (initData.finalSpeed = 0 ∧ initData.finalSpeedKnown = false ∧
      initData.finalSpeedUserSet = false) ∧
    resetAll = initData := by
  decide

/-- C6 (witness for the amended claim): instantiating the quantified
conjuncts at the displacement variable. -/
theorem claim_C6_witness :
    initData.x.vals.get .d = 0 ∧ initData.x.known.get .d = false ∧
      initData.x.userSet.get .d = false :=
  claim_C6.2.2.2.1 .d (by decide) (by decide)

/-- C9: starting from the defaults and user-setting X `v0 = 5`,
`a = 0`, `t = 3`, a full solve derives X `displacement = 15`,
`finalVelocity = 5`, `finalPosition = 15`, each known and not user-set.
(The stand-ins for the transcendental functions are never evaluated on
this run: no coupling scalar is set and no square-root rule fires.) -/
theorem claim_C9 :
    ((autoSolve sqZ csZ snZ a2Z c9State).x.vals.get .d = 15 ∧
      (autoSolve sqZ csZ snZ a2Z c9State).x.known.get .d = true ∧
      (autoSolve sqZ csZ snZ a2Z c9State).x.userSet.get .d = false) ∧
    ((autoSolve sqZ csZ snZ a2Z c9State).x.vals.get .vf = 5 ∧
      (autoSolve sqZ csZ snZ a2Z c9State).x.known.get .vf = true ∧
      (autoSolve sqZ csZ snZ a2Z c9State).x.userSet.get .vf = false) ∧
    ((autoSolve sqZ csZ snZ a2Z c9State).x.vals.get .pf = 15 ∧
      (autoSolve sqZ csZ snZ a2Z c9State).x.known.get .pf = true ∧
      (autoSolve sqZ csZ snZ a2Z c9State).x.userSet.get .pf = false) := by
  rw [c9_eval]
  decide

/-- C1 (counterexample): on the valid state `c1State` (X `v0` user-set
to `5`, launch speed `1` and launch angle `0` user-set) a full solve
overwrites the user-set X `v0` with `launchSpeed * cos 0 = 1`: a
user-set variable is altered in value by a solve.  (`csZ` agrees with
`cosf` at `0`, the only point this run evaluates it at.) -/
theorem claim_C1_cex :
    c1State.x.userSet.get .v0 = true ∧ Valid c1State ∧
    c1State.x.vals.get .v0 = 5 ∧
    (autoSolve sqZ csZ snZ a2Z c1State).x.vals.get .v0 = 1 ∧
    ((1 : ℚ) ≠ 5) := by
  refine ⟨by decide, by decide, by decide, ?_, by decide⟩
  rw [c1_eval]
  decide

/-- C3 (counterexample): on `c3State` — which violates the data-model
invariant `userSet ⇒ known` on the launch-speed scalar — two successive
solves give X `v0 = 2` while one solve gives X `v0 = -2`: `autoSolve`
is not idempotent on arbitrary flag states.  (The stand-ins agree with
the C library functions at every point this run evaluates them at:
`cos 0 = 1`, `sin 0 = 0`, `sqrt 4 = 2`.) -/
theorem claim_C3_cex :
    (autoSolve sqZ csZ snZ a2Z (autoSolve sqZ csZ snZ a2Z c3State)).x.vals.get .v0 = 2 ∧
    (autoSolve sqZ csZ snZ a2Z c3State).x.vals.get .v0 = -2 ∧
    ((2 : ℚ) ≠ -2) := by
  refine ⟨?_, ?_, by decide⟩
  · rw [c3a_eval, c3b_eval]
    decide
  · rw [c3a_eval]
    decide

/-- C10: the average-velocity inversion rule `t = 2*d / (v0 + vf)`
(source line 187) is gated on `v0 + vf` nonzero, and sets the known
flag exactly when the computed quotient is non-negative; a negative
quotient leaves `t` unknown for the round (though the rejected quotient
is still stored in the local value, as the source assigns `t` before
testing it). -/
theorem claim_C10 (s : SState)
    (h0 : s.known.get .v0 = true) (h1 : s.known.get .vf = true)
    (h2 : s.known.get .d = true) (ht : s.known.get .t = false) :
    (s.vals.v0 + s.vals.vf = 0 → applyRule s rule14 = s) ∧
    (s.vals.v0 + s.vals.vf ≠ 0 →
      (applyRule s rule14).known.get .t =
        decide (0 ≤ 2 * s.vals.d / (s.vals.v0 + s.vals.vf)) ∧
      (applyRule s rule14).vals.get .t =
        2 * s.vals.d / (s.vals.v0 + s.vals.vf)) := by
  have hguard : (!s.known.get (rule14).target &&
      (rule14).needs.all fun v => s.known.get v) = true := by
    simp [rule14, h0, h1, h2, ht]
  constructor
  · intro hsum
    unfold applyRule
    rw [hguard, if_pos rfl]
    have hc : rule14.compute s.vals = .ok none := by
      simp only [rule14, qAdd_eq]
      rw [if_pos hsum]
    rw [hc]
  · intro hsum
    have hc : rule14.compute s.vals =
        .ok (some (2 * s.vals.d / (s.vals.v0 + s.vals.vf),
          decide (0 ≤ 2 * s.vals.d / (s.vals.v0 + s.vals.vf)))) := by
      simp only [rule14, ediv, qAdd_eq, qMul_eq, qDiv_eq]
      rw [if_neg hsum, if_neg hsum]
      rfl
    unfold applyRule
    rw [hguard, if_pos rfl, hc]
    constructor
    · rw [show rule14.target = Var.t from rfl, Flags_get_set]
      simp
    · rw [show rule14.target = Var.t from rfl, Vals_get_set]
      simp

/-- C10 (witness): at `v0 = 1, vf = 1, d = -3` the quotient is negative,
so the rule leaves `t` unknown. -/
theorem claim_C10_witness :
    ((1 : ℚ) + 1 ≠ 0) ∧
    (applyRule ⟨⟨0, 0, 1, 1, 0, -3, 0⟩, ⟨false, false, true, true, false, true, false⟩⟩
        rule14).known.get .t =
      decide (0 ≤ 2 * (-3 : ℚ) / (1 + 1)) := by
  refine ⟨by norm_num, ?_⟩
  exact ((claim_C10 ⟨⟨0, 0, 1, 1, 0, -3, 0⟩, ⟨false, false, true, true, false, true, false⟩⟩
    (by decide) (by decide) (by decide) (by decide)).2 (by norm_num)).1

theorem roundEps_eq : roundEps = 1/1000 := by
  unfold roundEps
  rw [Rat.mkRat_eq_div]
  norm_num

theorem ite_lt_eq_max (a b : ℚ) : (if b < a then a else b) = max a b := by
  split_ifs with h
  · exact (max_eq_left h.le).symm
  · exact (max_eq_right (not_lt.mp h)).symm

theorem ite_lt_eq_min (a b : ℚ) : (if a < b then a else b) = min a b := by
  split_ifs with h
  · exact (min_eq_left h.le).symm
  · exact (min_eq_right (not_lt.mp h)).symm

/-- C4: the time-from-displacement rules.  With `a ≠ 0` and a
non-negative discriminant, the value chosen is the larger of the two
quadratic roots when it exceeds `0.001`, else the smaller root when it
is non-negative, else the rule does not fire; with `a = 0` the linear
fallback `t = d / v0` (resp. `t = d / vf`) is used, gated on a nonzero
divisor and accepted (marked known) exactly when the quotient is
non-negative. -/
theorem claim_C4 (sq : ℚ → ℚ) (u : Vals) :
    (u.a ≠ 0 → 0 ≤ u.v0 * u.v0 + 2 * u.a * u.d →
      (rule21 sq).compute u =
        .ok (if 1/1000 < max ((-u.v0 + sq (u.v0 * u.v0 + 2 * u.a * u.d)) / u.a)
                             ((-u.v0 - sq (u.v0 * u.v0 + 2 * u.a * u.d)) / u.a) then
               some (max ((-u.v0 + sq (u.v0 * u.v0 + 2 * u.a * u.d)) / u.a)
                         ((-u.v0 - sq (u.v0 * u.v0 + 2 * u.a * u.d)) / u.a), true)
             else if 0 ≤ min ((-u.v0 + sq (u.v0 * u.v0 + 2 * u.a * u.d)) / u.a)
                             ((-u.v0 - sq (u.v0 * u.v0 + 2 * u.a * u.d)) / u.a) then
               some (min ((-u.v0 + sq (u.v0 * u.v0 + 2 * u.a * u.d)) / u.a)
                         ((-u.v0 - sq (u.v0 * u.v0 + 2 * u.a * u.d)) / u.a), true)
             else none)) ∧
    (u.a ≠ 0 → u.v0 * u.v0 + 2 * u.a * u.d < 0 →
      (rule21 sq).compute u = .ok none) ∧
    (u.a = 0 → u.v0 = 0 → (rule21 sq).compute u = .ok none) ∧
    (u.a = 0 → u.v0 ≠ 0 →
      (rule21 sq).compute u = .ok (some (u.d / u.v0, decide (0 ≤ u.d / u.v0)))) ∧
    (u.a ≠ 0 → 0 ≤ u.vf * u.vf - 2 * u.a * u.d →
      (rule20 sq).compute u =
        .ok (if 1/1000 < max ((u.vf - sq (u.vf * u.vf - 2 * u.a * u.d)) / u.a)
                             ((u.vf + sq (u.vf * u.vf - 2 * u.a * u.d)) / u.a) then
               some (max ((u.vf - sq (u.vf * u.vf - 2 * u.a * u.d)) / u.a)
                         ((u.vf + sq (u.vf * u.vf - 2 * u.a * u.d)) / u.a), true)
             else if 0 ≤ min ((u.vf - sq (u.vf * u.vf - 2 * u.a * u.d)) / u.a)
                             ((u.vf + sq (u.vf * u.vf - 2 * u.a * u.d)) / u.a) then
               some (min ((u.vf - sq (u.vf * u.vf - 2 * u.a * u.d)) / u.a)
                         ((u.vf + sq (u.vf * u.vf - 2 * u.a * u.d)) / u.a), true)
             else none)) ∧
    (u.a ≠ 0 → u.vf * u.vf - 2 * u.a * u.d < 0 →
      (rule20 sq).compute u = .ok none) ∧
    (u.a = 0 → u.vf = 0 → (rule20 sq).compute u = .ok none) ∧
    (u.a = 0 → u.vf ≠ 0 →
      (rule20 sq).compute u = .ok (some (u.d / u.vf, decide (0 ≤ u.d / u.vf)))) := by
  refine ⟨?_, ?_, ?_, ?_, ?_, ?_, ?_, ?_⟩
  · intro ha hd
    simp only [rule21, ediv, esqrt, qAdd_eq, qMul_eq, qSub_eq, qDiv_eq,
      if_neg ha, if_pos hd, if_neg (not_lt.mpr hd), Except.bind, bind, pure,
      ite_lt_eq_max, ite_lt_eq_min, roundEps_eq]
    rfl
  · intro ha hd
    simp only [rule21, qAdd_eq, qMul_eq, if_neg ha, if_neg (not_le.mpr hd)]
  · intro ha hv
    simp only [rule21, if_pos ha, if_pos hv]
  · intro ha hv
    simp only [rule21, ediv, qDiv_eq, if_pos ha, if_neg hv, Except.bind, bind, pure]
    rfl
  · intro ha hd
    simp only [rule20, ediv, esqrt, qAdd_eq, qMul_eq, qSub_eq, qDiv_eq,
      if_neg ha, if_pos hd, if_neg (not_lt.mpr hd), Except.bind, bind, pure,
      ite_lt_eq_max, ite_lt_eq_min, roundEps_eq]
    rfl
  · intro ha hd
    simp only [rule20, qSub_eq, qMul_eq, if_neg ha, if_neg (not_le.mpr hd)]
  · intro ha hv
    simp only [rule20, if_pos ha, if_pos hv]
  · intro ha hv
    simp only [rule20, ediv, qDiv_eq, if_pos ha, if_neg hv, Except.bind, bind, pure]
    rfl

/-- C4 (witness): with `v0 = 0, a = 2, d = 1` the discriminant is `4`,
the roots are `1` and `-1`, and the larger root `1` is chosen. -/
theorem claim_C4_witness :
    ((2 : ℚ) ≠ 0) ∧
    (rule21 sqZ).compute ⟨0, 0, 0, 0, 2, 1, 0⟩ =
      .ok (if 1/1000 < max ((-(0:ℚ) + sqZ ((0:ℚ) * 0 + 2 * 2 * 1)) / 2)
                           ((-(0:ℚ) - sqZ ((0:ℚ) * 0 + 2 * 2 * 1)) / 2) then
             some (max ((-(0:ℚ) + sqZ ((0:ℚ) * 0 + 2 * 2 * 1)) / 2)
                       ((-(0:ℚ) - sqZ ((0:ℚ) * 0 + 2 * 2 * 1)) / 2), true)
           else if 0 ≤ min ((-(0:ℚ) + sqZ ((0:ℚ) * 0 + 2 * 2 * 1)) / 2)
                           ((-(0:ℚ) - sqZ ((0:ℚ) * 0 + 2 * 2 * 1)) / 2) then
             some (min ((-(0:ℚ) + sqZ ((0:ℚ) * 0 + 2 * 2 * 1)) / 2)
                       ((-(0:ℚ) - sqZ ((0:ℚ) * 0 + 2 * 2 * 1)) / 2), true)
           else none) := by
  refine ⟨by norm_num, ?_⟩
  exact (claim_C4 sqZ ⟨0, 0, 0, 0, 2, 1, 0⟩).1 (by norm_num) (by norm_num [sqZ])

/-- C5 (counterexample): solving `v0` from `vf = 0, a = -1, d = 2`
(discriminant `4`, magnitude `2`) yields `+2`, a positive value, while
`a*d = -2` is negative: the `v0` rule does not give the unknown
velocity the sign of `a·d`.  (`sqZ` agrees with `sqrtf` at `4`.) -/
theorem claim_C5_cex :
    (rule23 sqZ).compute ⟨0, 0, 0, 0, -1, 2, 0⟩ = .ok (some (2, true)) ∧
    ((-1 : ℚ) * 2 < 0) ∧ ((0 : ℚ) < 2) := by
  refine ⟨by decide, by norm_num, by norm_num⟩

/-- C5 (amended): in both velocity-squared rules the computed magnitude
`sqrt(disc)` receives the sign of the known velocity when that velocity
is nonzero; when the known velocity is zero, the `vf` rule makes the
result non-negative iff `a·d ≥ 0`, while the `v0` rule makes the result
non-negative iff `a·d ≤ 0` (the opposite sign of `a·d`). -/
theorem claim_C5 (sq : ℚ → ℚ) (u : Vals) :
    (0 ≤ u.v0 * u.v0 + 2 * u.a * u.d →
      (rule22 sq).compute u = .ok (some
        (if u.v0 ≠ 0 then
          (if 0 < u.v0 then sq (u.v0 * u.v0 + 2 * u.a * u.d)
           else -sq (u.v0 * u.v0 + 2 * u.a * u.d))
         else
          (if 0 ≤ u.a * u.d then sq (u.v0 * u.v0 + 2 * u.a * u.d)
           else -sq (u.v0 * u.v0 + 2 * u.a * u.d)), true))) ∧
    (u.v0 * u.v0 + 2 * u.a * u.d < 0 → (rule22 sq).compute u = .ok none) ∧
    (0 ≤ u.vf * u.vf - 2 * u.a * u.d →
      (rule23 sq).compute u = .ok (some
        (if u.vf ≠ 0 then
          (if 0 < u.vf then sq (u.vf * u.vf - 2 * u.a * u.d)
           else -sq (u.vf * u.vf - 2 * u.a * u.d))
         else
          (if u.a * u.d ≤ 0 then sq (u.vf * u.vf - 2 * u.a * u.d)
           else -sq (u.vf * u.vf - 2 * u.a * u.d)), true))) ∧
    (u.vf * u.vf - 2 * u.a * u.d < 0 → (rule23 sq).compute u = .ok none) := by
  refine ⟨?_, ?_, ?_, ?_⟩
  · intro hd
    simp only [rule22, esqrt, qAdd_eq, qMul_eq, if_pos hd,
      if_neg (not_lt.mpr hd), Except.bind, bind, pure]
    rfl
  · intro hd
    simp only [rule22, qAdd_eq, qMul_eq, if_neg (not_le.mpr hd)]
  · intro hd
    simp only [rule23, esqrt, qSub_eq, qMul_eq, if_pos hd,
      if_neg (not_lt.mpr hd), Except.bind, bind, pure]
    rfl
  · intro hd
    simp only [rule23, qSub_eq, qMul_eq, if_neg (not_le.mpr hd)]

/-- C5 (witness for the amended claim): `v0 = 3, a = 0, d = 0` gives
discriminant `9`; `v0 > 0`, so `vf` gets `+sqrt 9`. -/
theorem claim_C5_witness :
    ((0:ℚ) ≤ 3 * 3 + 2 * 0 * 0) ∧
    (rule22 (fun q => if q = 9 then 3 else 0)).compute ⟨0, 0, 3, 0, 0, 0, 0⟩ =
      .ok (some (if (3:ℚ) ≠ 0 then
        (if (0:ℚ) < 3 then (fun q : ℚ => if q = 9 then 3 else 0) ((3:ℚ) * 3 + 2 * 0 * 0)
         else -(fun q : ℚ => if q = 9 then 3 else 0) ((3:ℚ) * 3 + 2 * 0 * 0))
       else
        (if (0:ℚ) ≤ 0 * 0 then (fun q : ℚ => if q = 9 then 3 else 0) ((3:ℚ) * 3 + 2 * 0 * 0)
         else -(fun q : ℚ => if q = 9 then 3 else 0) ((3:ℚ) * 3 + 2 * 0 * 0)), true)) := by
  refine ⟨by norm_num, ?_⟩
  exact (claim_C5 (fun q => if q = 9 then 3 else 0) ⟨0, 0, 3, 0, 0, 0, 0⟩).1 (by norm_num)

/-- C8: the equation catalogue is total.  Every rule's computation
returns `.ok` on every input tuple: each division (`ediv`) sits behind
a nonzero test on its exact denominator and each square root (`esqrt`)
behind a non-negativity test on its radicand, so a guarded-out rule
simply does not fire that round and no arithmetic fault is reachable. -/
theorem claim_C8 (sq : ℚ → ℚ) :
    ∀ r ∈ catalogue sq, ∀ u : Vals, ∃ o, r.compute u = .ok o := by
  intro r hr u
  fin_cases hr <;>
    first
      | exact ⟨_, rfl⟩
      | (simp only [rule4, rule5, rule6, rule9, rule11, rule12, rule14, rule15,
           rule16, rule18, rule19, rule20, rule21, rule22, rule23, rule24,
           rule25, ediv, esqrt, qAdd_eq, qSub_eq, qMul_eq, qDiv_eq]
         split_ifs <;>
           first
             | exact ⟨_, rfl⟩
             | (exfalso; linarith)
             | (exfalso; simp_all [mul_eq_zero]))

/-- C8 (witness): the quadratic time rule at `v0 = 0, a = 2, d = 1`. -/
theorem claim_C8_witness :
    ∃ o, (rule21 sqZ).compute ⟨0, 0, 0, 0, 2, 1, 0⟩ = .ok o :=
  claim_C8 sqZ (rule21 sqZ) (by simp [catalogue]) ⟨0, 0, 0, 0, 2, 1, 0⟩

theorem applyRule_known_mono (s : SState) (r : Rule) (v : Var)
    (h : s.known.get v = true) : (applyRule s r).known.get v = true := by
  unfold applyRule
  split_ifs with hg
  · have ht : s.known.get r.target = false := by
      simp only [Bool.and_eq_true, Bool.not_eq_true'] at hg
      exact hg.1
    rcases hc : r.compute s.vals with e | o
    · simp only [hc]; exact h
    · rcases o with _ | ⟨q, b⟩
      · simp only [hc]; exact h
      · simp only [hc]
        rw [Flags_get_set]
        split_ifs with hv
        · subst hv; rw [h] at ht; cases ht
        · exact h
  · exact h

theorem applyRule_vals_known (s : SState) (r : Rule) (v : Var)
    (h : s.known.get v = true) : (applyRule s r).vals.get v = s.vals.get v := by
  unfold applyRule
  split_ifs with hg
  · have ht : s.known.get r.target = false := by
      simp only [Bool.and_eq_true, Bool.not_eq_true'] at hg
      exact hg.1
    rcases hc : r.compute s.vals with e | o
    · simp only [hc]
    · rcases o with _ | ⟨q, b⟩
      · simp only [hc]
      · simp only [hc]
        rw [Vals_get_set]
        split_ifs with hv
        · subst hv; rw [h] at ht; cases ht
        · rfl
  · rfl

theorem foldl_known_mono (L : List Rule) (s : SState) (v : Var)
    (h : s.known.get v = true) :
    (L.foldl applyRule s).known.get v = true := by
  induction L generalizing s with
  | nil => simpa using h
  | cons r L ih =>
    simpa only [List.foldl_cons] using ih (applyRule s r) (applyRule_known_mono s r v h)

theorem foldl_vals_known (L : List Rule) (s : SState) (v : Var)
    (h : s.known.get v = true) :
    (L.foldl applyRule s).vals.get v = s.vals.get v := by
  induction L generalizing s with
  | nil => simp
  | cons r L ih =>
    simp only [List.foldl_cons]
    rw [ih (applyRule s r) (applyRule_known_mono s r v h)]
    exact applyRule_vals_known s r v h

theorem applyRule_track (r : Rule) (hr : r.Reads) (a b u w : SState)
    (t : TrackS a b u w) : TrackS a b (applyRule u r) (applyRule w r) := by
  obtain ⟨hk, hv⟩ := t
  have hguard : (!w.known.get r.target && (r.needs.all fun x => w.known.get x)) =
      (!u.known.get r.target && (r.needs.all fun x => u.known.get x)) := by rw [hk]
  unfold applyRule
  rw [hguard]
  split_ifs with hg
  · have hneeds : ∀ x ∈ r.needs, u.known.get x = true := by
      simp only [Bool.and_eq_true, List.all_eq_true] at hg
      exact hg.2
    have hcompute : r.compute w.vals = r.compute u.vals := by
      refine (hr u.vals w.vals ?_).symm
      intro x hx
      rcases hv x with h | ⟨hfalse, _, _⟩
      · exact h
      · rw [hneeds x hx] at hfalse; cases hfalse
    rw [hcompute]
    rcases hc : r.compute u.vals with e | o
    · simp only [hc]; exact ⟨hk, hv⟩
    · rcases o with _ | ⟨q, bb⟩
      · simp only [hc]; exact ⟨hk, hv⟩
      · simp only [hc]
        refine ⟨by rw [hk], ?_⟩
        intro x
        by_cases hx : x = r.target
        · subst hx
          left
          rw [Vals_get_set, Vals_get_set, if_pos rfl, if_pos rfl]
        · rcases hv x with h | ⟨h1, h2, h3⟩
          · left
            rw [Vals_get_set, Vals_get_set, if_neg hx, if_neg hx]
            exact h
          · right
            refine ⟨?_, ?_, ?_⟩
            · rw [Flags_get_set, if_neg hx]; exact h1
            · rw [Vals_get_set, if_neg hx]; exact h2
            · rw [Vals_get_set, if_neg hx]; exact h3
  · exact ⟨hk, hv⟩

theorem foldl_track (L : List Rule) (hL : ∀ r ∈ L, r.Reads) (a b u w : SState)
    (t : TrackS a b u w) :
    TrackS a b (L.foldl applyRule u) (L.foldl applyRule w) := by
  induction L generalizing u w with
  | nil => simpa using t
  | cons r L ih =>
    simp only [List.foldl_cons]
    exact ih (fun r' hr' => hL r' (List.mem_cons_of_mem _ hr')) _ _
      (applyRule_track r (hL r (List.mem_cons_self _ _)) a b u w t)

theorem reads_rule1 : rule1.Reads := by
  intro u u' h
  have h1 : u.p0 = u'.p0 := h .p0 (by decide)
  have h2 : u.pf = u'.pf := h .pf (by decide)
  simp only [rule1, h1, h2]

theorem reads_rule2 : rule2.Reads := by
  intro u u' h
  have h1 : u.p0 = u'.p0 := h .p0 (by decide)
  have h2 : u.d = u'.d := h .d (by decide)
  simp only [rule2, h1, h2]

theorem reads_rule3 : rule3.Reads := by
  intro u u' h
  have h1 : u.pf = u'.pf := h .pf (by decide)
  have h2 : u.d = u'.d := h .d (by decide)
  simp only [rule3, h1, h2]

theorem reads_rule4 : rule4.Reads := by
  intro u u' h
  have h1 : u.v0 = u'.v0 := h .v0 (by decide)
  have h2 : u.vf = u'.vf := h .vf (by decide)
  have h3 : u.a = u'.a := h .a (by decide)
  simp only [rule4, h1, h2, h3]

theorem reads_rule5 : rule5.Reads := by
  intro u u' h
  have h1 : u.v0 = u'.v0 := h .v0 (by decide)
  have h2 : u.a = u'.a := h .a (by decide)
  simp only [rule5, h1, h2]

theorem reads_rule6 : rule6.Reads := by
  intro u u' h
  have h1 : u.vf = u'.vf := h .vf (by decide)
  have h2 : u.a = u'.a := h .a (by decide)
  simp only [rule6, h1, h2]

theorem reads_rule7 : rule7.Reads := by
  intro u u' h
  have h1 : u.v0 = u'.v0 := h .v0 (by decide)
  have h2 : u.a = u'.a := h .a (by decide)
  have h3 : u.t = u'.t := h .t (by decide)
  simp only [rule7, h1, h2, h3]

theorem reads_rule8 : rule8.Reads := by
  intro u u' h
  have h1 : u.vf = u'.vf := h .vf (by decide)
  have h2 : u.a = u'.a := h .a (by decide)
  have h3 : u.t = u'.t := h .t (by decide)
  simp only [rule8, h1, h2, h3]

theorem reads_rule9 : rule9.Reads := by
  intro u u' h
  have h1 : u.v0 = u'.v0 := h .v0 (by decide)
  have h2 : u.vf = u'.vf := h .vf (by decide)
  have h3 : u.t = u'.t := h .t (by decide)
  simp only [rule9, h1, h2, h3]

theorem reads_rule10 : rule10.Reads := by
  intro u u' h
  have h1 : u.v0 = u'.v0 := h .v0 (by decide)
  have h2 : u.t = u'.t := h .t (by decide)
  have h3 : u.a = u'.a := h .a (by decide)
  simp only [rule10, h1, h2, h3]

theorem reads_rule11 : rule11.Reads := by
  intro u u' h
  have h1 : u.d = u'.d := h .d (by decide)
  have h2 : u.t = u'.t := h .t (by decide)
  have h3 : u.a = u'.a := h .a (by decide)
  simp only [rule11, h1, h2, h3]

theorem reads_rule12 : rule12.Reads := by
  intro u u' h
  have h1 : u.v0 = u'.v0 := h .v0 (by decide)
  have h2 : u.d = u'.d := h .d (by decide)
  have h3 : u.t = u'.t := h .t (by decide)
  simp only [rule12, h1, h2, h3]

theorem reads_rule13 : rule13.Reads := by
  intro u u' h
  have h1 : u.v0 = u'.v0 := h .v0 (by decide)
  have h2 : u.vf = u'.vf := h .vf (by decide)
  have h3 : u.t = u'.t := h .t (by decide)
  simp only [rule13, h1, h2, h3]

theorem reads_rule14 : rule14.Reads := by
  intro u u' h
  have h1 : u.v0 = u'.v0 := h .v0 (by decide)
  have h2 : u.vf = u'.vf := h .vf (by decide)
  have h3 : u.d = u'.d := h .d (by decide)
  simp only [rule14, h1, h2, h3]

theorem reads_rule15 : rule15.Reads := by
  intro u u' h
  have h1 : u.vf = u'.vf := h .vf (by decide)
  have h2 : u.d = u'.d := h .d (by decide)
  have h3 : u.t = u'.t := h .t (by decide)
  simp only [rule15, h1, h2, h3]

theorem reads_rule16 : rule16.Reads := by
  intro u u' h
  have h1 : u.v0 = u'.v0 := h .v0 (by decide)
  have h2 : u.d = u'.d := h .d (by decide)
  have h3 : u.t = u'.t := h .t (by decide)
  simp only [rule16, h1, h2, h3]

theorem reads_rule17 : rule17.Reads := by
  intro u u' h
  have h1 : u.vf = u'.vf := h .vf (by decide)
  have h2 : u.t = u'.t := h .t (by decide)
  have h3 : u.a = u'.a := h .a (by decide)
  simp only [rule17, h1, h2, h3]

theorem reads_rule18 : rule18.Reads := by
  intro u u' h
  have h1 : u.d = u'.d := h .d (by decide)
  have h2 : u.t = u'.t := h .t (by decide)
  have h3 : u.a = u'.a := h .a (by decide)
  simp only [rule18, h1, h2, h3]

theorem reads_rule19 : rule19.Reads := by
  intro u u' h
  have h1 : u.vf = u'.vf := h .vf (by decide)
  have h2 : u.d = u'.d := h .d (by decide)
  have h3 : u.t = u'.t := h .t (by decide)
  simp only [rule19, h1, h2, h3]

theorem reads_rule20 (sq : ℚ → ℚ) : (rule20 sq).Reads := by
  intro u u' h
  have h1 : u.vf = u'.vf := h .vf (by simp [rule20])
  have h2 : u.d = u'.d := h .d (by simp [rule20])
  have h3 : u.a = u'.a := h .a (by simp [rule20])
  simp only [rule20, h1, h2, h3]

theorem reads_rule21 (sq : ℚ → ℚ) : (rule21 sq).Reads := by
  intro u u' h
  have h1 : u.v0 = u'.v0 := h .v0 (by simp [rule21])
  have h2 : u.d = u'.d := h .d (by simp [rule21])
  have h3 : u.a = u'.a := h .a (by simp [rule21])
  simp only [rule21, h1, h2, h3]

theorem reads_rule22 (sq : ℚ → ℚ) : (rule22 sq).Reads := by
  intro u u' h
  have h1 : u.v0 = u'.v0 := h .v0 (by simp [rule22])
  have h2 : u.a = u'.a := h .a (by simp [rule22])
  have h3 : u.d = u'.d := h .d (by simp [rule22])
  simp only [rule22, h1, h2, h3]

theorem reads_rule23 (sq : ℚ → ℚ) : (rule23 sq).Reads := by
  intro u u' h
  have h1 : u.vf = u'.vf := h .vf (by simp [rule23])
  have h2 : u.a = u'.a := h .a (by simp [rule23])
  have h3 : u.d = u'.d := h .d (by simp [rule23])
  simp only [rule23, h1, h2, h3]

theorem reads_rule24 : rule24.Reads := by
  intro u u' h
  have h1 : u.v0 = u'.v0 := h .v0 (by decide)
  have h2 : u.vf = u'.vf := h .vf (by decide)
  have h3 : u.d = u'.d := h .d (by decide)
  simp only [rule24, h1, h2, h3]

theorem reads_rule25 : rule25.Reads := by
  intro u u' h
  have h1 : u.v0 = u'.v0 := h .v0 (by decide)
  have h2 : u.vf = u'.vf := h .vf (by decide)
  have h3 : u.a = u'.a := h .a (by decide)
  simp only [rule25, h1, h2, h3]

theorem catalogue_reads (sq : ℚ → ℚ) : ∀ r ∈ catalogue sq, r.Reads := by
  intro r hr
  fin_cases hr
  exacts [reads_rule1, reads_rule2, reads_rule3, reads_rule4, reads_rule5,
    reads_rule6, reads_rule7, reads_rule8, reads_rule9, reads_rule10,
    reads_rule11, reads_rule12, reads_rule13, reads_rule14, reads_rule15,
    reads_rule16, reads_rule17, reads_rule18, reads_rule19, reads_rule20 sq,
    reads_rule21 sq, reads_rule22 sq, reads_rule23 sq, reads_rule24,
    reads_rule25]

theorem runRound_known_mono (sq : ℚ → ℚ) (s : SState) (v : Var)
    (h : s.known.get v = true) : (runRound sq s).known.get v = true :=
  foldl_known_mono (catalogue sq) s v h

theorem runRound_vals_known (sq : ℚ → ℚ) (s : SState) (v : Var)
    (h : s.known.get v = true) : (runRound sq s).vals.get v = s.vals.get v :=
  foldl_vals_known (catalogue sq) s v h

theorem runRound_track (sq : ℚ → ℚ) (a b u w : SState) (t : TrackS a b u w) :
    TrackS a b (runRound sq u) (runRound sq w) :=
  foldl_track (catalogue sq) (catalogue_reads sq) a b u w t

theorem iterate_known_mono (sq : ℚ → ℚ) (n : ℕ) (s : SState) (v : Var)
    (h : s.known.get v = true) :
    ((runRound sq)^[n] s).known.get v = true := by
  induction n generalizing s with
  | zero => simpa using h
  | succ n ih =>
    rw [Function.iterate_succ_apply]
    exact ih _ (runRound_known_mono sq s v h)

theorem iterate_vals_known (sq : ℚ → ℚ) (n : ℕ) (s : SState) (v : Var)
    (h : s.known.get v = true) :
    ((runRound sq)^[n] s).vals.get v = s.vals.get v := by
  induction n generalizing s with
  | zero => simp
  | succ n ih =>
    rw [Function.iterate_succ_apply]
    rw [ih _ (runRound_known_mono sq s v h)]
    exact runRound_vals_known sq s v h

theorem iterate_track (sq : ℚ → ℚ) (n : ℕ) (a b u w : SState)
    (t : TrackS a b u w) :
    TrackS a b ((runRound sq)^[n] u) ((runRound sq)^[n] w) := by
  induction n generalizing u w with
  | zero => simpa using t
  | succ n ih =>
    rw [Function.iterate_succ_apply, Function.iterate_succ_apply]
    exact ih _ _ (runRound_track sq a b u w t)

theorem solveLoop_known_mono (sq : ℚ → ℚ) (s : SState) (v : Var)
    (h : s.known.get v = true) : (solveLoop sq s).known.get v = true :=
  iterate_known_mono sq 20 s v h

theorem solveLoop_vals_known (sq : ℚ → ℚ) (s : SState) (v : Var)
    (h : s.known.get v = true) : (solveLoop sq s).vals.get v = s.vals.get v :=
  iterate_vals_known sq 20 s v h

theorem solveLoop_track (sq : ℚ → ℚ) (a b u w : SState) (t : TrackS a b u w) :
    TrackS a b (solveLoop sq u) (solveLoop sq w) :=
  iterate_track sq 20 a b u w t

theorem trySolve_userSet (sq : ℚ → ℚ) (ax : Axis) :
    (trySolve sq ax).userSet = ax.userSet := by
  simp only [trySolve]

theorem trySolve_known_mono (sq : ℚ → ℚ) (ax : Axis) (v : Var)
    (h : ax.known.get v = true) : (trySolve sq ax).known.get v = true := by
  simp only [trySolve]
  show (writeback ax.known (solveLoop sq ⟨ax.vals, ax.known⟩).known ax.userSet).get v = true
  unfold writeback
  rw [Flags_get_build]
  split_ifs with h1
  · rfl
  · exact h

theorem trySolve_vals_known (sq : ℚ → ℚ) (ax : Axis) (v : Var)
    (h : ax.known.get v = true) : (trySolve sq ax).vals.get v = ax.vals.get v := by
  simp only [trySolve]
  show (solveLoop sq ⟨ax.vals, ax.known⟩).vals.get v = ax.vals.get v
  exact solveLoop_vals_known sq ⟨ax.vals, ax.known⟩ v h

theorem trySolve_vals_def (sq : ℚ → ℚ) (ax : Axis) :
    (trySolve sq ax).vals = (solveLoop sq ⟨ax.vals, ax.known⟩).vals := by
  simp only [trySolve]

theorem trySolve_known_def (sq : ℚ → ℚ) (ax : Axis) :
    (trySolve sq ax).known =
      writeback ax.known (solveLoop sq ⟨ax.vals, ax.known⟩).known ax.userSet := by
  simp only [trySolve]

theorem trySolve_track (sq : ℚ → ℚ) (a b u w : Axis) (t : TrackAx a b u w) :
    TrackAx a b (trySolve sq u) (trySolve sq w) := by
  obtain ⟨hus, hk, hv⟩ := t
  have tS : TrackS ⟨u.vals, u.known⟩ ⟨w.vals, w.known⟩ ⟨u.vals, u.known⟩
      ⟨w.vals, w.known⟩ := by
    refine ⟨hk, fun v => ?_⟩
    rcases hv v with h | ⟨h1, h2, h3⟩
    · exact Or.inl h
    · exact Or.inr ⟨h1, rfl, rfl⟩
  obtain ⟨hk', hv'⟩ := solveLoop_track sq _ _ _ _ tS
  unfold TrackAx
  rw [trySolve_userSet, trySolve_userSet, trySolve_vals_def, trySolve_vals_def,
    trySolve_known_def, trySolve_known_def]
  refine ⟨hus, ?_, ?_⟩
  · rw [hk', hus, hk]
  · intro v
    rcases hv' v with h | ⟨h1, h2, h3⟩
    · left
      exact h
    · rcases hv v with huw | ⟨g1, g2, g3⟩
      · left
        rw [h2, h3]
        exact huw
      · right
        refine ⟨?_, ?_, ?_⟩
        · unfold writeback
          rw [Flags_get_build, h1]
          simp [g1]
        · rw [h2]
          exact g2
        · rw [h3]
          exact g3

theorem setD_userSet (ax : Axis) (v : Var) (q : ℚ) :
    (setD ax v q).userSet = ax.userSet := by
  simp only [setD]

theorem setD_known_get (ax : Axis) (v : Var) (q : ℚ) (w : Var) :
    (setD ax v q).known.get w = if w = v then true else ax.known.get w := by
  simp only [setD]
  rw [Flags_get_set]

theorem setD_vals_get (ax : Axis) (v : Var) (q : ℚ) (w : Var) :
    (setD ax v q).vals.get w = if w = v then q else ax.vals.get w := by
  simp only [setD]
  rw [Vals_get_set]

theorem setD_known_mono (ax : Axis) (v : Var) (q : ℚ) (w : Var)
    (h : ax.known.get w = true) : (setD ax v q).known.get w = true := by
  rw [setD_known_get]
  split_ifs <;> simp [h]

theorem phaseReset_userSet (s : PState) :
    (phaseReset s).x.userSet = s.x.userSet ∧
    (phaseReset s).y.userSet = s.y.userSet ∧
    (phaseReset s).speedUserSet = s.speedUserSet ∧
    (phaseReset s).angleUserSet = s.angleUserSet ∧
    (phaseReset s).finalSpeedUserSet = s.finalSpeedUserSet := by
  simp [phaseReset, resetAxis]

theorem phaseReset_vals (s : PState) :
    (phaseReset s).x.vals = s.x.vals ∧ (phaseReset s).y.vals = s.y.vals ∧
    (phaseReset s).launchSpeed = s.launchSpeed ∧
    (phaseReset s).launchAngle = s.launchAngle ∧
    (phaseReset s).finalSpeed = s.finalSpeed := by
  simp [phaseReset, resetAxis]

theorem phaseReset_known (s : PState) :
    (∀ v, (phaseReset s).x.known.get v = (s.x.userSet.get v && s.x.known.get v)) ∧
    (∀ v, (phaseReset s).y.known.get v = (s.y.userSet.get v && s.y.known.get v)) ∧
    (phaseReset s).speedKnown = (s.speedUserSet && s.speedKnown) ∧
    (phaseReset s).angleKnown = (s.angleUserSet && s.angleKnown) ∧
    (phaseReset s).finalSpeedKnown = (s.finalSpeedUserSet && s.finalSpeedKnown) := by
  simp only [phaseReset, resetAxis]
  refine ⟨fun v => ?_, fun v => ?_, trivial, trivial, trivial⟩ <;> rw [Flags_get_build]

theorem phaseReset_valid (s : PState) (h : Valid s) : Valid (phaseReset s) := by
  obtain ⟨hx, hy, hs, ha, hf⟩ := h
  obtain ⟨rx, ry, rs, ra, rf⟩ := phaseReset_known s
  obtain ⟨ux, uy, us, ua, uf⟩ := phaseReset_userSet s
  refine ⟨fun v hv => ?_, fun v hv => ?_, fun hv => ?_, fun hv => ?_, fun hv => ?_⟩
  · rw [ux] at hv
    rw [rx]
    simp [hv, hx v hv]
  · rw [uy] at hv
    rw [ry]
    simp [hv, hy v hv]
  · rw [us] at hv
    rw [rs]
    simp [hv, hs hv]
  · rw [ua] at hv
    rw [ra]
    simp [hv, ha hv]
  · rw [uf] at hv
    rw [rf]
    simp [hv, hf hv]

theorem phaseSeedVel_userSet (cs sn : ℚ → ℚ) (s : PState) :
    (phaseSeedVel cs sn s).x.userSet = s.x.userSet ∧
    (phaseSeedVel cs sn s).y.userSet = s.y.userSet ∧
    (phaseSeedVel cs sn s).speedUserSet = s.speedUserSet ∧
    (phaseSeedVel cs sn s).angleUserSet = s.angleUserSet ∧
    (phaseSeedVel cs sn s).finalSpeedUserSet = s.finalSpeedUserSet := by
  simp only [phaseSeedVel]
  split_ifs with h
  · exact ⟨setD_userSet s.x .v0 _, setD_userSet s.y .v0 _, rfl, rfl, rfl⟩
  · exact ⟨rfl, rfl, rfl, rfl, rfl⟩

theorem phaseSeedVel_scalars (cs sn : ℚ → ℚ) (s : PState) :
    (phaseSeedVel cs sn s).launchSpeed = s.launchSpeed ∧
    (phaseSeedVel cs sn s).launchAngle = s.launchAngle ∧
    (phaseSeedVel cs sn s).finalSpeed = s.finalSpeed ∧
    (phaseSeedVel cs sn s).speedKnown = s.speedKnown ∧
    (phaseSeedVel cs sn s).angleKnown = s.angleKnown ∧
    (phaseSeedVel cs sn s).finalSpeedKnown = s.finalSpeedKnown := by
  simp only [phaseSeedVel]
  split_ifs with h <;> exact ⟨rfl, rfl, rfl, rfl, rfl, rfl⟩

theorem phaseSeedVel_known_mono (cs sn : ℚ → ℚ) (s : PState) (v : Var) :
    (s.x.known.get v = true → (phaseSeedVel cs sn s).x.known.get v = true) ∧
    (s.y.known.get v = true → (phaseSeedVel cs sn s).y.known.get v = true) := by
  simp only [phaseSeedVel]
  split_ifs with h
  · exact ⟨setD_known_mono s.x .v0 _ v, setD_known_mono s.y .v0 _ v⟩
  · exact ⟨fun h => h, fun h => h⟩

theorem phaseSeedVel_vals (cs sn : ℚ → ℚ) (s : PState) (v : Var)
    (hv0 : v = .v0 → ¬(s.speedUserSet = true ∧ s.angleUserSet = true)) :
    (phaseSeedVel cs sn s).x.vals.get v = s.x.vals.get v ∧
    (phaseSeedVel cs sn s).y.vals.get v = s.y.vals.get v := by
  simp only [phaseSeedVel]
  split_ifs with h
  · have hv : v ≠ .v0 := by
      intro hh
      exact hv0 hh (by simpa [Bool.and_eq_true] using h)
    rw [setD_vals_get, setD_vals_get, if_neg hv, if_neg hv]
    exact ⟨rfl, rfl⟩
  · exact ⟨rfl, rfl⟩

theorem phaseSeedVel_valid (cs sn : ℚ → ℚ) (s : PState) (h : Valid s) :
    Valid (phaseSeedVel cs sn s) := by
  obtain ⟨hx, hy, hs, ha, hf⟩ := h
  obtain ⟨ux, uy, us, ua, uf⟩ := phaseSeedVel_userSet cs sn s
  obtain ⟨_, _, _, ks, ka, kf⟩ := phaseSeedVel_scalars cs sn s
  refine ⟨fun v hv => ?_, fun v hv => ?_, fun hv => ?_, fun hv => ?_, fun hv => ?_⟩
  · rw [ux] at hv
    exact (phaseSeedVel_known_mono cs sn s v).1 (hx v hv)
  · rw [uy] at hv
    exact (phaseSeedVel_known_mono cs sn s v).2 (hy v hv)
  · rw [us] at hv
    rw [ks]
    exact hs hv
  · rw [ua] at hv
    rw [ka]
    exact ha hv
  · rw [uf] at hv
    rw [kf]
    exact hf hv

theorem seedFinalY_userSet (sq : ℚ → ℚ) (s : PState) :
    (seedFinalY sq s).x.userSet = s.x.userSet ∧
    (seedFinalY sq s).y.userSet = s.y.userSet ∧
    (seedFinalY sq s).speedUserSet = s.speedUserSet ∧
    (seedFinalY sq s).angleUserSet = s.angleUserSet ∧
    (seedFinalY sq s).finalSpeedUserSet = s.finalSpeedUserSet := by
  simp only [seedFinalY]
  split_ifs <;> simp [setD]

theorem seedFinalY_scalars (sq : ℚ → ℚ) (s : PState) :
    (seedFinalY sq s).launchSpeed = s.launchSpeed ∧
    (seedFinalY sq s).launchAngle = s.launchAngle ∧
    (seedFinalY sq s).finalSpeed = s.finalSpeed ∧
    (seedFinalY sq s).speedKnown = s.speedKnown ∧
    (seedFinalY sq s).angleKnown = s.angleKnown ∧
    (seedFinalY sq s).finalSpeedKnown = s.finalSpeedKnown := by
  simp only [seedFinalY]
  split_ifs <;> simp

theorem seedFinalY_known_mono (sq : ℚ → ℚ) (s : PState) (v : Var) :
    (s.x.known.get v = true → (seedFinalY sq s).x.known.get v = true) ∧
    (s.y.known.get v = true → (seedFinalY sq s).y.known.get v = true) := by
  simp only [seedFinalY]
  split_ifs
  · exact ⟨fun h => h, fun h => setD_known_mono s.y .vf _ v h⟩
  · exact ⟨fun h => h, fun h => h⟩
  · exact ⟨fun h => h, fun h => h⟩

theorem seedFinalY_vals (sq : ℚ → ℚ) (s : PState) (v : Var)
    (hv : v = .vf → s.y.userSet.get .vf = true) :
    (seedFinalY sq s).x.vals.get v = s.x.vals.get v ∧
    (seedFinalY sq s).y.vals.get v = s.y.vals.get v := by
  simp only [seedFinalY]
  split_ifs with h1 h2
  · have hne : v ≠ .vf := by
      intro he
      simp only [Bool.and_eq_true, Bool.not_eq_true'] at h1
      rw [hv he] at h1
      exact absurd h1.2 (by simp)
    rw [setD_vals_get, if_neg hne]
    exact ⟨rfl, rfl⟩
  · exact ⟨rfl, rfl⟩
  · exact ⟨rfl, rfl⟩

theorem seedFinalY_valid (sq : ℚ → ℚ) (s : PState) (h : Valid s) :
    Valid (seedFinalY sq s) := by
  obtain ⟨hx, hy, hs, ha, hf⟩ := h
  obtain ⟨ux, uy, us, ua, uf⟩ := seedFinalY_userSet sq s
  obtain ⟨_, _, _, ks, ka, kf⟩ := seedFinalY_scalars sq s
  refine ⟨fun v hv => ?_, fun v hv => ?_, fun hv => ?_, fun hv => ?_, fun hv => ?_⟩
  · rw [ux] at hv
    exact (seedFinalY_known_mono sq s v).1 (hx v hv)
  · rw [uy] at hv
    exact (seedFinalY_known_mono sq s v).2 (hy v hv)
  · rw [us] at hv; rw [ks]; exact hs hv
  · rw [ua] at hv; rw [ka]; exact ha hv
  · rw [uf] at hv; rw [kf]; exact hf hv

theorem seedFinalX_userSet (sq : ℚ → ℚ) (s : PState) :
    (seedFinalX sq s).x.userSet = s.x.userSet ∧
    (seedFinalX sq s).y.userSet = s.y.userSet ∧
    (seedFinalX sq s).speedUserSet = s.speedUserSet ∧
    (seedFinalX sq s).angleUserSet = s.angleUserSet ∧
    (seedFinalX sq s).finalSpeedUserSet = s.finalSpeedUserSet := by
  simp only [seedFinalX]
  split_ifs <;> simp [setD]

theorem seedFinalX_scalars (sq : ℚ → ℚ) (s : PState) :
    (seedFinalX sq s).launchSpeed = s.launchSpeed ∧
    (seedFinalX sq s).launchAngle = s.launchAngle ∧
    (seedFinalX sq s).finalSpeed = s.finalSpeed ∧
    (seedFinalX sq s).speedKnown = s.speedKnown ∧
    (seedFinalX sq s).angleKnown = s.angleKnown ∧
    (seedFinalX sq s).finalSpeedKnown = s.finalSpeedKnown := by
  simp only [seedFinalX]
  split_ifs <;> simp

theorem seedFinalX_known_mono (sq : ℚ → ℚ) (s : PState) (v : Var) :
    (s.x.known.get v = true → (seedFinalX sq s).x.known.get v = true) ∧
    (s.y.known.get v = true → (seedFinalX sq s).y.known.get v = true) := by
  simp only [seedFinalX]
  split_ifs
  · exact ⟨fun h => setD_known_mono s.x .vf _ v h, fun h => h⟩
  · exact ⟨fun h => h, fun h => h⟩
  · exact ⟨fun h => h, fun h => h⟩

theorem seedFinalX_vals (sq : ℚ → ℚ) (s : PState) (v : Var)
    (hv : v = .vf → s.x.userSet.get .vf = true) :
    (seedFinalX sq s).x.vals.get v = s.x.vals.get v ∧
    (seedFinalX sq s).y.vals.get v = s.y.vals.get v := by
  simp only [seedFinalX]
  split_ifs with h1 h2
  · have hne : v ≠ .vf := by
      intro he
      simp only [Bool.and_eq_true, Bool.not_eq_true'] at h1
      rw [hv he] at h1
      exact absurd h1.2 (by simp)
    rw [setD_vals_get, if_neg hne]
    exact ⟨rfl, rfl⟩
  · exact ⟨rfl, rfl⟩
  · exact ⟨rfl, rfl⟩

theorem seedFinalX_valid (sq : ℚ → ℚ) (s : PState) (h : Valid s) :
    Valid (seedFinalX sq s) := by
  obtain ⟨hx, hy, hs, ha, hf⟩ := h
  obtain ⟨ux, uy, us, ua, uf⟩ := seedFinalX_userSet sq s
  obtain ⟨_, _, _, ks, ka, kf⟩ := seedFinalX_scalars sq s
  refine ⟨fun v hv => ?_, fun v hv => ?_, fun hv => ?_, fun hv => ?_, fun hv => ?_⟩
  · rw [ux] at hv
    exact (seedFinalX_known_mono sq s v).1 (hx v hv)
  · rw [uy] at hv
    exact (seedFinalX_known_mono sq s v).2 (hy v hv)
  · rw [us] at hv; rw [ks]; exact hs hv
  · rw [ua] at hv; rw [ka]; exact ha hv
  · rw [uf] at hv; rw [kf]; exact hf hv

theorem phaseSeedTime_userSet (s : PState) :
    (phaseSeedTime s).x.userSet = s.x.userSet ∧
    (phaseSeedTime s).y.userSet = s.y.userSet ∧
    (phaseSeedTime s).speedUserSet = s.speedUserSet ∧
    (phaseSeedTime s).angleUserSet = s.angleUserSet ∧
    (phaseSeedTime s).finalSpeedUserSet = s.finalSpeedUserSet := by
  simp only [phaseSeedTime]
  split_ifs <;> simp [setD]

theorem phaseSeedTime_scalars (s : PState) :
    (phaseSeedTime s).launchSpeed = s.launchSpeed ∧
    (phaseSeedTime s).launchAngle = s.launchAngle ∧
    (phaseSeedTime s).finalSpeed = s.finalSpeed ∧
    (phaseSeedTime s).speedKnown = s.speedKnown ∧
    (phaseSeedTime s).angleKnown = s.angleKnown ∧
    (phaseSeedTime s).finalSpeedKnown = s.finalSpeedKnown := by
  simp only [phaseSeedTime]
  split_ifs <;> simp

theorem phaseSeedTime_known_mono (s : PState) (v : Var) :
    (s.x.known.get v = true → (phaseSeedTime s).x.known.get v = true) ∧
    (s.y.known.get v = true → (phaseSeedTime s).y.known.get v = true) := by
  simp only [phaseSeedTime]
  split_ifs
  · exact ⟨fun h => h, fun h => setD_known_mono s.y .t _ v h⟩
  · exact ⟨fun h => setD_known_mono s.x .t _ v h, fun h => h⟩
  · exact ⟨fun h => h, fun h => h⟩

theorem phaseSeedTime_vals (s : PState) (v : Var)
    (hvx : v = .t → s.x.userSet.get .t = true)
    (hvy : v = .t → s.y.userSet.get .t = true) :
    (phaseSeedTime s).x.vals.get v = s.x.vals.get v ∧
    (phaseSeedTime s).y.vals.get v = s.y.vals.get v := by
  simp only [phaseSeedTime]
  split_ifs with h1 h2
  · have hne : v ≠ .t := by
      intro he
      simp only [Bool.and_eq_true, Bool.not_eq_true'] at h1
      rw [hvy he] at h1
      exact absurd h1.2 (by simp)
    rw [setD_vals_get, if_neg hne]
    exact ⟨rfl, rfl⟩
  · have hne : v ≠ .t := by
      intro he
      simp only [Bool.and_eq_true, Bool.not_eq_true'] at h2
      rw [hvx he] at h2
      exact absurd h2.2 (by simp)
    rw [setD_vals_get, if_neg hne]
    exact ⟨rfl, rfl⟩
  · exact ⟨rfl, rfl⟩

theorem phaseSeedTime_valid (s : PState) (h : Valid s) :
    Valid (phaseSeedTime s) := by
  obtain ⟨hx, hy, hs, ha, hf⟩ := h
  obtain ⟨ux, uy, us, ua, uf⟩ := phaseSeedTime_userSet s
  obtain ⟨_, _, _, ks, ka, kf⟩ := phaseSeedTime_scalars s
  refine ⟨fun v hv => ?_, fun v hv => ?_, fun hv => ?_, fun hv => ?_, fun hv => ?_⟩
  · rw [ux] at hv
    exact (phaseSeedTime_known_mono s v).1 (hx v hv)
  · rw [uy] at hv
    exact (phaseSeedTime_known_mono s v).2 (hy v hv)
  · rw [us] at hv; rw [ks]; exact hs hv
  · rw [ua] at hv; rw [ka]; exact ha hv
  · rw [uf] at hv; rw [kf]; exact hf hv

theorem copyXtoY_userSet (s : PState) :
    (copyXtoY s).x.userSet = s.x.userSet ∧
    (copyXtoY s).y.userSet = s.y.userSet ∧
    (copyXtoY s).speedUserSet = s.speedUserSet ∧
    (copyXtoY s).angleUserSet = s.angleUserSet ∧
    (copyXtoY s).finalSpeedUserSet = s.finalSpeedUserSet := by
  simp only [copyXtoY]
  split_ifs <;> simp [setD]

theorem copyXtoY_scalars (s : PState) :
    (copyXtoY s).launchSpeed = s.launchSpeed ∧
    (copyXtoY s).launchAngle = s.launchAngle ∧
    (copyXtoY s).finalSpeed = s.finalSpeed ∧
    (copyXtoY s).speedKnown = s.speedKnown ∧
    (copyXtoY s).angleKnown = s.angleKnown ∧
    (copyXtoY s).finalSpeedKnown = s.finalSpeedKnown := by
  simp only [copyXtoY]
  split_ifs <;> simp

theorem copyXtoY_known_mono (s : PState) (v : Var) :
    (s.x.known.get v = true → (copyXtoY s).x.known.get v = true) ∧
    (s.y.known.get v = true → (copyXtoY s).y.known.get v = true) := by
  simp only [copyXtoY]
  split_ifs
  · exact ⟨fun h => h, fun h => setD_known_mono s.y .t _ v h⟩
  · exact ⟨fun h => h, fun h => h⟩

theorem copyXtoY_vals (s : PState) (v : Var)
    (hv : v = .t → s.y.known.get .t = true) :
    (copyXtoY s).x.vals.get v = s.x.vals.get v ∧
    (copyXtoY s).y.vals.get v = s.y.vals.get v := by
  simp only [copyXtoY]
  split_ifs with h1
  · have hne : v ≠ .t := by
      intro he
      simp only [Bool.and_eq_true, Bool.not_eq_true'] at h1
      rw [hv he] at h1
      exact absurd h1.2 (by simp)
    rw [setD_vals_get, if_neg hne]
    exact ⟨rfl, rfl⟩
  · exact ⟨rfl, rfl⟩

theorem copyXtoY_valid (s : PState) (h : Valid s) : Valid (copyXtoY s) := by
  obtain ⟨hx, hy, hs, ha, hf⟩ := h
  obtain ⟨ux, uy, us, ua, uf⟩ := copyXtoY_userSet s
  obtain ⟨_, _, _, ks, ka, kf⟩ := copyXtoY_scalars s
  refine ⟨fun v hv => ?_, fun v hv => ?_, fun hv => ?_, fun hv => ?_, fun hv => ?_⟩
  · rw [ux] at hv
    exact (copyXtoY_known_mono s v).1 (hx v hv)
  · rw [uy] at hv
    exact (copyXtoY_known_mono s v).2 (hy v hv)
  · rw [us] at hv; rw [ks]; exact hs hv
  · rw [ua] at hv; rw [ka]; exact ha hv
  · rw [uf] at hv; rw [kf]; exact hf hv

theorem copyYtoX_userSet (s : PState) :
    (copyYtoX s).x.userSet = s.x.userSet ∧
    (copyYtoX s).y.userSet = s.y.userSet ∧
    (copyYtoX s).speedUserSet = s.speedUserSet ∧
    (copyYtoX s).angleUserSet = s.angleUserSet ∧
    (copyYtoX s).finalSpeedUserSet = s.finalSpeedUserSet := by
  simp only [copyYtoX]
  split_ifs <;> simp [setD]

theorem copyYtoX_scalars (s : PState) :
    (copyYtoX s).launchSpeed = s.launchSpeed ∧
    (copyYtoX s).launchAngle = s.launchAngle ∧
    (copyYtoX s).finalSpeed = s.finalSpeed ∧
    (copyYtoX s).speedKnown = s.speedKnown ∧
    (copyYtoX s).angleKnown = s.angleKnown ∧
    (copyYtoX s).finalSpeedKnown = s.finalSpeedKnown := by
  simp only [copyYtoX]
  split_ifs <;> simp

theorem copyYtoX_known_mono (s : PState) (v : Var) :
    (s.x.known.get v = true → (copyYtoX s).x.known.get v = true) ∧
    (s.y.known.get v = true → (copyYtoX s).y.known.get v = true) := by
  simp only [copyYtoX]
  split_ifs
  · exact ⟨fun h => setD_known_mono s.x .t _ v h, fun h => h⟩
  · exact ⟨fun h => h, fun h => h⟩

theorem copyYtoX_vals (s : PState) (v : Var)
    (hv : v = .t → s.x.known.get .t = true) :
    (copyYtoX s).x.vals.get v = s.x.vals.get v ∧
    (copyYtoX s).y.vals.get v = s.y.vals.get v := by
  simp only [copyYtoX]
  split_ifs with h1
  · have hne : v ≠ .t := by
      intro he
      simp only [Bool.and_eq_true, Bool.not_eq_true'] at h1
      rw [hv he] at h1
      exact absurd h1.2 (by simp)
    rw [setD_vals_get, if_neg hne]
    exact ⟨rfl, rfl⟩
  · exact ⟨rfl, rfl⟩

theorem copyYtoX_valid (s : PState) (h : Valid s) : Valid (copyYtoX s) := by
  obtain ⟨hx, hy, hs, ha, hf⟩ := h
  obtain ⟨ux, uy, us, ua, uf⟩ := copyYtoX_userSet s
  obtain ⟨_, _, _, ks, ka, kf⟩ := copyYtoX_scalars s
  refine ⟨fun v hv => ?_, fun v hv => ?_, fun hv => ?_, fun hv => ?_, fun hv => ?_⟩
  · rw [ux] at hv
    exact (copyYtoX_known_mono s v).1 (hx v hv)
  · rw [uy] at hv
    exact (copyYtoX_known_mono s v).2 (hy v hv)
  · rw [us] at hv; rw [ks]; exact hs hv
  · rw [ua] at hv; rw [ka]; exact ha hv
  · rw [uf] at hv; rw [kf]; exact hf hv

theorem trySolve_valid (sq : ℚ → ℚ) (ax : Axis) (h : AxisValid ax) :
    AxisValid (trySolve sq ax) := by
  intro v hv
  rw [trySolve_userSet] at hv
  exact trySolve_known_mono sq ax v (h v hv)

theorem passX_y (sq : ℚ → ℚ) (s : PState) : (passX sq s).y = s.y := by
  simp only [passX]

theorem passX_userSet (sq : ℚ → ℚ) (s : PState) :
    (passX sq s).x.userSet = s.x.userSet ∧
    (passX sq s).y.userSet = s.y.userSet ∧
    (passX sq s).speedUserSet = s.speedUserSet ∧
    (passX sq s).angleUserSet = s.angleUserSet ∧
    (passX sq s).finalSpeedUserSet = s.finalSpeedUserSet := by
  simp [passX, trySolve_userSet]

theorem passX_scalars (sq : ℚ → ℚ) (s : PState) :
    (passX sq s).launchSpeed = s.launchSpeed ∧
    (passX sq s).launchAngle = s.launchAngle ∧
    (passX sq s).finalSpeed = s.finalSpeed ∧
    (passX sq s).speedKnown = s.speedKnown ∧
    (passX sq s).angleKnown = s.angleKnown ∧
    (passX sq s).finalSpeedKnown = s.finalSpeedKnown := by
  simp [passX]

theorem passX_known_mono (sq : ℚ → ℚ) (s : PState) (v : Var)
    (h : s.x.known.get v = true) : (passX sq s).x.known.get v = true := by
  simp only [passX]
  exact trySolve_known_mono sq s.x v h

theorem passX_vals_known (sq : ℚ → ℚ) (s : PState) (v : Var)
    (h : s.x.known.get v = true) :
    (passX sq s).x.vals.get v = s.x.vals.get v := by
  simp only [passX]
  exact trySolve_vals_known sq s.x v h

theorem passX_valid (sq : ℚ → ℚ) (s : PState) (h : Valid s) :
    Valid (passX sq s) := by
  obtain ⟨hx, hy, hs, ha, hf⟩ := h
  simp only [passX, Valid]
  exact ⟨trySolve_valid sq s.x hx, hy, hs, ha, hf⟩

theorem passY_x (sq : ℚ → ℚ) (s : PState) : (passY sq s).x = s.x := by
  simp only [passY]

theorem passY_userSet (sq : ℚ → ℚ) (s : PState) :
    (passY sq s).x.userSet = s.x.userSet ∧
    (passY sq s).y.userSet = s.y.userSet ∧
    (passY sq s).speedUserSet = s.speedUserSet ∧
    (passY sq s).angleUserSet = s.angleUserSet ∧
    (passY sq s).finalSpeedUserSet = s.finalSpeedUserSet := by
  simp [passY, trySolve_userSet]

theorem passY_scalars (sq : ℚ → ℚ) (s : PState) :
    (passY sq s).launchSpeed = s.launchSpeed ∧
    (passY sq s).launchAngle = s.launchAngle ∧
    (passY sq s).finalSpeed = s.finalSpeed ∧
    (passY sq s).speedKnown = s.speedKnown ∧
    (passY sq s).angleKnown = s.angleKnown ∧
    (passY sq s).finalSpeedKnown = s.finalSpeedKnown := by
  simp [passY]

theorem passY_known_mono (sq : ℚ → ℚ) (s : PState) (v : Var)
    (h : s.y.known.get v = true) : (passY sq s).y.known.get v = true := by
  simp only [passY]
  exact trySolve_known_mono sq s.y v h

theorem passY_vals_known (sq : ℚ → ℚ) (s : PState) (v : Var)
    (h : s.y.known.get v = true) :
    (passY sq s).y.vals.get v = s.y.vals.get v := by
  simp only [passY]
  exact trySolve_vals_known sq s.y v h

theorem passY_valid (sq : ℚ → ℚ) (s : PState) (h : Valid s) :
    Valid (passY sq s) := by
  obtain ⟨hx, hy, hs, ha, hf⟩ := h
  simp only [passY, Valid]
  exact ⟨hx, trySolve_valid sq s.y hy, hs, ha, hf⟩

theorem backSpeed_axes (sq : ℚ → ℚ) (s : PState) :
    (backSpeed sq s).x = s.x ∧ (backSpeed sq s).y = s.y := by
  simp only [backSpeed]
  split_ifs <;> exact ⟨rfl, rfl⟩

theorem backSpeed_userSet (sq : ℚ → ℚ) (s : PState) :
    (backSpeed sq s).speedUserSet = s.speedUserSet ∧
    (backSpeed sq s).angleUserSet = s.angleUserSet ∧
    (backSpeed sq s).finalSpeedUserSet = s.finalSpeedUserSet := by
  simp only [backSpeed]
  split_ifs <;> exact ⟨rfl, rfl, rfl⟩

theorem backSpeed_others (sq : ℚ → ℚ) (s : PState) :
    (backSpeed sq s).launchAngle = s.launchAngle ∧
    (backSpeed sq s).angleKnown = s.angleKnown ∧
    (backSpeed sq s).finalSpeed = s.finalSpeed ∧
    (backSpeed sq s).finalSpeedKnown = s.finalSpeedKnown := by
  simp only [backSpeed]
  split_ifs <;> exact ⟨rfl, rfl, rfl, rfl⟩

theorem backSpeed_stable (sq : ℚ → ℚ) (s : PState) (h : s.speedKnown = true) :
    (backSpeed sq s).launchSpeed = s.launchSpeed ∧
    (backSpeed sq s).speedKnown = s.speedKnown := by
  simp only [backSpeed]
  split_ifs with h1
  · simp only [Bool.and_eq_true, Bool.not_eq_true'] at h1
    rw [h] at h1
    exact absurd h1.1.1 (by simp)
  · exact ⟨rfl, rfl⟩

theorem backSpeed_known_mono (sq : ℚ → ℚ) (s : PState)
    (h : s.speedKnown = true) : (backSpeed sq s).speedKnown = true := by
  rw [(backSpeed_stable sq s h).2]; exact h

theorem backSpeed_valid (sq : ℚ → ℚ) (s : PState) (h : Valid s) :
    Valid (backSpeed sq s) := by
  obtain ⟨hx, hy, hs, ha, hf⟩ := h
  obtain ⟨ax, ay⟩ := backSpeed_axes sq s
  obtain ⟨us, ua, uf⟩ := backSpeed_userSet sq s
  obtain ⟨_, ka, _, kf⟩ := backSpeed_others sq s
  refine ⟨by rw [ax]; exact hx, by rw [ay]; exact hy, fun hv => ?_,
    fun hv => ?_, fun hv => ?_⟩
  · rw [us] at hv; exact backSpeed_known_mono sq s (hs hv)
  · rw [ua] at hv; rw [ka]; exact ha hv
  · rw [uf] at hv; rw [kf]; exact hf hv

theorem backAngle_axes (a2 : ℚ → ℚ → ℚ) (s : PState) :
    (backAngle a2 s).x = s.x ∧ (backAngle a2 s).y = s.y := by
  simp only [backAngle]
  split_ifs <;> exact ⟨rfl, rfl⟩

theorem backAngle_userSet (a2 : ℚ → ℚ → ℚ) (s : PState) :
    (backAngle a2 s).speedUserSet = s.speedUserSet ∧
    (backAngle a2 s).angleUserSet = s.angleUserSet ∧
    (backAngle a2 s).finalSpeedUserSet = s.finalSpeedUserSet := by
  simp only [backAngle]
  split_ifs <;> exact ⟨rfl, rfl, rfl⟩

theorem backAngle_others (a2 : ℚ → ℚ → ℚ) (s : PState) :
    (backAngle a2 s).launchSpeed = s.launchSpeed ∧
    (backAngle a2 s).speedKnown = s.speedKnown ∧
    (backAngle a2 s).finalSpeed = s.finalSpeed ∧
    (backAngle a2 s).finalSpeedKnown = s.finalSpeedKnown := by
  simp only [backAngle]
  split_ifs <;> exact ⟨rfl, rfl, rfl, rfl⟩

theorem backAngle_stable (a2 : ℚ → ℚ → ℚ) (s : PState)
    (h : s.angleKnown = true) :
    (backAngle a2 s).launchAngle = s.launchAngle ∧
    (backAngle a2 s).angleKnown = s.angleKnown := by
  simp only [backAngle]
  split_ifs with h1
  · simp only [Bool.and_eq_true, Bool.not_eq_true'] at h1
    rw [h] at h1
    exact absurd h1.1.1 (by simp)
  · exact ⟨rfl, rfl⟩

theorem backAngle_known_mono (a2 : ℚ → ℚ → ℚ) (s : PState)
    (h : s.angleKnown = true) : (backAngle a2 s).angleKnown = true := by
  rw [(backAngle_stable a2 s h).2]; exact h

theorem backAngle_valid (a2 : ℚ → ℚ → ℚ) (s : PState) (h : Valid s) :
    Valid (backAngle a2 s) := by
  obtain ⟨hx, hy, hs, ha, hf⟩ := h
  obtain ⟨ax, ay⟩ := backAngle_axes a2 s
  obtain ⟨us, ua, uf⟩ := backAngle_userSet a2 s
  obtain ⟨_, ks, _, kf⟩ := backAngle_others a2 s
  refine ⟨by rw [ax]; exact hx, by rw [ay]; exact hy, fun hv => ?_,
    fun hv => ?_, fun hv => ?_⟩
  · rw [us] at hv; rw [ks]; exact hs hv
  · rw [ua] at hv; exact backAngle_known_mono a2 s (ha hv)
  · rw [uf] at hv; rw [kf]; exact hf hv

theorem backFinal_axes (sq : ℚ → ℚ) (s : PState) :
    (backFinal sq s).x = s.x ∧ (backFinal sq s).y = s.y := by
  simp only [backFinal]
  split_ifs <;> exact ⟨rfl, rfl⟩

theorem backFinal_userSet (sq : ℚ → ℚ) (s : PState) :
    (backFinal sq s).speedUserSet = s.speedUserSet ∧
    (backFinal sq s).angleUserSet = s.angleUserSet ∧
    (backFinal sq s).finalSpeedUserSet = s.finalSpeedUserSet := by
  simp only [backFinal]
  split_ifs <;> exact ⟨rfl, rfl, rfl⟩

theorem backFinal_others (sq : ℚ → ℚ) (s : PState) :
    (backFinal sq s).launchSpeed = s.launchSpeed ∧
    (backFinal sq s).speedKnown = s.speedKnown ∧
    (backFinal sq s).launchAngle = s.launchAngle ∧
    (backFinal sq s).angleKnown = s.angleKnown := by
  simp only [backFinal]
  split_ifs <;> exact ⟨rfl, rfl, rfl, rfl⟩

theorem backFinal_stable (sq : ℚ → ℚ) (s : PState)
    (h : s.finalSpeedKnown = true) :
    (backFinal sq s).finalSpeed = s.finalSpeed ∧
    (backFinal sq s).finalSpeedKnown = s.finalSpeedKnown := by
  simp only [backFinal]
  split_ifs with h1
  · simp only [Bool.and_eq_true, Bool.not_eq_true'] at h1
    rw [h] at h1
    exact absurd h1.1.1 (by simp)
  · exact ⟨rfl, rfl⟩

theorem backFinal_known_mono (sq : ℚ → ℚ) (s : PState)
    (h : s.finalSpeedKnown = true) : (backFinal sq s).finalSpeedKnown = true := by
  rw [(backFinal_stable sq s h).2]; exact h

theorem backFinal_valid (sq : ℚ → ℚ) (s : PState) (h : Valid s) :
    Valid (backFinal sq s) := by
  obtain ⟨hx, hy, hs, ha, hf⟩ := h
  obtain ⟨ax, ay⟩ := backFinal_axes sq s
  obtain ⟨us, ua, uf⟩ := backFinal_userSet sq s
  obtain ⟨_, ks, _, ka⟩ := backFinal_others sq s
  refine ⟨by rw [ax]; exact hx, by rw [ay]; exact hy, fun hv => ?_,
    fun hv => ?_, fun hv => ?_⟩
  · rw [us] at hv; rw [ks]; exact hs hv
  · rw [ua] at hv; rw [ka]; exact ha hv
  · rw [uf] at hv; exact backFinal_known_mono sq s (hf hv)

theorem seedFinalY_x (sq : ℚ → ℚ) (s : PState) : (seedFinalY sq s).x = s.x := by
  simp only [seedFinalY]
  split_ifs <;> rfl

theorem seedFinalX_y (sq : ℚ → ℚ) (s : PState) : (seedFinalX sq s).y = s.y := by
  simp only [seedFinalX]
  split_ifs <;> rfl

theorem copyXtoY_x (s : PState) : (copyXtoY s).x = s.x := by
  simp only [copyXtoY]
  split_ifs <;> rfl

theorem copyYtoX_y (s : PState) : (copyYtoX s).y = s.y := by
  simp only [copyYtoX]
  split_ifs <;> rfl

theorem phaseSeedTime_vals_x (s : PState) (v : Var)
    (hvx : v = .t → s.x.userSet.get .t = true) :
    (phaseSeedTime s).x.vals.get v = s.x.vals.get v := by
  simp only [phaseSeedTime]
  split_ifs with h1 h2
  · rfl
  · have hne : v ≠ .t := by
      intro he
      simp only [Bool.and_eq_true, Bool.not_eq_true'] at h2
      rw [hvx he] at h2
      exact absurd h2.2 (by simp)
    rw [setD_vals_get, if_neg hne]
  · rfl

theorem phaseSeedTime_vals_y (s : PState) (v : Var)
    (hvy : v = .t → s.y.userSet.get .t = true) :
    (phaseSeedTime s).y.vals.get v = s.y.vals.get v := by
  simp only [phaseSeedTime]
  split_ifs with h1 h2
  · have hne : v ≠ .t := by
      intro he
      simp only [Bool.and_eq_true, Bool.not_eq_true'] at h1
      rw [hvy he] at h1
      exact absurd h1.2 (by simp)
    rw [setD_vals_get, if_neg hne]
  · rfl
  · rfl

theorem phaseSeedTime_fire_x (s : PState)
    (hx : s.x.userSet.get .t = true) (hy : s.y.userSet.get .t = false) :
    (phaseSeedTime s).x = s.x ∧
    (phaseSeedTime s).y.vals.get .t = s.x.vals.get .t ∧
    (phaseSeedTime s).y.known.get .t = true := by
  simp only [phaseSeedTime]
  rw [if_pos (by rw [hx, hy]; rfl)]
  refine ⟨rfl, ?_, ?_⟩
  · rw [setD_vals_get, if_pos rfl]
  · rw [setD_known_get, if_pos rfl]

theorem phaseSeedTime_fire_y (s : PState)
    (hy : s.y.userSet.get .t = true) (hx : s.x.userSet.get .t = false) :
    (phaseSeedTime s).y = s.y ∧
    (phaseSeedTime s).x.vals.get .t = s.y.vals.get .t ∧
    (phaseSeedTime s).x.known.get .t = true := by
  simp only [phaseSeedTime]
  rw [if_neg (by rw [hx]; simp), if_pos (by rw [hx, hy]; rfl)]
  refine ⟨rfl, ?_, ?_⟩
  · rw [setD_vals_get, if_pos rfl]
  · rw [setD_known_get, if_pos rfl]

theorem phasePass_userSet (sq : ℚ → ℚ) (s : PState) :
    (phasePass sq s).x.userSet = s.x.userSet ∧
    (phasePass sq s).y.userSet = s.y.userSet ∧
    (phasePass sq s).speedUserSet = s.speedUserSet ∧
    (phasePass sq s).angleUserSet = s.angleUserSet ∧
    (phasePass sq s).finalSpeedUserSet = s.finalSpeedUserSet := by
  obtain ⟨a1, b1, c1, d1, e1⟩ := passX_userSet sq s
  obtain ⟨a2, b2, c2, d2, e2⟩ := copyXtoY_userSet (passX sq s)
  obtain ⟨a3, b3, c3, d3, e3⟩ := passY_userSet sq (copyXtoY (passX sq s))
  obtain ⟨a4, b4, c4, d4, e4⟩ := copyYtoX_userSet (passY sq (copyXtoY (passX sq s)))
  simp only [phasePass]
  exact ⟨by rw [a4, a3, a2, a1], by rw [b4, b3, b2, b1], by rw [c4, c3, c2, c1],
    by rw [d4, d3, d2, d1], by rw [e4, e3, e2, e1]⟩

theorem phasePass_scalars (sq : ℚ → ℚ) (s : PState) :
    (phasePass sq s).launchSpeed = s.launchSpeed ∧
    (phasePass sq s).launchAngle = s.launchAngle ∧
    (phasePass sq s).finalSpeed = s.finalSpeed ∧
    (phasePass sq s).speedKnown = s.speedKnown ∧
    (phasePass sq s).angleKnown = s.angleKnown ∧
    (phasePass sq s).finalSpeedKnown = s.finalSpeedKnown := by
  obtain ⟨a1, b1, c1, d1, e1, f1⟩ := passX_scalars sq s
  obtain ⟨a2, b2, c2, d2, e2, f2⟩ := copyXtoY_scalars (passX sq s)
  obtain ⟨a3, b3, c3, d3, e3, f3⟩ := passY_scalars sq (copyXtoY (passX sq s))
  obtain ⟨a4, b4, c4, d4, e4, f4⟩ := copyYtoX_scalars (passY sq (copyXtoY (passX sq s)))
  simp only [phasePass]
  exact ⟨by rw [a4, a3, a2, a1], by rw [b4, b3, b2, b1], by rw [c4, c3, c2, c1],
    by rw [d4, d3, d2, d1], by rw [e4, e3, e2, e1], by rw [f4, f3, f2, f1]⟩

theorem phasePass_valid (sq : ℚ → ℚ) (s : PState) (h : Valid s) :
    Valid (phasePass sq s) := by
  simp only [phasePass]
  exact copyYtoX_valid _ (passY_valid sq _ (copyXtoY_valid _ (passX_valid sq s h)))

theorem phasePass_stable_x (sq : ℚ → ℚ) (s : PState) (v : Var)
    (h : s.x.known.get v = true) :
    (phasePass sq s).x.known.get v = true ∧
    (phasePass sq s).x.vals.get v = s.x.vals.get v := by
  have k1 : (passX sq s).x.known.get v = true := passX_known_mono sq s v h
  have v1 : (passX sq s).x.vals.get v = s.x.vals.get v := passX_vals_known sq s v h
  have e2 : (copyXtoY (passX sq s)).x = (passX sq s).x := copyXtoY_x _
  have e3 : (passY sq (copyXtoY (passX sq s))).x = (copyXtoY (passX sq s)).x :=
    passY_x sq _
  have k3 : (passY sq (copyXtoY (passX sq s))).x.known.get v = true := by
    rw [e3, e2]; exact k1
  have kt : v = .t → (passY sq (copyXtoY (passX sq s))).x.known.get .t = true :=
    fun he => he ▸ k3
  simp only [phasePass]
  constructor
  · exact (copyYtoX_known_mono _ v).1 k3
  · rw [(copyYtoX_vals _ v kt).1, e3, e2, v1]

theorem phasePass_stable_y (sq : ℚ → ℚ) (s : PState) (v : Var)
    (h : s.y.known.get v = true) :
    (phasePass sq s).y.known.get v = true ∧
    (phasePass sq s).y.vals.get v = s.y.vals.get v := by
  have e1 : (passX sq s).y = s.y := passX_y sq s
  have k1 : (passX sq s).y.known.get v = true := by rw [e1]; exact h
  have kt1 : v = .t → (passX sq s).y.known.get .t = true := fun he => he ▸ k1
  have k2 : (copyXtoY (passX sq s)).y.known.get v = true :=
    (copyXtoY_known_mono _ v).2 k1
  have v2 : (copyXtoY (passX sq s)).y.vals.get v = s.y.vals.get v := by
    rw [(copyXtoY_vals _ v kt1).2, e1]
  have k3 : (passY sq (copyXtoY (passX sq s))).y.known.get v = true :=
    passY_known_mono sq _ v k2
  have v3 : (passY sq (copyXtoY (passX sq s))).y.vals.get v = s.y.vals.get v := by
    rw [passY_vals_known sq _ v k2, v2]
  have e4 : (copyYtoX (passY sq (copyXtoY (passX sq s)))).y =
      (passY sq (copyXtoY (passX sq s))).y := copyYtoX_y _
  simp only [phasePass]
  rw [e4]
  exact ⟨k3, v3⟩

theorem phasePass_iterate3 (sq : ℚ → ℚ) (s : PState) :
    (phasePass sq)^[3] s = phasePass sq (phasePass sq (phasePass sq s)) := rfl

theorem phaseBack_axes (sq : ℚ → ℚ) (a2 : ℚ → ℚ → ℚ) (s : PState) :
    (phaseBack sq a2 s).x = s.x ∧ (phaseBack sq a2 s).y = s.y := by
  simp only [phaseBack]
  obtain ⟨a1, b1⟩ := backSpeed_axes sq s
  obtain ⟨a2', b2⟩ := backAngle_axes a2 (backSpeed sq s)
  obtain ⟨a3, b3⟩ := backFinal_axes sq (backAngle a2 (backSpeed sq s))
  exact ⟨by rw [a3, a2', a1], by rw [b3, b2, b1]⟩

theorem phaseBack_userSet (sq : ℚ → ℚ) (a2 : ℚ → ℚ → ℚ) (s : PState) :
    (phaseBack sq a2 s).speedUserSet = s.speedUserSet ∧
    (phaseBack sq a2 s).angleUserSet = s.angleUserSet ∧
    (phaseBack sq a2 s).finalSpeedUserSet = s.finalSpeedUserSet := by
  simp only [phaseBack]
  obtain ⟨a1, b1, c1⟩ := backSpeed_userSet sq s
  obtain ⟨a2', b2, c2⟩ := backAngle_userSet a2 (backSpeed sq s)
  obtain ⟨a3, b3, c3⟩ := backFinal_userSet sq (backAngle a2 (backSpeed sq s))
  exact ⟨by rw [a3, a2', a1], by rw [b3, b2, b1], by rw [c3, c2, c1]⟩

theorem phaseBack_valid (sq : ℚ → ℚ) (a2 : ℚ → ℚ → ℚ) (s : PState)
    (h : Valid s) : Valid (phaseBack sq a2 s) := by
  simp only [phaseBack]
  exact backFinal_valid sq _ (backAngle_valid a2 _ (backSpeed_valid sq s h))

theorem phaseBack_speed_stable (sq : ℚ → ℚ) (a2 : ℚ → ℚ → ℚ) (s : PState)
    (h : s.speedKnown = true) :
    (phaseBack sq a2 s).launchSpeed = s.launchSpeed ∧
    (phaseBack sq a2 s).speedKnown = s.speedKnown := by
  simp only [phaseBack]
  obtain ⟨v1, k1⟩ := backSpeed_stable sq s h
  obtain ⟨v2, k2, _, _⟩ := backAngle_others a2 (backSpeed sq s)
  obtain ⟨v3, k3, _, _⟩ := backFinal_others sq (backAngle a2 (backSpeed sq s))
  exact ⟨by rw [v3, v2, v1], by rw [k3, k2, k1]⟩

theorem phaseBack_angle_stable (sq : ℚ → ℚ) (a2 : ℚ → ℚ → ℚ) (s : PState)
    (h : s.angleKnown = true) :
    (phaseBack sq a2 s).launchAngle = s.launchAngle ∧
    (phaseBack sq a2 s).angleKnown = s.angleKnown := by
  simp only [phaseBack]
  obtain ⟨v1, k1, _, _⟩ := backSpeed_others sq s
  have h1 : (backSpeed sq s).angleKnown = true := by rw [k1]; exact h
  obtain ⟨v2, k2⟩ := backAngle_stable a2 (backSpeed sq s) h1
  obtain ⟨_, _, v3, k3⟩ := backFinal_others sq (backAngle a2 (backSpeed sq s))
  exact ⟨by rw [v3, v2, v1], by rw [k3, k2, k1]⟩

theorem phaseBack_final_stable (sq : ℚ → ℚ) (a2 : ℚ → ℚ → ℚ) (s : PState)
    (h : s.finalSpeedKnown = true) :
    (phaseBack sq a2 s).finalSpeed = s.finalSpeed ∧
    (phaseBack sq a2 s).finalSpeedKnown = s.finalSpeedKnown := by
  simp only [phaseBack]
  obtain ⟨_, _, v1, k1⟩ := backSpeed_others sq s
  obtain ⟨_, _, v2, k2⟩ := backAngle_others a2 (backSpeed sq s)
  have h2 : (backAngle a2 (backSpeed sq s)).finalSpeedKnown = true := by
    rw [k2, k1]; exact h
  obtain ⟨v3, k3⟩ := backFinal_stable sq (backAngle a2 (backSpeed sq s)) h2
  exact ⟨by rw [v3, v2, v1], by rw [k3, k2, k1]⟩


theorem autoSolve_userSet (sq cs sn : ℚ → ℚ) (a2 : ℚ → ℚ → ℚ) (s : PState) :
    (autoSolve sq cs sn a2 s).x.userSet = s.x.userSet ∧
    (autoSolve sq cs sn a2 s).y.userSet = s.y.userSet ∧
    (autoSolve sq cs sn a2 s).speedUserSet = s.speedUserSet ∧
    (autoSolve sq cs sn a2 s).angleUserSet = s.angleUserSet ∧
    (autoSolve sq cs sn a2 s).finalSpeedUserSet = s.finalSpeedUserSet := by
  rw [autoSolve_pipeline]
  simp only [phaseSeedFinal]
  obtain ⟨a1, b1, c1, d1, e1⟩ := phaseReset_userSet s
  obtain ⟨a2', b2, c2, d2, e2⟩ := phaseSeedVel_userSet cs sn (phaseReset s)
  obtain ⟨a3, b3, c3, d3, e3⟩ := seedFinalY_userSet sq (phaseSeedVel cs sn (phaseReset s))
  obtain ⟨a4, b4, c4, d4, e4⟩ := seedFinalX_userSet sq (seedFinalY sq (phaseSeedVel cs sn (phaseReset s)))
  obtain ⟨a5, b5, c5, d5, e5⟩ := phaseSeedTime_userSet (seedFinalX sq (seedFinalY sq (phaseSeedVel cs sn (phaseReset s))))
  obtain ⟨a6, b6, c6, d6, e6⟩ := phasePass_userSet sq (phaseSeedTime (seedFinalX sq (seedFinalY sq (phaseSeedVel cs sn (phaseReset s)))))
  obtain ⟨a7, b7, c7, d7, e7⟩ := phasePass_userSet sq (phasePass sq (phaseSeedTime (seedFinalX sq (seedFinalY sq (phaseSeedVel cs sn (phaseReset s))))))
  obtain ⟨a8, b8, c8, d8, e8⟩ := phasePass_userSet sq (phasePass sq (phasePass sq (phaseSeedTime (seedFinalX sq (seedFinalY sq (phaseSeedVel cs sn (phaseReset s)))))))
  obtain ⟨ax9, ay9⟩ := phaseBack_axes sq a2 (phasePass sq (phasePass sq (phasePass sq (phaseSeedTime (seedFinalX sq (seedFinalY sq (phaseSeedVel cs sn (phaseReset s))))))))
  obtain ⟨c9, d9, e9⟩ := phaseBack_userSet sq a2 (phasePass sq (phasePass sq (phasePass sq (phaseSeedTime (seedFinalX sq (seedFinalY sq (phaseSeedVel cs sn (phaseReset s))))))))
  refine ⟨?_, ?_, ?_, ?_, ?_⟩
  · rw [ax9, a8, a7, a6, a5, a4, a3, a2', a1]
  · rw [ay9, b8, b7, b6, b5, b4, b3, b2, b1]
  · rw [c9, c8, c7, c6, c5, c4, c3, c2, c1]
  · rw [d9, d8, d7, d6, d5, d4, d3, d2, d1]
  · rw [e9, e8, e7, e6, e5, e4, e3, e2, e1]

theorem autoSolve_valid (sq cs sn : ℚ → ℚ) (a2 : ℚ → ℚ → ℚ) (s : PState)
    (h : Valid s) : Valid (autoSolve sq cs sn a2 s) := by
  rw [autoSolve_pipeline]
  simp only [phaseSeedFinal]
  exact phaseBack_valid sq a2 _ (phasePass_valid sq _ (phasePass_valid sq _
    (phasePass_valid sq _ (phaseSeedTime_valid _ (seedFinalX_valid sq _
      (seedFinalY_valid sq _ (phaseSeedVel_valid cs sn _
        (phaseReset_valid s h))))))))

theorem autoSolve_scalar_stable (sq cs sn : ℚ → ℚ) (a2 : ℚ → ℚ → ℚ)
    (s : PState) (h : Valid s) :
    (s.speedUserSet = true →
      (autoSolve sq cs sn a2 s).launchSpeed = s.launchSpeed ∧
      (autoSolve sq cs sn a2 s).speedKnown = true) ∧
    (s.angleUserSet = true →
      (autoSolve sq cs sn a2 s).launchAngle = s.launchAngle ∧
      (autoSolve sq cs sn a2 s).angleKnown = true) ∧
    (s.finalSpeedUserSet = true →
      (autoSolve sq cs sn a2 s).finalSpeed = s.finalSpeed ∧
      (autoSolve sq cs sn a2 s).finalSpeedKnown = true) := by
  rw [autoSolve_pipeline]
  simp only [phaseSeedFinal]
  refine ⟨?_, ?_, ?_⟩
  · intro hu
    have v1 : (phaseReset s).launchSpeed = s.launchSpeed := (phaseReset_vals s).2.2.1
    have k1 : (phaseReset s).speedKnown = true := by
      rw [(phaseReset_known s).2.2.1, hu, h.2.2.1 hu]; rfl
    obtain ⟨v2, _, _, k2, _, _⟩ := phaseSeedVel_scalars cs sn (phaseReset s)
    obtain ⟨v3, _, _, k3, _, _⟩ := seedFinalY_scalars sq (phaseSeedVel cs sn (phaseReset s))
    obtain ⟨v4, _, _, k4, _, _⟩ := seedFinalX_scalars sq (seedFinalY sq (phaseSeedVel cs sn (phaseReset s)))
    obtain ⟨v5, _, _, k5, _, _⟩ := phaseSeedTime_scalars (seedFinalX sq (seedFinalY sq (phaseSeedVel cs sn (phaseReset s))))
    obtain ⟨v6, _, _, k6, _, _⟩ := phasePass_scalars sq (phaseSeedTime (seedFinalX sq (seedFinalY sq (phaseSeedVel cs sn (phaseReset s)))))
    obtain ⟨v7, _, _, k7, _, _⟩ := phasePass_scalars sq (phasePass sq (phaseSeedTime (seedFinalX sq (seedFinalY sq (phaseSeedVel cs sn (phaseReset s))))))
    obtain ⟨v8, _, _, k8, _, _⟩ := phasePass_scalars sq (phasePass sq (phasePass sq (phaseSeedTime (seedFinalX sq (seedFinalY sq (phaseSeedVel cs sn (phaseReset s)))))))
    have k8 : (phasePass sq (phasePass sq (phasePass sq (phaseSeedTime (seedFinalX sq (seedFinalY sq (phaseSeedVel cs sn (phaseReset s)))))))).speedKnown = true := by
      rw [k8, k7, k6, k5, k4, k3, k2]; exact k1
    obtain ⟨v9, k9⟩ := phaseBack_speed_stable sq a2 (phasePass sq (phasePass sq (phasePass sq (phaseSeedTime (seedFinalX sq (seedFinalY sq (phaseSeedVel cs sn (phaseReset s)))))))) k8
    constructor
    · rw [v9, v8, v7, v6, v5, v4, v3, v2, v1]
    · rw [k9]; exact k8
  · intro hu
    have v1 : (phaseReset s).launchAngle = s.launchAngle := (phaseReset_vals s).2.2.2.1
    have k1 : (phaseReset s).angleKnown = true := by
      rw [(phaseReset_known s).2.2.2.1, hu, h.2.2.2.1 hu]; rfl
    obtain ⟨_, v2, _, _, k2, _⟩ := phaseSeedVel_scalars cs sn (phaseReset s)
    obtain ⟨_, v3, _, _, k3, _⟩ := seedFinalY_scalars sq (phaseSeedVel cs sn (phaseReset s))
    obtain ⟨_, v4, _, _, k4, _⟩ := seedFinalX_scalars sq (seedFinalY sq (phaseSeedVel cs sn (phaseReset s)))
    obtain ⟨_, v5, _, _, k5, _⟩ := phaseSeedTime_scalars (seedFinalX sq (seedFinalY sq (phaseSeedVel cs sn (phaseReset s))))
    obtain ⟨_, v6, _, _, k6, _⟩ := phasePass_scalars sq (phaseSeedTime (seedFinalX sq (seedFinalY sq (phaseSeedVel cs sn (phaseReset s)))))
    obtain ⟨_, v7, _, _, k7, _⟩ := phasePass_scalars sq (phasePass sq (phaseSeedTime (seedFinalX sq (seedFinalY sq (phaseSeedVel cs sn (phaseReset s))))))
    obtain ⟨_, v8, _, _, k8, _⟩ := phasePass_scalars sq (phasePass sq (phasePass sq (phaseSeedTime (seedFinalX sq (seedFinalY sq (phaseSeedVel cs sn (phaseReset s)))))))
    have k8 : (phasePass sq (phasePass sq (phasePass sq (phaseSeedTime (seedFinalX sq (seedFinalY sq (phaseSeedVel cs sn (phaseReset s)))))))).angleKnown = true := by
      rw [k8, k7, k6, k5, k4, k3, k2]; exact k1
    obtain ⟨v9, k9⟩ := phaseBack_angle_stable sq a2 (phasePass sq (phasePass sq (phasePass sq (phaseSeedTime (seedFinalX sq (seedFinalY sq (phaseSeedVel cs sn (phaseReset s)))))))) k8
    constructor
    · rw [v9, v8, v7, v6, v5, v4, v3, v2, v1]
    · rw [k9]; exact k8
  · intro hu
    have v1 : (phaseReset s).finalSpeed = s.finalSpeed := (phaseReset_vals s).2.2.2.2
    have k1 : (phaseReset s).finalSpeedKnown = true := by
      rw [(phaseReset_known s).2.2.2.2, hu, h.2.2.2.2 hu]; rfl
    obtain ⟨_, _, v2, _, _, k2⟩ := phaseSeedVel_scalars cs sn (phaseReset s)
    obtain ⟨_, _, v3, _, _, k3⟩ := seedFinalY_scalars sq (phaseSeedVel cs sn (phaseReset s))
    obtain ⟨_, _, v4, _, _, k4⟩ := seedFinalX_scalars sq (seedFinalY sq (phaseSeedVel cs sn (phaseReset s)))
    obtain ⟨_, _, v5, _, _, k5⟩ := phaseSeedTime_scalars (seedFinalX sq (seedFinalY sq (phaseSeedVel cs sn (phaseReset s))))
    obtain ⟨_, _, v6, _, _, k6⟩ := phasePass_scalars sq (phaseSeedTime (seedFinalX sq (seedFinalY sq (phaseSeedVel cs sn (phaseReset s)))))
    obtain ⟨_, _, v7, _, _, k7⟩ := phasePass_scalars sq (phasePass sq (phaseSeedTime (seedFinalX sq (seedFinalY sq (phaseSeedVel cs sn (phaseReset s))))))
    obtain ⟨_, _, v8, _, _, k8⟩ := phasePass_scalars sq (phasePass sq (phasePass sq (phaseSeedTime (seedFinalX sq (seedFinalY sq (phaseSeedVel cs sn (phaseReset s)))))))
    have k8 : (phasePass sq (phasePass sq (phasePass sq (phaseSeedTime (seedFinalX sq (seedFinalY sq (phaseSeedVel cs sn (phaseReset s)))))))).finalSpeedKnown = true := by
      rw [k8, k7, k6, k5, k4, k3, k2]; exact k1
    obtain ⟨v9, k9⟩ := phaseBack_final_stable sq a2 (phasePass sq (phasePass sq (phasePass sq (phaseSeedTime (seedFinalX sq (seedFinalY sq (phaseSeedVel cs sn (phaseReset s)))))))) k8
    constructor
    · rw [v9, v8, v7, v6, v5, v4, v3, v2, v1]
    · rw [k9]; exact k8


theorem autoSolve_vals_userSet (sq cs sn : ℚ → ℚ) (a2 : ℚ → ℚ → ℚ)
    (s : PState) (h : Valid s) (v : Var)
    (hv0 : v = .v0 → ¬(s.speedUserSet = true ∧ s.angleUserSet = true)) :
    (s.x.userSet.get v = true →
      (autoSolve sq cs sn a2 s).x.vals.get v = s.x.vals.get v) ∧
    (s.y.userSet.get v = true →
      (autoSolve sq cs sn a2 s).y.vals.get v = s.y.vals.get v) := by
  rw [autoSolve_pipeline]
  simp only [phaseSeedFinal]
  constructor
  · intro hu
    have hv1 : Valid (phaseReset s) := phaseReset_valid s h
    have hv2 : Valid (phaseSeedVel cs sn (phaseReset s)) := phaseSeedVel_valid cs sn (phaseReset s) hv1
    have hv3 : Valid (seedFinalY sq (phaseSeedVel cs sn (phaseReset s))) := seedFinalY_valid sq (phaseSeedVel cs sn (phaseReset s)) hv2
    have hv4 : Valid (seedFinalX sq (seedFinalY sq (phaseSeedVel cs sn (phaseReset s)))) := seedFinalX_valid sq (seedFinalY sq (phaseSeedVel cs sn (phaseReset s))) hv3
    have hv5 : Valid (phaseSeedTime (seedFinalX sq (seedFinalY sq (phaseSeedVel cs sn (phaseReset s))))) := phaseSeedTime_valid (seedFinalX sq (seedFinalY sq (phaseSeedVel cs sn (phaseReset s)))) hv4
    have e1 : (phaseReset s).x.vals = s.x.vals := (phaseReset_vals s).1
    have e2 : (phaseSeedVel cs sn (phaseReset s)).x.vals.get v = (phaseReset s).x.vals.get v := by
      refine (phaseSeedVel_vals cs sn (phaseReset s) v ?_).1
      rw [(phaseReset_userSet s).2.2.1, (phaseReset_userSet s).2.2.2.1]
      exact hv0
    have e3 : (seedFinalY sq (phaseSeedVel cs sn (phaseReset s))).x = (phaseSeedVel cs sn (phaseReset s)).x := seedFinalY_x sq (phaseSeedVel cs sn (phaseReset s))
    have us3 : (seedFinalY sq (phaseSeedVel cs sn (phaseReset s))).x.userSet = s.x.userSet := by rw [e3, (phaseSeedVel_userSet cs sn (phaseReset s)).1, (phaseReset_userSet s).1]
    have e4 : (seedFinalX sq (seedFinalY sq (phaseSeedVel cs sn (phaseReset s)))).x.vals.get v = (seedFinalY sq (phaseSeedVel cs sn (phaseReset s))).x.vals.get v :=
      (seedFinalX_vals sq (seedFinalY sq (phaseSeedVel cs sn (phaseReset s))) v (fun he => by rw [us3]; exact he ▸ hu)).1
    have us4 : (seedFinalX sq (seedFinalY sq (phaseSeedVel cs sn (phaseReset s)))).x.userSet = s.x.userSet := by rw [(seedFinalX_userSet sq (seedFinalY sq (phaseSeedVel cs sn (phaseReset s)))).1, us3]
    have e5 : (phaseSeedTime (seedFinalX sq (seedFinalY sq (phaseSeedVel cs sn (phaseReset s))))).x.vals.get v = (seedFinalX sq (seedFinalY sq (phaseSeedVel cs sn (phaseReset s)))).x.vals.get v :=
      phaseSeedTime_vals_x (seedFinalX sq (seedFinalY sq (phaseSeedVel cs sn (phaseReset s)))) v (fun he => by rw [us4]; exact he ▸ hu)
    have hk5 : (phaseSeedTime (seedFinalX sq (seedFinalY sq (phaseSeedVel cs sn (phaseReset s))))).x.known.get v = true := by
      refine hv5.1 v ?_
      rw [(phaseSeedTime_userSet (seedFinalX sq (seedFinalY sq (phaseSeedVel cs sn (phaseReset s))))).1, us4]
      exact hu
    obtain ⟨k6, e6⟩ := phasePass_stable_x sq (phaseSeedTime (seedFinalX sq (seedFinalY sq (phaseSeedVel cs sn (phaseReset s))))) v hk5
    obtain ⟨k7, e7⟩ := phasePass_stable_x sq (phasePass sq (phaseSeedTime (seedFinalX sq (seedFinalY sq (phaseSeedVel cs sn (phaseReset s)))))) v k6
    obtain ⟨k8, e8⟩ := phasePass_stable_x sq (phasePass sq (phasePass sq (phaseSeedTime (seedFinalX sq (seedFinalY sq (phaseSeedVel cs sn (phaseReset s))))))) v k7
    have e9 := (phaseBack_axes sq a2 (phasePass sq (phasePass sq (phasePass sq (phaseSeedTime (seedFinalX sq (seedFinalY sq (phaseSeedVel cs sn (phaseReset s))))))))).1
    rw [e9, e8, e7, e6, e5, e4, e3, e2, e1]
  · intro hu
    have hv1 : Valid (phaseReset s) := phaseReset_valid s h
    have hv2 : Valid (phaseSeedVel cs sn (phaseReset s)) := phaseSeedVel_valid cs sn (phaseReset s) hv1
    have hv3 : Valid (seedFinalY sq (phaseSeedVel cs sn (phaseReset s))) := seedFinalY_valid sq (phaseSeedVel cs sn (phaseReset s)) hv2
    have hv4 : Valid (seedFinalX sq (seedFinalY sq (phaseSeedVel cs sn (phaseReset s)))) := seedFinalX_valid sq (seedFinalY sq (phaseSeedVel cs sn (phaseReset s))) hv3
    have hv5 : Valid (phaseSeedTime (seedFinalX sq (seedFinalY sq (phaseSeedVel cs sn (phaseReset s))))) := phaseSeedTime_valid (seedFinalX sq (seedFinalY sq (phaseSeedVel cs sn (phaseReset s)))) hv4
    have e1 : (phaseReset s).y.vals = s.y.vals := (phaseReset_vals s).2.1
    have e2 : (phaseSeedVel cs sn (phaseReset s)).y.vals.get v = (phaseReset s).y.vals.get v := by
      refine (phaseSeedVel_vals cs sn (phaseReset s) v ?_).2
      rw [(phaseReset_userSet s).2.2.1, (phaseReset_userSet s).2.2.2.1]
      exact hv0
    have e3 : (seedFinalY sq (phaseSeedVel cs sn (phaseReset s))).y.vals.get v = (phaseSeedVel cs sn (phaseReset s)).y.vals.get v :=
      (seedFinalY_vals sq (phaseSeedVel cs sn (phaseReset s)) v (fun he => by
        rw [(phaseSeedVel_userSet cs sn (phaseReset s)).2.1, (phaseReset_userSet s).2.1]
        exact he ▸ hu)).2
    have us3 : (seedFinalY sq (phaseSeedVel cs sn (phaseReset s))).y.userSet = s.y.userSet := by rw [(seedFinalY_userSet sq (phaseSeedVel cs sn (phaseReset s))).2.1, (phaseSeedVel_userSet cs sn (phaseReset s)).2.1, (phaseReset_userSet s).2.1]
    have e4 : (seedFinalX sq (seedFinalY sq (phaseSeedVel cs sn (phaseReset s)))).y = (seedFinalY sq (phaseSeedVel cs sn (phaseReset s))).y := seedFinalX_y sq (seedFinalY sq (phaseSeedVel cs sn (phaseReset s)))
    have us4 : (seedFinalX sq (seedFinalY sq (phaseSeedVel cs sn (phaseReset s)))).y.userSet = s.y.userSet := by rw [e4, us3]
    have e5 : (phaseSeedTime (seedFinalX sq (seedFinalY sq (phaseSeedVel cs sn (phaseReset s))))).y.vals.get v = (seedFinalX sq (seedFinalY sq (phaseSeedVel cs sn (phaseReset s)))).y.vals.get v :=
      phaseSeedTime_vals_y (seedFinalX sq (seedFinalY sq (phaseSeedVel cs sn (phaseReset s)))) v (fun he => by rw [us4]; exact he ▸ hu)
    have hk5 : (phaseSeedTime (seedFinalX sq (seedFinalY sq (phaseSeedVel cs sn (phaseReset s))))).y.known.get v = true := by
      refine hv5.2.1 v ?_
      rw [(phaseSeedTime_userSet (seedFinalX sq (seedFinalY sq (phaseSeedVel cs sn (phaseReset s))))).2.1, us4]
      exact hu
    obtain ⟨k6, e6⟩ := phasePass_stable_y sq (phaseSeedTime (seedFinalX sq (seedFinalY sq (phaseSeedVel cs sn (phaseReset s))))) v hk5
    obtain ⟨k7, e7⟩ := phasePass_stable_y sq (phasePass sq (phaseSeedTime (seedFinalX sq (seedFinalY sq (phaseSeedVel cs sn (phaseReset s)))))) v k6
    obtain ⟨k8, e8⟩ := phasePass_stable_y sq (phasePass sq (phasePass sq (phaseSeedTime (seedFinalX sq (seedFinalY sq (phaseSeedVel cs sn (phaseReset s))))))) v k7
    have e9 := (phaseBack_axes sq a2 (phasePass sq (phasePass sq (phasePass sq (phaseSeedTime (seedFinalX sq (seedFinalY sq (phaseSeedVel cs sn (phaseReset s))))))))).2
    rw [e9, e8, e7, e6, e5, e4, e3, e2, e1]


/-- C1 (amended): under the data-model invariant `userSet => known`, a
full solve leaves the value of every user-set variable unchanged on
both axes, EXCEPT the initial-velocity components when launch speed and
launch angle are both user-set: the velocity seeding (source lines
322-327) then overwrites `v0` unconditionally, user-set or not (see
`claim_C1_cex`). -/
theorem claim_C1 (sq cs sn : ℚ → ℚ) (a2 : ℚ → ℚ → ℚ) (s : PState)
    (v : Var) (h : Valid s)
    (hv0 : v = .v0 → ¬(s.speedUserSet = true ∧ s.angleUserSet = true)) :
    (s.x.userSet.get v = true →
      (autoSolve sq cs sn a2 s).x.vals.get v = s.x.vals.get v) ∧
    (s.y.userSet.get v = true →
      (autoSolve sq cs sn a2 s).y.vals.get v = s.y.vals.get v) :=
  autoSolve_vals_userSet sq cs sn a2 s h v hv0

theorem claim_C1_witness :
    Valid c9State ∧
    (Var.t = Var.v0 → ¬(c9State.speedUserSet = true ∧ c9State.angleUserSet = true)) ∧
    ((c9State.x.userSet.get .t = true →
      (autoSolve sqZ csZ snZ a2Z c9State).x.vals.get .t = c9State.x.vals.get .t) ∧
     (c9State.y.userSet.get .t = true →
      (autoSolve sqZ csZ snZ a2Z c9State).y.vals.get .t = c9State.y.vals.get .t)) :=
  ⟨by decide, by decide, claim_C1 sqZ csZ snZ a2Z c9State .t (by decide) (by decide)⟩

/-- C2: one full catalogue application (`trySolve` on one axis) computes
its values from the seven-variable tuple and known flags alone (the
user-set flags only gate the persistent known write-back); within a
round, a variable already known keeps its value and its known flag; and
known flags are never cleared, neither in the local loop flags nor in
the persistent known array. -/
theorem claim_C2 (sq : ℚ → ℚ) (ax ax' : Axis) (s : SState) (v : Var)
    (hvals : ax.vals = ax'.vals) (hknown : ax.known = ax'.known) :
    (trySolve sq ax).vals = (trySolve sq ax').vals ∧
    (s.known.get v = true → (runRound sq s).vals.get v = s.vals.get v) ∧
    (s.known.get v = true → (runRound sq s).known.get v = true) ∧
    (s.known.get v = true → (solveLoop sq s).known.get v = true) ∧
    (ax.known.get v = true → (trySolve sq ax).known.get v = true) := by
  refine ⟨?_, runRound_vals_known sq s v, runRound_known_mono sq s v,
    solveLoop_known_mono sq s v, trySolve_known_mono sq ax v⟩
  rw [trySolve_vals_def, trySolve_vals_def, hvals, hknown]

theorem claim_C2_witness :
    initData.x.vals = initData.x.vals ∧
    initData.x.known = initData.x.known ∧
    (⟨initData.x.vals, initData.x.known⟩ : SState).known.get .p0 = true ∧
    ((trySolve sqZ initData.x).vals = (trySolve sqZ initData.x).vals ∧
     ((⟨initData.x.vals, initData.x.known⟩ : SState).known.get .p0 = true →
       (runRound sqZ ⟨initData.x.vals, initData.x.known⟩).vals.get .p0 =
         (⟨initData.x.vals, initData.x.known⟩ : SState).vals.get .p0) ∧
     ((⟨initData.x.vals, initData.x.known⟩ : SState).known.get .p0 = true →
       (runRound sqZ ⟨initData.x.vals, initData.x.known⟩).known.get .p0 = true) ∧
     ((⟨initData.x.vals, initData.x.known⟩ : SState).known.get .p0 = true →
       (solveLoop sqZ ⟨initData.x.vals, initData.x.known⟩).known.get .p0 = true) ∧
     (initData.x.known.get .p0 = true →
       (trySolve sqZ initData.x).known.get .p0 = true)) :=
  ⟨rfl, rfl, by decide,
    claim_C2 sqZ initData.x initData.x ⟨initData.x.vals, initData.x.known⟩ .p0 rfl rfl⟩

/-- C7: under the data-model invariant, if exactly one axis has a
user-set time, then after a full solve the other axis's time is known
and numerically equal to the first axis's time (stated with the
claim's side conditions that the other axis's `v0` and `a` are known;
the copy itself, source lines 346-352, needs only the user-set split). -/
theorem claim_C7 (sq cs sn : ℚ → ℚ) (a2 : ℚ → ℚ → ℚ) (s : PState)
    (h : Valid s) :
    (s.x.userSet.get .t = true → s.y.userSet.get .t = false →
      s.y.known.get .v0 = true → s.y.known.get .a = true →
      (autoSolve sq cs sn a2 s).y.known.get .t = true ∧
      (autoSolve sq cs sn a2 s).y.vals.get .t =
        (autoSolve sq cs sn a2 s).x.vals.get .t) ∧
    (s.y.userSet.get .t = true → s.x.userSet.get .t = false →
      s.x.known.get .v0 = true → s.x.known.get .a = true →
      (autoSolve sq cs sn a2 s).x.known.get .t = true ∧
      (autoSolve sq cs sn a2 s).x.vals.get .t =
        (autoSolve sq cs sn a2 s).y.vals.get .t) := by
  rw [autoSolve_pipeline]
  simp only [phaseSeedFinal]
  constructor
  · intro hA hB hkv0 hka
    have hv1 : Valid (phaseReset s) := phaseReset_valid s h
    have hv2 : Valid (phaseSeedVel cs sn (phaseReset s)) := phaseSeedVel_valid cs sn (phaseReset s) hv1
    have hv3 : Valid (seedFinalY sq (phaseSeedVel cs sn (phaseReset s))) := seedFinalY_valid sq (phaseSeedVel cs sn (phaseReset s)) hv2
    have hv4 : Valid (seedFinalX sq (seedFinalY sq (phaseSeedVel cs sn (phaseReset s)))) := seedFinalX_valid sq (seedFinalY sq (phaseSeedVel cs sn (phaseReset s))) hv3
    obtain ⟨usx4, usy4, _, _, _⟩ := by
      obtain ⟨a1, b1, c1, d1, f1⟩ := phaseReset_userSet s
      obtain ⟨a2', b2, c2, d2, f2⟩ := phaseSeedVel_userSet cs sn (phaseReset s)
      obtain ⟨a3, b3, c3, d3, f3⟩ := seedFinalY_userSet sq (phaseSeedVel cs sn (phaseReset s))
      obtain ⟨a4, b4, c4, d4, f4⟩ := seedFinalX_userSet sq (seedFinalY sq (phaseSeedVel cs sn (phaseReset s)))
      exact (⟨by rw [a4, a3, a2', a1], by rw [b4, b3, b2, b1], by rw [c4, c3, c2, c1],
        by rw [d4, d3, d2, d1], by rw [f4, f3, f2, f1]⟩ :
        (seedFinalX sq (seedFinalY sq (phaseSeedVel cs sn (phaseReset s)))).x.userSet = s.x.userSet ∧ (seedFinalX sq (seedFinalY sq (phaseSeedVel cs sn (phaseReset s)))).y.userSet = s.y.userSet ∧
        (seedFinalX sq (seedFinalY sq (phaseSeedVel cs sn (phaseReset s)))).speedUserSet = s.speedUserSet ∧ (seedFinalX sq (seedFinalY sq (phaseSeedVel cs sn (phaseReset s)))).angleUserSet = s.angleUserSet ∧
        (seedFinalX sq (seedFinalY sq (phaseSeedVel cs sn (phaseReset s)))).finalSpeedUserSet = s.finalSpeedUserSet)
    obtain ⟨exA5, ev5, ek5⟩ := phaseSeedTime_fire_x (seedFinalX sq (seedFinalY sq (phaseSeedVel cs sn (phaseReset s))))
      (by rw [usx4]; exact hA) (by rw [usy4]; exact hB)
    have e1 : (phaseReset s).x.vals = s.x.vals := (phaseReset_vals s).1
    have e2 : (phaseSeedVel cs sn (phaseReset s)).x.vals.get .t = (phaseReset s).x.vals.get .t :=
      (phaseSeedVel_vals cs sn (phaseReset s) .t (fun he => absurd he (by decide))).1
    have e3 : (seedFinalY sq (phaseSeedVel cs sn (phaseReset s))).x = (phaseSeedVel cs sn (phaseReset s)).x := seedFinalY_x sq (phaseSeedVel cs sn (phaseReset s))
    have e4 : (seedFinalX sq (seedFinalY sq (phaseSeedVel cs sn (phaseReset s)))).x.vals.get .t = (seedFinalY sq (phaseSeedVel cs sn (phaseReset s))).x.vals.get .t :=
      (seedFinalX_vals sq (seedFinalY sq (phaseSeedVel cs sn (phaseReset s))) .t (fun he => absurd he (by decide))).1
    have val4 : (seedFinalX sq (seedFinalY sq (phaseSeedVel cs sn (phaseReset s)))).x.vals.get .t = s.x.vals.get .t := by
      rw [e4, e3, e2, e1]
    have kA4 : (seedFinalX sq (seedFinalY sq (phaseSeedVel cs sn (phaseReset s)))).x.known.get .t = true := hv4.1 .t (by rw [usx4]; exact hA)
    have kA5 : (phaseSeedTime (seedFinalX sq (seedFinalY sq (phaseSeedVel cs sn (phaseReset s))))).x.known.get .t = true := by rw [exA5]; exact kA4
    have vA5 : (phaseSeedTime (seedFinalX sq (seedFinalY sq (phaseSeedVel cs sn (phaseReset s))))).x.vals.get .t = s.x.vals.get .t := by rw [exA5, val4]
    have vB5 : (phaseSeedTime (seedFinalX sq (seedFinalY sq (phaseSeedVel cs sn (phaseReset s))))).y.vals.get .t = s.x.vals.get .t := by rw [ev5, val4]
    obtain ⟨kA6, eA6⟩ := phasePass_stable_x sq (phaseSeedTime (seedFinalX sq (seedFinalY sq (phaseSeedVel cs sn (phaseReset s))))) .t kA5
    obtain ⟨kA7, eA7⟩ := phasePass_stable_x sq (phasePass sq (phaseSeedTime (seedFinalX sq (seedFinalY sq (phaseSeedVel cs sn (phaseReset s)))))) .t kA6
    obtain ⟨kA8, eA8⟩ := phasePass_stable_x sq (phasePass sq (phasePass sq (phaseSeedTime (seedFinalX sq (seedFinalY sq (phaseSeedVel cs sn (phaseReset s))))))) .t kA7
    obtain ⟨kB6, eB6⟩ := phasePass_stable_y sq (phaseSeedTime (seedFinalX sq (seedFinalY sq (phaseSeedVel cs sn (phaseReset s))))) .t ek5
    obtain ⟨kB7, eB7⟩ := phasePass_stable_y sq (phasePass sq (phaseSeedTime (seedFinalX sq (seedFinalY sq (phaseSeedVel cs sn (phaseReset s)))))) .t kB6
    obtain ⟨kB8, eB8⟩ := phasePass_stable_y sq (phasePass sq (phasePass sq (phaseSeedTime (seedFinalX sq (seedFinalY sq (phaseSeedVel cs sn (phaseReset s))))))) .t kB7
    have e9A := (phaseBack_axes sq a2 (phasePass sq (phasePass sq (phasePass sq (phaseSeedTime (seedFinalX sq (seedFinalY sq (phaseSeedVel cs sn (phaseReset s))))))))).1
    have e9B := (phaseBack_axes sq a2 (phasePass sq (phasePass sq (phasePass sq (phaseSeedTime (seedFinalX sq (seedFinalY sq (phaseSeedVel cs sn (phaseReset s))))))))).2
    constructor
    · rw [e9B]; exact kB8
    · rw [e9A, e9B, eA8, eA7, eA6, eB8, eB7, eB6, vA5, vB5]
  · intro hA hB hkv0 hka
    have hv1 : Valid (phaseReset s) := phaseReset_valid s h
    have hv2 : Valid (phaseSeedVel cs sn (phaseReset s)) := phaseSeedVel_valid cs sn (phaseReset s) hv1
    have hv3 : Valid (seedFinalY sq (phaseSeedVel cs sn (phaseReset s))) := seedFinalY_valid sq (phaseSeedVel cs sn (phaseReset s)) hv2
    have hv4 : Valid (seedFinalX sq (seedFinalY sq (phaseSeedVel cs sn (phaseReset s)))) := seedFinalX_valid sq (seedFinalY sq (phaseSeedVel cs sn (phaseReset s))) hv3
    obtain ⟨usx4, usy4, _, _, _⟩ := by
      obtain ⟨a1, b1, c1, d1, f1⟩ := phaseReset_userSet s
      obtain ⟨a2', b2, c2, d2, f2⟩ := phaseSeedVel_userSet cs sn (phaseReset s)
      obtain ⟨a3, b3, c3, d3, f3⟩ := seedFinalY_userSet sq (phaseSeedVel cs sn (phaseReset s))
      obtain ⟨a4, b4, c4, d4, f4⟩ := seedFinalX_userSet sq (seedFinalY sq (phaseSeedVel cs sn (phaseReset s)))
      exact (⟨by rw [a4, a3, a2', a1], by rw [b4, b3, b2, b1], by rw [c4, c3, c2, c1],
        by rw [d4, d3, d2, d1], by rw [f4, f3, f2, f1]⟩ :
        (seedFinalX sq (seedFinalY sq (phaseSeedVel cs sn (phaseReset s)))).x.userSet = s.x.userSet ∧ (seedFinalX sq (seedFinalY sq (phaseSeedVel cs sn (phaseReset s)))).y.userSet = s.y.userSet ∧
        (seedFinalX sq (seedFinalY sq (phaseSeedVel cs sn (phaseReset s)))).speedUserSet = s.speedUserSet ∧ (seedFinalX sq (seedFinalY sq (phaseSeedVel cs sn (phaseReset s)))).angleUserSet = s.angleUserSet ∧
        (seedFinalX sq (seedFinalY sq (phaseSeedVel cs sn (phaseReset s)))).finalSpeedUserSet = s.finalSpeedUserSet)
    obtain ⟨exA5, ev5, ek5⟩ := phaseSeedTime_fire_y (seedFinalX sq (seedFinalY sq (phaseSeedVel cs sn (phaseReset s))))
      (by rw [usy4]; exact hA) (by rw [usx4]; exact hB)
    have e1 : (phaseReset s).y.vals = s.y.vals := (phaseReset_vals s).2.1
    have e2 : (phaseSeedVel cs sn (phaseReset s)).y.vals.get .t = (phaseReset s).y.vals.get .t :=
      (phaseSeedVel_vals cs sn (phaseReset s) .t (fun he => absurd he (by decide))).2
    have e3 : (seedFinalY sq (phaseSeedVel cs sn (phaseReset s))).y.vals.get .t = (phaseSeedVel cs sn (phaseReset s)).y.vals.get .t :=
      (seedFinalY_vals sq (phaseSeedVel cs sn (phaseReset s)) .t (fun he => absurd he (by decide))).2
    have e4 : (seedFinalX sq (seedFinalY sq (phaseSeedVel cs sn (phaseReset s)))).y = (seedFinalY sq (phaseSeedVel cs sn (phaseReset s))).y := seedFinalX_y sq (seedFinalY sq (phaseSeedVel cs sn (phaseReset s)))
    have val4 : (seedFinalX sq (seedFinalY sq (phaseSeedVel cs sn (phaseReset s)))).y.vals.get .t = s.y.vals.get .t := by
      rw [e4, e3, e2, e1]
    have kA4 : (seedFinalX sq (seedFinalY sq (phaseSeedVel cs sn (phaseReset s)))).y.known.get .t = true := hv4.2.1 .t (by rw [usy4]; exact hA)
    have kA5 : (phaseSeedTime (seedFinalX sq (seedFinalY sq (phaseSeedVel cs sn (phaseReset s))))).y.known.get .t = true := by rw [exA5]; exact kA4
    have vA5 : (phaseSeedTime (seedFinalX sq (seedFinalY sq (phaseSeedVel cs sn (phaseReset s))))).y.vals.get .t = s.y.vals.get .t := by rw [exA5, val4]
    have vB5 : (phaseSeedTime (seedFinalX sq (seedFinalY sq (phaseSeedVel cs sn (phaseReset s))))).x.vals.get .t = s.y.vals.get .t := by rw [ev5, val4]
    obtain ⟨kA6, eA6⟩ := phasePass_stable_y sq (phaseSeedTime (seedFinalX sq (seedFinalY sq (phaseSeedVel cs sn (phaseReset s))))) .t kA5
    obtain ⟨kA7, eA7⟩ := phasePass_stable_y sq (phasePass sq (phaseSeedTime (seedFinalX sq (seedFinalY sq (phaseSeedVel cs sn (phaseReset s)))))) .t kA6
    obtain ⟨kA8, eA8⟩ := phasePass_stable_y sq (phasePass sq (phasePass sq (phaseSeedTime (seedFinalX sq (seedFinalY sq (phaseSeedVel cs sn (phaseReset s))))))) .t kA7
    obtain ⟨kB6, eB6⟩ := phasePass_stable_x sq (phaseSeedTime (seedFinalX sq (seedFinalY sq (phaseSeedVel cs sn (phaseReset s))))) .t ek5
    obtain ⟨kB7, eB7⟩ := phasePass_stable_x sq (phasePass sq (phaseSeedTime (seedFinalX sq (seedFinalY sq (phaseSeedVel cs sn (phaseReset s)))))) .t kB6
    obtain ⟨kB8, eB8⟩ := phasePass_stable_x sq (phasePass sq (phasePass sq (phaseSeedTime (seedFinalX sq (seedFinalY sq (phaseSeedVel cs sn (phaseReset s))))))) .t kB7
    have e9A := (phaseBack_axes sq a2 (phasePass sq (phasePass sq (phasePass sq (phaseSeedTime (seedFinalX sq (seedFinalY sq (phaseSeedVel cs sn (phaseReset s))))))))).2
    have e9B := (phaseBack_axes sq a2 (phasePass sq (phasePass sq (phasePass sq (phaseSeedTime (seedFinalX sq (seedFinalY sq (phaseSeedVel cs sn (phaseReset s))))))))).1
    constructor
    · rw [e9B]; exact kB8
    · rw [e9A, e9B, eA8, eA7, eA6, eB8, eB7, eB6, vA5, vB5]

theorem claim_C7_witness :
    Valid c7State ∧
    c7State.x.userSet.get .t = true ∧
    c7State.y.userSet.get .t = false ∧
    c7State.y.known.get .v0 = true ∧
    c7State.y.known.get .a = true ∧
    ((autoSolve sqZ csZ snZ a2Z c7State).y.known.get .t = true ∧
     (autoSolve sqZ csZ snZ a2Z c7State).y.vals.get .t =
       (autoSolve sqZ csZ snZ a2Z c7State).x.vals.get .t) :=
  ⟨by decide, by decide, by decide, by decide, by decide,
    (claim_C7 sqZ csZ snZ a2Z c7State (by decide)).1
      (by decide) (by decide) (by decide) (by decide)⟩

theorem TrackAx_setD (a b u w : Axis) (t : TrackAx a b u w) (tv : Var) (q : ℚ) :
    TrackAx a b (setD u tv q) (setD w tv q) := by
  obtain ⟨hus, hk, hv⟩ := t
  refine ⟨?_, ?_, fun v => ?_⟩
  · rw [setD_userSet, setD_userSet]; exact hus
  · simp only [setD]; rw [hk]
  · by_cases hvt : v = tv
    · subst hvt
      left
      rw [setD_vals_get, setD_vals_get, if_pos rfl, if_pos rfl]
    · rcases hv v with h | ⟨h1, h2, h3⟩
      · left
        rw [setD_vals_get, setD_vals_get, if_neg hvt, if_neg hvt]
        exact h
      · right
        refine ⟨?_, ?_, ?_⟩
        · rw [setD_known_get, if_neg hvt]; exact h1
        · rw [setD_vals_get, if_neg hvt]; exact h2
        · rw [setD_vals_get, if_neg hvt]; exact h3

theorem passX_track (sq : ℚ → ℚ) (a b u w : PState) (t : TrackP a b u w) :
    TrackP a b (passX sq u) (passX sq w) := by
  obtain ⟨tx, ty, k3, k4, k5, u6, u7, u8, d9, d10, d11⟩ := t
  refine ⟨?_, ?_, ?_, ?_, ?_, ?_, ?_, ?_, ?_, ?_, ?_⟩ <;> simp only [passX]
  · exact trySolve_track sq a.x b.x u.x w.x tx
  · exact ty
  · exact k3
  · exact k4
  · exact k5
  · exact u6
  · exact u7
  · exact u8
  · exact d9
  · exact d10
  · exact d11

theorem passY_track (sq : ℚ → ℚ) (a b u w : PState) (t : TrackP a b u w) :
    TrackP a b (passY sq u) (passY sq w) := by
  obtain ⟨tx, ty, k3, k4, k5, u6, u7, u8, d9, d10, d11⟩ := t
  refine ⟨?_, ?_, ?_, ?_, ?_, ?_, ?_, ?_, ?_, ?_, ?_⟩ <;> simp only [passY]
  · exact tx
  · exact trySolve_track sq a.y b.y u.y w.y ty
  · exact k3
  · exact k4
  · exact k5
  · exact u6
  · exact u7
  · exact u8
  · exact d9
  · exact d10
  · exact d11

theorem copyXtoY_track (a b u w : PState) (t : TrackP a b u w) :
    TrackP a b (copyXtoY u) (copyXtoY w) := by
  have t' := t
  obtain ⟨tx, ty, k3, k4, k5, u6, u7, u8, d9, d10, d11⟩ := t
  obtain ⟨txu, txk, txv⟩ := tx
  obtain ⟨tyu, tyk, tyv⟩ := ty
  simp only [copyXtoY]
  by_cases hg : (u.x.known.get .t && !u.y.known.get .t) = true
  · have hgw : (w.x.known.get .t && !w.y.known.get .t) = true := by
      rw [← txk, ← tyk]; exact hg
    rw [if_pos hg, if_pos hgw]
    simp only [Bool.and_eq_true, Bool.not_eq_true'] at hg
    have hval : u.x.vals.get .t = w.x.vals.get .t := by
      rcases txv .t with h | ⟨h1, _, _⟩
      · exact h
      · rw [hg.1] at h1; exact absurd h1 (by simp)
    refine ⟨⟨txu, txk, txv⟩, ?_, k3, k4, k5, u6, u7, u8, d9, d10, d11⟩
    rw [hval]
    exact TrackAx_setD a.y b.y u.y w.y ⟨tyu, tyk, tyv⟩ .t (w.x.vals.get .t)
  · have hgw : ¬(w.x.known.get .t && !w.y.known.get .t) = true := by
      rw [← txk, ← tyk]; exact hg
    rw [if_neg hg, if_neg hgw]
    exact t'

theorem copyYtoX_track (a b u w : PState) (t : TrackP a b u w) :
    TrackP a b (copyYtoX u) (copyYtoX w) := by
  have t' := t
  obtain ⟨tx, ty, k3, k4, k5, u6, u7, u8, d9, d10, d11⟩ := t
  obtain ⟨txu, txk, txv⟩ := tx
  obtain ⟨tyu, tyk, tyv⟩ := ty
  simp only [copyYtoX]
  by_cases hg : (u.y.known.get .t && !u.x.known.get .t) = true
  · have hgw : (w.y.known.get .t && !w.x.known.get .t) = true := by
      rw [← txk, ← tyk]; exact hg
    rw [if_pos hg, if_pos hgw]
    simp only [Bool.and_eq_true, Bool.not_eq_true'] at hg
    have hval : u.y.vals.get .t = w.y.vals.get .t := by
      rcases tyv .t with h | ⟨h1, _, _⟩
      · exact h
      · rw [hg.1] at h1; exact absurd h1 (by simp)
    refine ⟨?_, ⟨tyu, tyk, tyv⟩, k3, k4, k5, u6, u7, u8, d9, d10, d11⟩
    rw [hval]
    exact TrackAx_setD a.x b.x u.x w.x ⟨txu, txk, txv⟩ .t (w.y.vals.get .t)
  · have hgw : ¬(w.y.known.get .t && !w.x.known.get .t) = true := by
      rw [← txk, ← tyk]; exact hg
    rw [if_neg hg, if_neg hgw]
    exact t'

theorem phasePass_track (sq : ℚ → ℚ) (a b u w : PState) (t : TrackP a b u w) :
    TrackP a b (phasePass sq u) (phasePass sq w) := by
  simp only [phasePass]
  exact copyYtoX_track a b _ _ (passY_track sq a b _ _
    (copyXtoY_track a b _ _ (passX_track sq a b u w t)))

theorem backSpeed_track (sq : ℚ → ℚ) (a b u w : PState) (t : TrackP a b u w) :
    TrackP a b (backSpeed sq u) (backSpeed sq w) := by
  have t' := t
  obtain ⟨tx, ty, k3, k4, k5, u6, u7, u8, d9, d10, d11⟩ := t
  obtain ⟨txu, txk, txv⟩ := tx
  obtain ⟨tyu, tyk, tyv⟩ := ty
  simp only [backSpeed]
  by_cases hg : (!u.speedKnown && u.x.known.get .v0 && u.y.known.get .v0) = true
  · have hgw : (!w.speedKnown && w.x.known.get .v0 && w.y.known.get .v0) = true := by
      rw [← k3, ← txk, ← tyk]; exact hg
    rw [if_pos hg, if_pos hgw]
    simp only [Bool.and_eq_true, Bool.not_eq_true'] at hg
    have hx : u.x.vals.get .v0 = w.x.vals.get .v0 := by
      rcases txv .v0 with h | ⟨h1, _, _⟩
      · exact h
      · rw [hg.1.2] at h1; exact absurd h1 (by simp)
    have hy : u.y.vals.get .v0 = w.y.vals.get .v0 := by
      rcases tyv .v0 with h | ⟨h1, _, _⟩
      · exact h
      · rw [hg.2] at h1; exact absurd h1 (by simp)
    refine ⟨⟨txu, txk, txv⟩, ⟨tyu, tyk, tyv⟩, rfl, k4, k5, u6, u7, u8, ?_, d10, d11⟩
    left
    rw [hx, hy]
  · have hgw : ¬(!w.speedKnown && w.x.known.get .v0 && w.y.known.get .v0) = true := by
      rw [← k3, ← txk, ← tyk]; exact hg
    rw [if_neg hg, if_neg hgw]
    exact t'

theorem backAngle_track (a2 : ℚ → ℚ → ℚ) (a b u w : PState) (t : TrackP a b u w) :
    TrackP a b (backAngle a2 u) (backAngle a2 w) := by
  have t' := t
  obtain ⟨tx, ty, k3, k4, k5, u6, u7, u8, d9, d10, d11⟩ := t
  obtain ⟨txu, txk, txv⟩ := tx
  obtain ⟨tyu, tyk, tyv⟩ := ty
  simp only [backAngle]
  by_cases hg : (!u.angleKnown && u.x.known.get .v0 && u.y.known.get .v0) = true
  · have hgw : (!w.angleKnown && w.x.known.get .v0 && w.y.known.get .v0) = true := by
      rw [← k4, ← txk, ← tyk]; exact hg
    rw [if_pos hg, if_pos hgw]
    simp only [Bool.and_eq_true, Bool.not_eq_true'] at hg
    have hx : u.x.vals.get .v0 = w.x.vals.get .v0 := by
      rcases txv .v0 with h | ⟨h1, _, _⟩
      · exact h
      · rw [hg.1.2] at h1; exact absurd h1 (by simp)
    have hy : u.y.vals.get .v0 = w.y.vals.get .v0 := by
      rcases tyv .v0 with h | ⟨h1, _, _⟩
      · exact h
      · rw [hg.2] at h1; exact absurd h1 (by simp)
    refine ⟨⟨txu, txk, txv⟩, ⟨tyu, tyk, tyv⟩, k3, rfl, k5, u6, u7, u8, d9, ?_, d11⟩
    left
    rw [hx, hy]
  · have hgw : ¬(!w.angleKnown && w.x.known.get .v0 && w.y.known.get .v0) = true := by
      rw [← k4, ← txk, ← tyk]; exact hg
    rw [if_neg hg, if_neg hgw]
    exact t'

theorem backFinal_track (sq : ℚ → ℚ) (a b u w : PState) (t : TrackP a b u w) :
    TrackP a b (backFinal sq u) (backFinal sq w) := by
  have t' := t
  obtain ⟨tx, ty, k3, k4, k5, u6, u7, u8, d9, d10, d11⟩ := t
  obtain ⟨txu, txk, txv⟩ := tx
  obtain ⟨tyu, tyk, tyv⟩ := ty
  simp only [backFinal]
  by_cases hg : (!u.finalSpeedKnown && u.x.known.get .vf && u.y.known.get .vf) = true
  · have hgw : (!w.finalSpeedKnown && w.x.known.get .vf && w.y.known.get .vf) = true := by
      rw [← k5, ← txk, ← tyk]; exact hg
    rw [if_pos hg, if_pos hgw]
    simp only [Bool.and_eq_true, Bool.not_eq_true'] at hg
    have hx : u.x.vals.get .vf = w.x.vals.get .vf := by
      rcases txv .vf with h | ⟨h1, _, _⟩
      · exact h
      · rw [hg.1.2] at h1; exact absurd h1 (by simp)
    have hy : u.y.vals.get .vf = w.y.vals.get .vf := by
      rcases tyv .vf with h | ⟨h1, _, _⟩
      · exact h
      · rw [hg.2] at h1; exact absurd h1 (by simp)
    refine ⟨⟨txu, txk, txv⟩, ⟨tyu, tyk, tyv⟩, k3, k4, rfl, u6, u7, u8, d9, d10, ?_⟩
    left
    rw [hx, hy]
  · have hgw : ¬(!w.finalSpeedKnown && w.x.known.get .vf && w.y.known.get .vf) = true := by
      rw [← k5, ← txk, ← tyk]; exact hg
    rw [if_neg hg, if_neg hgw]
    exact t'

theorem phaseBack_track (sq : ℚ → ℚ) (a2 : ℚ → ℚ → ℚ) (a b u w : PState)
    (t : TrackP a b u w) : TrackP a b (phaseBack sq a2 u) (phaseBack sq a2 w) := by
  simp only [phaseBack]
  exact backFinal_track sq a b _ _ (backAngle_track a2 a b _ _
    (backSpeed_track sq a b u w t))

theorem seedFinalY_track (sq : ℚ → ℚ) (a b u w : PState)
    (hu : Valid u) (hw : Valid w) (t : TrackP a b u w) :
    TrackP a b (seedFinalY sq u) (seedFinalY sq w) := by
  have t' := t
  obtain ⟨tx, ty, k3, k4, k5, u6, u7, u8, d9, d10, d11⟩ := t
  obtain ⟨txu, txk, txv⟩ := tx
  obtain ⟨tyu, tyk, tyv⟩ := ty
  simp only [seedFinalY]
  by_cases hg : (u.finalSpeedUserSet && u.x.known.get .vf && !u.y.userSet.get .vf) = true
  · have hgw : (w.finalSpeedUserSet && w.x.known.get .vf && !w.y.userSet.get .vf) = true := by
      rw [← u8, ← txk, ← tyu]; exact hg
    rw [if_pos hg, if_pos hgw]
    simp only [Bool.and_eq_true, Bool.not_eq_true'] at hg
    have hfs : u.finalSpeed = w.finalSpeed := by
      rcases d11 with h | ⟨h1, _, _⟩
      · exact h
      · rw [hu.2.2.2.2 hg.1.1] at h1; exact absurd h1 (by simp)
    have hxv : u.x.vals.get .vf = w.x.vals.get .vf := by
      rcases txv .vf with h | ⟨h1, _, _⟩
      · exact h
      · rw [hg.1.2] at h1; exact absurd h1 (by simp)
    by_cases hin : 0 ≤ qSub (qMul u.finalSpeed u.finalSpeed)
        (qMul (u.x.vals.get .vf) (u.x.vals.get .vf))
    · have hinw : 0 ≤ qSub (qMul w.finalSpeed w.finalSpeed)
          (qMul (w.x.vals.get .vf) (w.x.vals.get .vf)) := by
        rw [← hfs, ← hxv]; exact hin
      rw [if_pos hin, if_pos hinw]
      refine ⟨⟨txu, txk, txv⟩, ?_, k3, k4, k5, u6, u7, u8, d9, d10, d11⟩
      have hval : (-(sq (qSub (qMul u.finalSpeed u.finalSpeed)
            (qMul (u.x.vals.get .vf) (u.x.vals.get .vf))))) =
          (-(sq (qSub (qMul w.finalSpeed w.finalSpeed)
            (qMul (w.x.vals.get .vf) (w.x.vals.get .vf))))) := by
        rw [hfs, hxv]
      rw [hval]
      exact TrackAx_setD a.y b.y u.y w.y ⟨tyu, tyk, tyv⟩ .vf _
    · have hinw : ¬(0 ≤ qSub (qMul w.finalSpeed w.finalSpeed)
          (qMul (w.x.vals.get .vf) (w.x.vals.get .vf))) := by
        rw [← hfs, ← hxv]; exact hin
      rw [if_neg hin, if_neg hinw]
      exact t'
  · have hgw : ¬(w.finalSpeedUserSet && w.x.known.get .vf && !w.y.userSet.get .vf) = true := by
      rw [← u8, ← txk, ← tyu]; exact hg
    rw [if_neg hg, if_neg hgw]
    exact t'

theorem seedFinalX_track (sq : ℚ → ℚ) (a b u w : PState)
    (hu : Valid u) (hw : Valid w) (t : TrackP a b u w) :
    TrackP a b (seedFinalX sq u) (seedFinalX sq w) := by
  have t' := t
  obtain ⟨tx, ty, k3, k4, k5, u6, u7, u8, d9, d10, d11⟩ := t
  obtain ⟨txu, txk, txv⟩ := tx
  obtain ⟨tyu, tyk, tyv⟩ := ty
  simp only [seedFinalX]
  by_cases hg : (u.finalSpeedUserSet && u.y.known.get .vf && !u.x.userSet.get .vf) = true
  · have hgw : (w.finalSpeedUserSet && w.y.known.get .vf && !w.x.userSet.get .vf) = true := by
      rw [← u8, ← tyk, ← txu]; exact hg
    rw [if_pos hg, if_pos hgw]
    simp only [Bool.and_eq_true, Bool.not_eq_true'] at hg
    have hfs : u.finalSpeed = w.finalSpeed := by
      rcases d11 with h | ⟨h1, _, _⟩
      · exact h
      · rw [hu.2.2.2.2 hg.1.1] at h1; exact absurd h1 (by simp)
    have hyv : u.y.vals.get .vf = w.y.vals.get .vf := by
      rcases tyv .vf with h | ⟨h1, _, _⟩
      · exact h
      · rw [hg.1.2] at h1; exact absurd h1 (by simp)
    by_cases hin : 0 ≤ qSub (qMul u.finalSpeed u.finalSpeed)
        (qMul (u.y.vals.get .vf) (u.y.vals.get .vf))
    · have hinw : 0 ≤ qSub (qMul w.finalSpeed w.finalSpeed)
          (qMul (w.y.vals.get .vf) (w.y.vals.get .vf)) := by
        rw [← hfs, ← hyv]; exact hin
      rw [if_pos hin, if_pos hinw]
      refine ⟨?_, ⟨tyu, tyk, tyv⟩, k3, k4, k5, u6, u7, u8, d9, d10, d11⟩
      have hval : (sq (qSub (qMul u.finalSpeed u.finalSpeed)
            (qMul (u.y.vals.get .vf) (u.y.vals.get .vf)))) =
          (sq (qSub (qMul w.finalSpeed w.finalSpeed)
            (qMul (w.y.vals.get .vf) (w.y.vals.get .vf)))) := by
        rw [hfs, hyv]
      rw [hval]
      exact TrackAx_setD a.x b.x u.x w.x ⟨txu, txk, txv⟩ .vf _
    · have hinw : ¬(0 ≤ qSub (qMul w.finalSpeed w.finalSpeed)
          (qMul (w.y.vals.get .vf) (w.y.vals.get .vf))) := by
        rw [← hfs, ← hyv]; exact hin
      rw [if_neg hin, if_neg hinw]
      exact t'
  · have hgw : ¬(w.finalSpeedUserSet && w.y.known.get .vf && !w.x.userSet.get .vf) = true := by
      rw [← u8, ← tyk, ← txu]; exact hg
    rw [if_neg hg, if_neg hgw]
    exact t'

theorem phaseSeedFinal_track (sq : ℚ → ℚ) (a b u w : PState)
    (hu : Valid u) (hw : Valid w) (t : TrackP a b u w) :
    TrackP a b (phaseSeedFinal sq u) (phaseSeedFinal sq w) := by
  simp only [phaseSeedFinal]
  exact seedFinalX_track sq a b _ _ (seedFinalY_valid sq u hu)
    (seedFinalY_valid sq w hw) (seedFinalY_track sq a b u w hu hw t)

theorem phaseSeedTime_track (a b u w : PState)
    (hu : Valid u) (hw : Valid w) (t : TrackP a b u w) :
    TrackP a b (phaseSeedTime u) (phaseSeedTime w) := by
  have t' := t
  obtain ⟨tx, ty, k3, k4, k5, u6, u7, u8, d9, d10, d11⟩ := t
  obtain ⟨txu, txk, txv⟩ := tx
  obtain ⟨tyu, tyk, tyv⟩ := ty
  simp only [phaseSeedTime]
  by_cases hg1 : (u.x.userSet.get .t && !u.y.userSet.get .t) = true
  · have hgw1 : (w.x.userSet.get .t && !w.y.userSet.get .t) = true := by
      rw [← txu, ← tyu]; exact hg1
    rw [if_pos hg1, if_pos hgw1]
    simp only [Bool.and_eq_true, Bool.not_eq_true'] at hg1
    have hval : u.x.vals.get .t = w.x.vals.get .t := by
      rcases txv .t with h | ⟨h1, _, _⟩
      · exact h
      · rw [hu.1 .t hg1.1] at h1; exact absurd h1 (by simp)
    refine ⟨⟨txu, txk, txv⟩, ?_, k3, k4, k5, u6, u7, u8, d9, d10, d11⟩
    rw [hval]
    exact TrackAx_setD a.y b.y u.y w.y ⟨tyu, tyk, tyv⟩ .t _
  · have hgw1 : ¬(w.x.userSet.get .t && !w.y.userSet.get .t) = true := by
      rw [← txu, ← tyu]; exact hg1
    rw [if_neg hg1, if_neg hgw1]
    by_cases hg2 : (u.y.userSet.get .t && !u.x.userSet.get .t) = true
    · have hgw2 : (w.y.userSet.get .t && !w.x.userSet.get .t) = true := by
        rw [← txu, ← tyu]; exact hg2
      rw [if_pos hg2, if_pos hgw2]
      simp only [Bool.and_eq_true, Bool.not_eq_true'] at hg2
      have hval : u.y.vals.get .t = w.y.vals.get .t := by
        rcases tyv .t with h | ⟨h1, _, _⟩
        · exact h
        · rw [hu.2.1 .t hg2.1] at h1; exact absurd h1 (by simp)
      refine ⟨?_, ⟨tyu, tyk, tyv⟩, k3, k4, k5, u6, u7, u8, d9, d10, d11⟩
      rw [hval]
      exact TrackAx_setD a.x b.x u.x w.x ⟨txu, txk, txv⟩ .t _
    · have hgw2 : ¬(w.y.userSet.get .t && !w.x.userSet.get .t) = true := by
        rw [← txu, ← tyu]; exact hg2
      rw [if_neg hg2, if_neg hgw2]
      exact t'

theorem phaseSeedVel_known_get (cs sn : ℚ → ℚ) (s : PState) (v : Var) :
    ((phaseSeedVel cs sn s).x.known.get v =
      if (s.speedUserSet && s.angleUserSet) = true ∧ v = Var.v0 then true
      else s.x.known.get v) ∧
    ((phaseSeedVel cs sn s).y.known.get v =
      if (s.speedUserSet && s.angleUserSet) = true ∧ v = Var.v0 then true
      else s.y.known.get v) := by
  simp only [phaseSeedVel]
  split_ifs with h1 h2 h3
  · constructor <;> (simp only [setD_known_get]; rw [if_pos h2.2])
  · constructor <;> (simp only [setD_known_get]; rw [if_neg (fun hv => h2 ⟨h1, hv⟩)])
  · exact absurd h3.1 h1
  · exact ⟨rfl, rfl⟩

theorem phaseSeedVel_vals_get (cs sn : ℚ → ℚ) (s : PState) (v : Var) :
    ((phaseSeedVel cs sn s).x.vals.get v =
      if (s.speedUserSet && s.angleUserSet) = true ∧ v = Var.v0 then
        qMul s.launchSpeed (cs (qMul s.launchAngle degToRad))
      else s.x.vals.get v) ∧
    ((phaseSeedVel cs sn s).y.vals.get v =
      if (s.speedUserSet && s.angleUserSet) = true ∧ v = Var.v0 then
        qMul s.launchSpeed (sn (qMul s.launchAngle degToRad))
      else s.y.vals.get v) := by
  simp only [phaseSeedVel]
  split_ifs with h1 h2 h3
  · constructor <;> (simp only [setD_vals_get]; rw [if_pos h2.2])
  · constructor <;> (simp only [setD_vals_get]; rw [if_neg (fun hv => h2 ⟨h1, hv⟩)])
  · exact absurd h3.1 h1
  · exact ⟨rfl, rfl⟩

theorem TrackAx_self (u w : Axis) (hus : u.userSet = w.userSet)
    (hk : u.known = w.known)
    (hv : ∀ v, u.known.get v = true → u.vals.get v = w.vals.get v) :
    TrackAx u w u w := by
  refine ⟨hus, hk, fun v => ?_⟩
  cases hb : u.known.get v
  · exact Or.inr ⟨rfl, rfl, rfl⟩
  · exact Or.inl (hv v hb)

theorem TrackP_self (u w : PState)
    (hxu : u.x.userSet = w.x.userSet) (hxk : u.x.known = w.x.known)
    (hxv : ∀ v, u.x.known.get v = true → u.x.vals.get v = w.x.vals.get v)
    (hyu : u.y.userSet = w.y.userSet) (hyk : u.y.known = w.y.known)
    (hyv : ∀ v, u.y.known.get v = true → u.y.vals.get v = w.y.vals.get v)
    (hsk : u.speedKnown = w.speedKnown) (hak : u.angleKnown = w.angleKnown)
    (hfk : u.finalSpeedKnown = w.finalSpeedKnown)
    (hsu : u.speedUserSet = w.speedUserSet)
    (hau : u.angleUserSet = w.angleUserSet)
    (hfu : u.finalSpeedUserSet = w.finalSpeedUserSet)
    (hls : u.speedKnown = true → u.launchSpeed = w.launchSpeed)
    (hla : u.angleKnown = true → u.launchAngle = w.launchAngle)
    (hlf : u.finalSpeedKnown = true → u.finalSpeed = w.finalSpeed) :
    TrackP u w u w := by
  refine ⟨TrackAx_self u.x w.x hxu hxk hxv, TrackAx_self u.y w.y hyu hyk hyv,
    hsk, hak, hfk, hsu, hau, hfu, ?_, ?_, ?_⟩
  · cases hb : u.speedKnown
    · exact Or.inr ⟨rfl, rfl, rfl⟩
    · exact Or.inl (hls hb)
  · cases hb : u.angleKnown
    · exact Or.inr ⟨rfl, rfl, rfl⟩
    · exact Or.inl (hla hb)
  · cases hb : u.finalSpeedKnown
    · exact Or.inr ⟨rfl, rfl, rfl⟩
    · exact Or.inl (hlf hb)

theorem Axis_ext (u w : Axis) (h1 : u.vals = w.vals) (h2 : u.known = w.known)
    (h3 : u.userSet = w.userSet) : u = w := by
  cases u
  cases w
  simp only [Axis.mk.injEq]
  exact ⟨h1, h2, h3⟩

theorem PState_ext (u w : PState) (h1 : u.x = w.x) (h2 : u.y = w.y)
    (h3 : u.launchSpeed = w.launchSpeed) (h4 : u.launchAngle = w.launchAngle)
    (h5 : u.finalSpeed = w.finalSpeed) (h6 : u.speedKnown = w.speedKnown)
    (h7 : u.angleKnown = w.angleKnown)
    (h8 : u.finalSpeedKnown = w.finalSpeedKnown)
    (h9 : u.speedUserSet = w.speedUserSet)
    (h10 : u.angleUserSet = w.angleUserSet)
    (h11 : u.finalSpeedUserSet = w.finalSpeedUserSet) : u = w := by
  cases u
  cases w
  simp only [PState.mk.injEq]
  exact ⟨h1, h2, h3, h4, h5, h6, h7, h8, h9, h10, h11⟩

theorem phaseSeedFinal_valid (sq : ℚ → ℚ) (s : PState) (h : Valid s) :
    Valid (phaseSeedFinal sq s) := by
  simp only [phaseSeedFinal]
  exact seedFinalX_valid sq _ (seedFinalY_valid sq s h)

theorem tail_known_mono (sq : ℚ → ℚ) (a2 : ℚ → ℚ → ℚ) (u : PState) (v : Var) :
    (u.x.known.get v = true →
      (phaseBack sq a2 (phasePass sq (phasePass sq (phasePass sq
        (phaseSeedTime (phaseSeedFinal sq u)))))).x.known.get v = true) ∧
    (u.y.known.get v = true →
      (phaseBack sq a2 (phasePass sq (phasePass sq (phasePass sq
        (phaseSeedTime (phaseSeedFinal sq u)))))).y.known.get v = true) := by
  constructor <;> intro hb
  · have k1 : (seedFinalY sq u).x.known.get v = true :=
      (seedFinalY_known_mono sq u v).1 hb
    have k2 : (phaseSeedFinal sq u).x.known.get v = true := by
      simp only [phaseSeedFinal]
      exact (seedFinalX_known_mono sq _ v).1 k1
    have k3 : (phaseSeedTime (phaseSeedFinal sq u)).x.known.get v = true :=
      (phaseSeedTime_known_mono _ v).1 k2
    have k4 := (phasePass_stable_x sq _ v k3).1
    have k5 := (phasePass_stable_x sq _ v k4).1
    have k6 := (phasePass_stable_x sq _ v k5).1
    rw [(phaseBack_axes sq a2 _).1]
    exact k6
  · have k1 : (seedFinalY sq u).y.known.get v = true :=
      (seedFinalY_known_mono sq u v).2 hb
    have k2 : (phaseSeedFinal sq u).y.known.get v = true := by
      simp only [phaseSeedFinal]
      exact (seedFinalX_known_mono sq _ v).2 k1
    have k3 : (phaseSeedTime (phaseSeedFinal sq u)).y.known.get v = true :=
      (phaseSeedTime_known_mono _ v).2 k2
    have k4 := (phasePass_stable_y sq _ v k3).1
    have k5 := (phasePass_stable_y sq _ v k4).1
    have k6 := (phasePass_stable_y sq _ v k5).1
    rw [(phaseBack_axes sq a2 _).2]
    exact k6

theorem idem_establish (sq cs sn : ℚ → ℚ) (a2 : ℚ → ℚ → ℚ) (s : PState)
    (h : Valid s) :
    TrackP (phaseSeedVel cs sn (phaseReset s)) (phaseSeedVel cs sn (phaseReset (autoSolve sq cs sn a2 s))) (phaseSeedVel cs sn (phaseReset s)) (phaseSeedVel cs sn (phaseReset (autoSolve sq cs sn a2 s))) := by
  have h1 : Valid (autoSolve sq cs sn a2 s) := autoSolve_valid sq cs sn a2 s h
  obtain ⟨uax, uay, uas, uaa, uaf⟩ := autoSolve_userSet sq cs sn a2 s
  obtain ⟨hscS, hscA, hscF⟩ := autoSolve_scalar_stable sq cs sn a2 s h
  have hkx : ∀ v, (phaseReset s).x.known.get v = (phaseReset (autoSolve sq cs sn a2 s)).x.known.get v := by
    intro v
    rw [(phaseReset_known s).1 v, (phaseReset_known (autoSolve sq cs sn a2 s)).1 v, uax]
    by_cases hv : s.x.userSet.get v = true
    · rw [hv, h.1 v hv, h1.1 v (by rw [uax]; exact hv)]
    · simp only [Bool.not_eq_true] at hv
      simp [hv]
  have hky : ∀ v, (phaseReset s).y.known.get v = (phaseReset (autoSolve sq cs sn a2 s)).y.known.get v := by
    intro v
    rw [(phaseReset_known s).2.1 v, (phaseReset_known (autoSolve sq cs sn a2 s)).2.1 v, uay]
    by_cases hv : s.y.userSet.get v = true
    · rw [hv, h.2.1 v hv, h1.2.1 v (by rw [uay]; exact hv)]
    · simp only [Bool.not_eq_true] at hv
      simp [hv]
  have hk_speed : (phaseReset s).speedKnown = (phaseReset (autoSolve sq cs sn a2 s)).speedKnown := by
    rw [(phaseReset_known s).2.2.1, (phaseReset_known (autoSolve sq cs sn a2 s)).2.2.1, uas]
    by_cases hv : s.speedUserSet = true
    · rw [hv, h.2.2.1 hv, h1.2.2.1 (by rw [uas]; exact hv)]
    · simp only [Bool.not_eq_true] at hv
      simp [hv]
  have hk_angle : (phaseReset s).angleKnown = (phaseReset (autoSolve sq cs sn a2 s)).angleKnown := by
    rw [(phaseReset_known s).2.2.2.1, (phaseReset_known (autoSolve sq cs sn a2 s)).2.2.2.1, uaa]
    by_cases hv : s.angleUserSet = true
    · rw [hv, h.2.2.2.1 hv, h1.2.2.2.1 (by rw [uaa]; exact hv)]
    · simp only [Bool.not_eq_true] at hv
      simp [hv]
  have hk_final : (phaseReset s).finalSpeedKnown = (phaseReset (autoSolve sq cs sn a2 s)).finalSpeedKnown := by
    rw [(phaseReset_known s).2.2.2.2, (phaseReset_known (autoSolve sq cs sn a2 s)).2.2.2.2, uaf]
    by_cases hv : s.finalSpeedUserSet = true
    · rw [hv, h.2.2.2.2 hv, h1.2.2.2.2 (by rw [uaf]; exact hv)]
    · simp only [Bool.not_eq_true] at hv
      simp [hv]
  have hv_speed : (phaseReset s).speedKnown = true → (phaseReset s).launchSpeed = (phaseReset (autoSolve sq cs sn a2 s)).launchSpeed := by
    intro hb
    rw [(phaseReset_known s).2.2.1] at hb
    simp only [Bool.and_eq_true] at hb
    rw [(phaseReset_vals s).2.2.1, (phaseReset_vals (autoSolve sq cs sn a2 s)).2.2.1]
    exact ((hscS hb.1).1).symm
  have hv_angle : (phaseReset s).angleKnown = true → (phaseReset s).launchAngle = (phaseReset (autoSolve sq cs sn a2 s)).launchAngle := by
    intro hb
    rw [(phaseReset_known s).2.2.2.1] at hb
    simp only [Bool.and_eq_true] at hb
    rw [(phaseReset_vals s).2.2.2.1, (phaseReset_vals (autoSolve sq cs sn a2 s)).2.2.2.1]
    exact ((hscA hb.1).1).symm
  have hv_final : (phaseReset s).finalSpeedKnown = true → (phaseReset s).finalSpeed = (phaseReset (autoSolve sq cs sn a2 s)).finalSpeed := by
    intro hb
    rw [(phaseReset_known s).2.2.2.2] at hb
    simp only [Bool.and_eq_true] at hb
    rw [(phaseReset_vals s).2.2.2.2, (phaseReset_vals (autoSolve sq cs sn a2 s)).2.2.2.2]
    exact ((hscF hb.1).1).symm
  have rgu : ((phaseReset s).speedUserSet && (phaseReset s).angleUserSet) =
      ((phaseReset (autoSolve sq cs sn a2 s)).speedUserSet && (phaseReset (autoSolve sq cs sn a2 s)).angleUserSet) := by
    rw [(phaseReset_userSet s).2.2.1, (phaseReset_userSet (autoSolve sq cs sn a2 s)).2.2.1,
      (phaseReset_userSet s).2.2.2.1, (phaseReset_userSet (autoSolve sq cs sn a2 s)).2.2.2.1, uas, uaa]
  have hguard : ((phaseReset s).speedUserSet && (phaseReset s).angleUserSet) = true →
      (phaseReset s).launchSpeed = (phaseReset (autoSolve sq cs sn a2 s)).launchSpeed ∧ (phaseReset s).launchAngle = (phaseReset (autoSolve sq cs sn a2 s)).launchAngle := by
    intro hgg
    simp only [Bool.and_eq_true] at hgg
    have hsUS : s.speedUserSet = true := by
      rw [← (phaseReset_userSet s).2.2.1]
      exact hgg.1
    have haUS : s.angleUserSet = true := by
      rw [← (phaseReset_userSet s).2.2.2.1]
      exact hgg.2
    constructor
    · rw [(phaseReset_vals s).2.2.1, (phaseReset_vals (autoSolve sq cs sn a2 s)).2.2.1]
      exact ((hscS hsUS).1).symm
    · rw [(phaseReset_vals s).2.2.2.1, (phaseReset_vals (autoSolve sq cs sn a2 s)).2.2.2.1]
      exact ((hscA haUS).1).symm
  refine TrackP_self (phaseSeedVel cs sn (phaseReset s)) (phaseSeedVel cs sn (phaseReset (autoSolve sq cs sn a2 s))) ?_ ?_ ?_ ?_ ?_ ?_ ?_ ?_ ?_ ?_ ?_ ?_ ?_ ?_ ?_
  · rw [(phaseSeedVel_userSet cs sn (phaseReset s)).1, (phaseSeedVel_userSet cs sn (phaseReset (autoSolve sq cs sn a2 s))).1,
      (phaseReset_userSet s).1, (phaseReset_userSet (autoSolve sq cs sn a2 s)).1, uax]
  · refine Flags_ext_get (fun v => ?_)
    rw [(phaseSeedVel_known_get cs sn (phaseReset s) v).1, (phaseSeedVel_known_get cs sn (phaseReset (autoSolve sq cs sn a2 s)) v).1,
      hkx v, rgu]
  · intro v hb
    rw [(phaseSeedVel_known_get cs sn (phaseReset s) v).1] at hb
    rw [(phaseSeedVel_vals_get cs sn (phaseReset s) v).1, (phaseSeedVel_vals_get cs sn (phaseReset (autoSolve sq cs sn a2 s)) v).1]
    by_cases hc : ((phaseReset s).speedUserSet && (phaseReset s).angleUserSet) = true ∧ v = Var.v0
    · rw [if_pos hc, if_pos ⟨by rw [← rgu]; exact hc.1, hc.2⟩]
      obtain ⟨hl, ha⟩ := hguard hc.1
      rw [hl, ha]
    · rw [if_neg hc, if_neg (fun hcw => hc ⟨by rw [rgu]; exact hcw.1, hcw.2⟩)]
      rw [if_neg hc] at hb
      rw [(phaseReset_known s).1 v] at hb
      simp only [Bool.and_eq_true] at hb
      rw [(phaseReset_vals s).1, (phaseReset_vals (autoSolve sq cs sn a2 s)).1]
      refine ((autoSolve_vals_userSet sq cs sn a2 s h v ?_).1 hb.1).symm
      intro he hsa
      refine hc ⟨?_, he⟩
      rw [(phaseReset_userSet s).2.2.1, (phaseReset_userSet s).2.2.2.1, hsa.1, hsa.2]
      rfl
  · rw [(phaseSeedVel_userSet cs sn (phaseReset s)).2.1, (phaseSeedVel_userSet cs sn (phaseReset (autoSolve sq cs sn a2 s))).2.1,
      (phaseReset_userSet s).2.1, (phaseReset_userSet (autoSolve sq cs sn a2 s)).2.1, uay]
  · refine Flags_ext_get (fun v => ?_)
    rw [(phaseSeedVel_known_get cs sn (phaseReset s) v).2, (phaseSeedVel_known_get cs sn (phaseReset (autoSolve sq cs sn a2 s)) v).2,
      hky v, rgu]
  · intro v hb
    rw [(phaseSeedVel_known_get cs sn (phaseReset s) v).2] at hb
    rw [(phaseSeedVel_vals_get cs sn (phaseReset s) v).2, (phaseSeedVel_vals_get cs sn (phaseReset (autoSolve sq cs sn a2 s)) v).2]
    by_cases hc : ((phaseReset s).speedUserSet && (phaseReset s).angleUserSet) = true ∧ v = Var.v0
    · rw [if_pos hc, if_pos ⟨by rw [← rgu]; exact hc.1, hc.2⟩]
      obtain ⟨hl, ha⟩ := hguard hc.1
      rw [hl, ha]
    · rw [if_neg hc, if_neg (fun hcw => hc ⟨by rw [rgu]; exact hcw.1, hcw.2⟩)]
      rw [if_neg hc] at hb
      rw [(phaseReset_known s).2.1 v] at hb
      simp only [Bool.and_eq_true] at hb
      rw [(phaseReset_vals s).2.1, (phaseReset_vals (autoSolve sq cs sn a2 s)).2.1]
      refine ((autoSolve_vals_userSet sq cs sn a2 s h v ?_).2 hb.1).symm
      intro he hsa
      refine hc ⟨?_, he⟩
      rw [(phaseReset_userSet s).2.2.1, (phaseReset_userSet s).2.2.2.1, hsa.1, hsa.2]
      rfl
  · rw [(phaseSeedVel_scalars cs sn (phaseReset s)).2.2.2.1, (phaseSeedVel_scalars cs sn (phaseReset (autoSolve sq cs sn a2 s))).2.2.2.1]
    exact hk_speed
  · rw [(phaseSeedVel_scalars cs sn (phaseReset s)).2.2.2.2.1, (phaseSeedVel_scalars cs sn (phaseReset (autoSolve sq cs sn a2 s))).2.2.2.2.1]
    exact hk_angle
  · rw [(phaseSeedVel_scalars cs sn (phaseReset s)).2.2.2.2.2, (phaseSeedVel_scalars cs sn (phaseReset (autoSolve sq cs sn a2 s))).2.2.2.2.2]
    exact hk_final
  · rw [(phaseSeedVel_userSet cs sn (phaseReset s)).2.2.1, (phaseSeedVel_userSet cs sn (phaseReset (autoSolve sq cs sn a2 s))).2.2.1,
      (phaseReset_userSet s).2.2.1, (phaseReset_userSet (autoSolve sq cs sn a2 s)).2.2.1, uas]
  · rw [(phaseSeedVel_userSet cs sn (phaseReset s)).2.2.2.1, (phaseSeedVel_userSet cs sn (phaseReset (autoSolve sq cs sn a2 s))).2.2.2.1,
      (phaseReset_userSet s).2.2.2.1, (phaseReset_userSet (autoSolve sq cs sn a2 s)).2.2.2.1, uaa]
  · rw [(phaseSeedVel_userSet cs sn (phaseReset s)).2.2.2.2, (phaseSeedVel_userSet cs sn (phaseReset (autoSolve sq cs sn a2 s))).2.2.2.2,
      (phaseReset_userSet s).2.2.2.2, (phaseReset_userSet (autoSolve sq cs sn a2 s)).2.2.2.2, uaf]
  · intro hb
    rw [(phaseSeedVel_scalars cs sn (phaseReset s)).2.2.2.1] at hb
    rw [(phaseSeedVel_scalars cs sn (phaseReset s)).1, (phaseSeedVel_scalars cs sn (phaseReset (autoSolve sq cs sn a2 s))).1]
    exact hv_speed hb
  · intro hb
    rw [(phaseSeedVel_scalars cs sn (phaseReset s)).2.2.2.2.1] at hb
    rw [(phaseSeedVel_scalars cs sn (phaseReset s)).2.1, (phaseSeedVel_scalars cs sn (phaseReset (autoSolve sq cs sn a2 s))).2.1]
    exact hv_angle hb
  · intro hb
    rw [(phaseSeedVel_scalars cs sn (phaseReset s)).2.2.2.2.2] at hb
    rw [(phaseSeedVel_scalars cs sn (phaseReset s)).2.2.1, (phaseSeedVel_scalars cs sn (phaseReset (autoSolve sq cs sn a2 s))).2.2.1]
    exact hv_final hb

/-- C3 (amended): under the data-model invariant `userSet => known`
(which every state reachable through the UI satisfies), running
`autoSolve` twice with no edits in between gives the same values, known
flags and user-set flags — for all fourteen axis variables and the
three coupling scalars — as running it once.  On states violating the
invariant idempotence fails (see `claim_C3_cex`). -/
theorem claim_C3 (sq cs sn : ℚ → ℚ) (a2 : ℚ → ℚ → ℚ) (s : PState)
    (h : Valid s) :
    autoSolve sq cs sn a2 (autoSolve sq cs sn a2 s) = autoSolve sq cs sn a2 s := by
  have h1 : Valid (autoSolve sq cs sn a2 s) := autoSolve_valid sq cs sn a2 s h
  obtain ⟨uax, uay, uas, uaa, uaf⟩ := autoSolve_userSet sq cs sn a2 s
  have rgu : ((phaseReset s).speedUserSet && (phaseReset s).angleUserSet) =
      ((phaseReset (autoSolve sq cs sn a2 s)).speedUserSet && (phaseReset (autoSolve sq cs sn a2 s)).angleUserSet) := by
    rw [(phaseReset_userSet s).2.2.1, (phaseReset_userSet (autoSolve sq cs sn a2 s)).2.2.1,
      (phaseReset_userSet s).2.2.2.1, (phaseReset_userSet (autoSolve sq cs sn a2 s)).2.2.2.1, uas, uaa]
  have tr0 := idem_establish sq cs sn a2 s h
  have hvU : Valid (phaseSeedVel cs sn (phaseReset s)) := phaseSeedVel_valid cs sn (phaseReset s) (phaseReset_valid s h)
  have hvW : Valid (phaseSeedVel cs sn (phaseReset (autoSolve sq cs sn a2 s))) := phaseSeedVel_valid cs sn (phaseReset (autoSolve sq cs sn a2 s)) (phaseReset_valid (autoSolve sq cs sn a2 s) h1)
  have tr1 := phaseSeedFinal_track sq (phaseSeedVel cs sn (phaseReset s)) (phaseSeedVel cs sn (phaseReset (autoSolve sq cs sn a2 s))) (phaseSeedVel cs sn (phaseReset s)) (phaseSeedVel cs sn (phaseReset (autoSolve sq cs sn a2 s))) hvU hvW tr0
  have hvU2 := phaseSeedFinal_valid sq (phaseSeedVel cs sn (phaseReset s)) hvU
  have hvW2 := phaseSeedFinal_valid sq (phaseSeedVel cs sn (phaseReset (autoSolve sq cs sn a2 s))) hvW
  have tr2 := phaseSeedTime_track (phaseSeedVel cs sn (phaseReset s)) (phaseSeedVel cs sn (phaseReset (autoSolve sq cs sn a2 s))) _ _ hvU2 hvW2 tr1
  have tr3 := phasePass_track sq (phaseSeedVel cs sn (phaseReset s)) (phaseSeedVel cs sn (phaseReset (autoSolve sq cs sn a2 s))) _ _ tr2
  have tr4 := phasePass_track sq (phaseSeedVel cs sn (phaseReset s)) (phaseSeedVel cs sn (phaseReset (autoSolve sq cs sn a2 s))) _ _ tr3
  have tr5 := phasePass_track sq (phaseSeedVel cs sn (phaseReset s)) (phaseSeedVel cs sn (phaseReset (autoSolve sq cs sn a2 s))) _ _ tr4
  have tr6 := phaseBack_track sq a2 (phaseSeedVel cs sn (phaseReset s)) (phaseSeedVel cs sn (phaseReset (autoSolve sq cs sn a2 s))) _ _ tr5
  rw [← autoSolve_pipeline sq cs sn a2 s, ← autoSolve_pipeline sq cs sn a2 (autoSolve sq cs sn a2 s)] at tr6
  obtain ⟨tx, ty, k3, k4, k5, u6, u7, u8, d9, d10, d11⟩ := tr6
  obtain ⟨txu, txk, txv⟩ := tx
  obtain ⟨tyu, tyk, tyv⟩ := ty
  have hx_vals : ∀ v,
      (autoSolve sq cs sn a2 (autoSolve sq cs sn a2 s)).x.vals.get v =
        (autoSolve sq cs sn a2 s).x.vals.get v := by
    intro v
    rcases txv v with hval | ⟨hk0, hva, hvb⟩
    · exact hval.symm
    · rw [hvb, (phaseSeedVel_vals_get cs sn (phaseReset (autoSolve sq cs sn a2 s)) v).1]
      by_cases hc1 : ((phaseReset (autoSolve sq cs sn a2 s)).speedUserSet && (phaseReset (autoSolve sq cs sn a2 s)).angleUserSet) = true ∧ v = Var.v0
      · exfalso
        have hu1 : (phaseSeedVel cs sn (phaseReset s)).x.known.get v = true := by
          rw [(phaseSeedVel_known_get cs sn (phaseReset s) v).1,
            if_pos ⟨by rw [rgu]; exact hc1.1, hc1.2⟩]
        have hmono := (tail_known_mono sq a2 (phaseSeedVel cs sn (phaseReset s)) v).1 hu1
        rw [← autoSolve_pipeline sq cs sn a2 s] at hmono
        rw [hk0] at hmono
        simp at hmono
      · rw [if_neg hc1, (phaseReset_vals (autoSolve sq cs sn a2 s)).1]
  have hy_vals : ∀ v,
      (autoSolve sq cs sn a2 (autoSolve sq cs sn a2 s)).y.vals.get v =
        (autoSolve sq cs sn a2 s).y.vals.get v := by
    intro v
    rcases tyv v with hval | ⟨hk0, hva, hvb⟩
    · exact hval.symm
    · rw [hvb, (phaseSeedVel_vals_get cs sn (phaseReset (autoSolve sq cs sn a2 s)) v).2]
      by_cases hc1 : ((phaseReset (autoSolve sq cs sn a2 s)).speedUserSet && (phaseReset (autoSolve sq cs sn a2 s)).angleUserSet) = true ∧ v = Var.v0
      · exfalso
        have hu1 : (phaseSeedVel cs sn (phaseReset s)).y.known.get v = true := by
          rw [(phaseSeedVel_known_get cs sn (phaseReset s) v).2,
            if_pos ⟨by rw [rgu]; exact hc1.1, hc1.2⟩]
        have hmono := (tail_known_mono sq a2 (phaseSeedVel cs sn (phaseReset s)) v).2 hu1
        rw [← autoSolve_pipeline sq cs sn a2 s] at hmono
        rw [hk0] at hmono
        simp at hmono
      · rw [if_neg hc1, (phaseReset_vals (autoSolve sq cs sn a2 s)).2.1]
  have hls : (autoSolve sq cs sn a2 (autoSolve sq cs sn a2 s)).launchSpeed =
      (autoSolve sq cs sn a2 s).launchSpeed := by
    rcases d9 with hval | ⟨hk0, hva, hvb⟩
    · exact hval.symm
    · rw [hvb, (phaseSeedVel_scalars cs sn (phaseReset (autoSolve sq cs sn a2 s))).1, (phaseReset_vals (autoSolve sq cs sn a2 s)).2.2.1]
  have hla : (autoSolve sq cs sn a2 (autoSolve sq cs sn a2 s)).launchAngle =
      (autoSolve sq cs sn a2 s).launchAngle := by
    rcases d10 with hval | ⟨hk0, hva, hvb⟩
    · exact hval.symm
    · rw [hvb, (phaseSeedVel_scalars cs sn (phaseReset (autoSolve sq cs sn a2 s))).2.1, (phaseReset_vals (autoSolve sq cs sn a2 s)).2.2.2.1]
  have hlf : (autoSolve sq cs sn a2 (autoSolve sq cs sn a2 s)).finalSpeed =
      (autoSolve sq cs sn a2 s).finalSpeed := by
    rcases d11 with hval | ⟨hk0, hva, hvb⟩
    · exact hval.symm
    · rw [hvb, (phaseSeedVel_scalars cs sn (phaseReset (autoSolve sq cs sn a2 s))).2.2.1, (phaseReset_vals (autoSolve sq cs sn a2 s)).2.2.2.2]
  refine PState_ext _ _ ?_ ?_ hls hla hlf k3.symm k4.symm k5.symm u6.symm u7.symm u8.symm
  · exact Axis_ext _ _ (Vals_ext_get hx_vals) txk.symm txu.symm
  · exact Axis_ext _ _ (Vals_ext_get hy_vals) tyk.symm tyu.symm

theorem claim_C3_witness :
    Valid initData ∧
    autoSolve sqZ csZ snZ a2Z (autoSolve sqZ csZ snZ a2Z initData) =
      autoSolve sqZ csZ snZ a2Z initData :=
  ⟨by decide, claim_C3 sqZ csZ snZ a2Z initData (by decide)⟩

end Kin

